import Mathlib

/-!
# Cache synchronisation handlers of the discord.js fork

A shallow embedding of the gateway action handlers, the entity structures
they patch and the stores they mutate.

JavaScript objects have identity, so every class of cached object lives in a
heap (a list addressed by position) and the stores hold references into it.
A handler is a function from the client state and the raw payload to the new
client state and the handler's return value; `client.emit` appends to the
list of emitted events.
-/

namespace DiscordJS

/-- A platform identifier (a decimal string on the wire). -/
abbrev Snowflake := String

/-- A reference to an object: its position in the heap of its class. -/
abbrev Ref := Nat

/-! ## Object heaps -/

/-- The heap of the objects of one class. -/
abbrev Heap (α : Type) := List α

/-- Allocation of a new object: it gets the next free reference. -/
def Heap.alloc {α : Type} (h : Heap α) (o : α) : Heap α × Ref :=
  (h ++ [o], h.length)

/-- In-place mutation of the object behind a reference. -/
def Heap.mutate {α : Type} (h : Heap α) (r : Ref) (f : α → α) : Heap α :=
  match h[r]? with
  | some o => h.set r (f o)
  | none => h

/-! ## Keyed collections (the JavaScript `Map` behind `Collection`) -/

/-- A keyed collection in insertion order. -/
abbrev JSMap (κ ν : Type) := List (κ × ν)

/-- The lookup `Map.prototype.get`; `none` is `undefined`. -/
def JSMap.get {κ ν : Type} [DecidableEq κ] : JSMap κ ν → κ → Option ν
  | [], _ => none
  | (k', v) :: t, k => if k' = k then some v else JSMap.get t k

/-- The membership test `Map.prototype.has`. -/
def JSMap.has {κ ν : Type} [DecidableEq κ] (m : JSMap κ ν) (k : κ) : Bool :=
  (m.get k).isSome

/-- The update `Map.prototype.set`: an existing key keeps its position. -/
def JSMap.set {κ ν : Type} [DecidableEq κ] : JSMap κ ν → κ → ν → JSMap κ ν
  | [], k, v => [(k, v)]
  | (k', v') :: t, k, v =>
    if k' = k then (k', v) :: t else (k', v') :: JSMap.set t k v

/-- The removal `Map.prototype.delete`. -/
def JSMap.delete {κ ν : Type} [DecidableEq κ] : JSMap κ ν → κ → JSMap κ ν
  | [], _ => []
  | (k', v') :: t, k =>
    if k' = k then JSMap.delete t k else (k', v') :: JSMap.delete t k

/-- The values of the collection, in insertion order (`Map.prototype.values`). -/
def JSMap.values {κ ν : Type} (m : JSMap κ ν) : List ν :=
  m.map Prod.snd

/-- A cache of a manager: identifier to object reference. -/
abbrev Collection := JSMap Snowflake Ref

/-! ## Constants and dates -/

/-- The component kinds `BaseMessageComponent.create` switches on, in the order
of its cases; each is a key of the table `MessageComponentTypes`. -/
inductive ComponentKind where
  | ACTION_ROW | BUTTON | SELECT_MENU | USER_SELECT | ROLE_SELECT | MENTIONABLE_SELECT
  | CHANNEL_SELECT | TEXT_INPUT | SECTION | TEXT_DISPLAY | THUMBNAIL | MEDIA_GALLERY | FILE
  | SEPARATOR | CONTAINER | LABEL | FILE_UPLOAD | RADIO_GROUP | CHECKBOX_GROUP | CHECKBOX
deriving DecidableEq, Repr

/-- The kinds in the order of the cases of the switch. -/
def ComponentKind.all : List ComponentKind :=
  [.ACTION_ROW, .BUTTON, .SELECT_MENU, .USER_SELECT, .ROLE_SELECT, .MENTIONABLE_SELECT,
   .CHANNEL_SELECT, .TEXT_INPUT, .SECTION, .TEXT_DISPLAY, .THUMBNAIL, .MEDIA_GALLERY, .FILE,
   .SEPARATOR, .CONTAINER, .LABEL, .FILE_UPLOAD, .RADIO_GROUP, .CHECKBOX_GROUP, .CHECKBOX]

/-- The string name of a kind, its key in `MessageComponentTypes`. -/
def ComponentKind.name : ComponentKind → String
  | .ACTION_ROW => "ACTION_ROW"
  | .BUTTON => "BUTTON"
  | .SELECT_MENU => "SELECT_MENU"
  | .USER_SELECT => "USER_SELECT"
  | .ROLE_SELECT => "ROLE_SELECT"
  | .MENTIONABLE_SELECT => "MENTIONABLE_SELECT"
  | .CHANNEL_SELECT => "CHANNEL_SELECT"
  | .TEXT_INPUT => "TEXT_INPUT"
  | .SECTION => "SECTION"
  | .TEXT_DISPLAY => "TEXT_DISPLAY"
  | .THUMBNAIL => "THUMBNAIL"
  | .MEDIA_GALLERY => "MEDIA_GALLERY"
  | .FILE => "FILE"
  | .SEPARATOR => "SEPARATOR"
  | .CONTAINER => "CONTAINER"
  | .LABEL => "LABEL"
  | .FILE_UPLOAD => "FILE_UPLOAD"
  | .RADIO_GROUP => "RADIO_GROUP"
  | .CHECKBOX_GROUP => "CHECKBOX_GROUP"
  | .CHECKBOX => "CHECKBOX"

/-- The media of a gallery item. -/
structure UnfurledMediaItem where
  url : Option String
deriving DecidableEq, Repr

/-- The options a gallery item is constructed from; an absent property is
`none`. -/
structure MediaGalleryItemOptions where
  media : Option UnfurledMediaItem
  description : Option String
  spoiler : Option Bool
deriving DecidableEq, Repr

/-- A `MediaGalleryItem` object; in `media` and `description`, `none` is
`undefined`. -/
structure MediaGalleryItem where
  media : Option UnfurledMediaItem
  description : Option String
  spoiler : Bool
deriving DecidableEq, Repr

/-- What resolves to a gallery item: an item or the options of one. -/
inductive MediaGalleryItemResolvable where
  | «instance» (item : MediaGalleryItem)
  | options (data : MediaGalleryItemOptions)
deriving DecidableEq, Repr

/-- The constructor of `MediaGalleryItem`. -/
def MediaGalleryItem.new (data : MediaGalleryItemOptions) : MediaGalleryItem :=
  { media := data.media, description := data.description, spoiler := data.spoiler.getD false }

/-- The static method `MediaGalleryItem.create(data)`: an item is returned as it
is, options are given to the constructor. -/
def MediaGalleryItem.create : MediaGalleryItemResolvable → MediaGalleryItem
  | .«instance» item => item
  | .options data => MediaGalleryItem.new data

/-- A value of a property of raw data, as far as the embedded code reads it: a
primitive, the media object of an item, or an array of gallery items. An absent
property (`undefined`) is not a value. -/
inductive JSValue where
  | null
  | bool (b : Bool)
  | number (n : Int)
  | string (s : String)
  | media (m : UnfurledMediaItem)
  | items (l : List MediaGalleryItemResolvable)
deriving DecidableEq, Repr

/-- JavaScript truthiness of a property; `none` is `undefined`. -/
def JSValue.truthy : Option JSValue → Bool
  | some (.bool b) => b
  | some (.number n) => n != 0
  | some (.string s) => s != ""
  | some (.media _) => true
  | some (.items _) => true
  | some .null => false
  | none => false

/-- The tables of `util/Constants` the embedded code indexes. The module is not
among the sources, so its tables are a parameter of the code that reads them. -/
structure Constants where
  /-- The table `EntitlementTypes`, indexed by the wire code. -/
  EntitlementTypes : Nat → Option String
  /-- The table `SubscriptionStatuses`, indexed by the wire code. -/
  SubscriptionStatuses : Nat → Option String
  /-- The code `Status.READY`. -/
  READY : Nat
  /-- The table `SKUTypes`, indexed by the wire code. -/
  SKUTypes : Nat → Option String
  /-- The numeric code `MessageComponentTypes.KIND` of each component kind. -/
  MessageComponentTypes : ComponentKind → Nat
  /-- The constant `MaxBulkDeletableMessageAge`, in milliseconds. -/
  MaxBulkDeletableMessageAge : Int
  /-- The table `SeparatorSpacing`, indexed by a property value; `none` is
  `undefined`. -/
  SeparatorSpacing : JSValue → Option JSValue

/-- A JavaScript `Date` as built by `new Date(arg)`: the argument it was built
from (`none` is `undefined`). -/
structure JSDate where
  arg : Option String
deriving DecidableEq, Repr

/-- Truthiness of an optional string field of a payload: absent, `null` and the
empty string are falsy. -/
def truthy (v : Option String) : Bool :=
  match v with
  | some s => s != ""
  | none => false

/-! ## Entitlement (`structures/Entitlement.js`) -/

/-- The raw entitlement payload. An absent (or `null`) field is `none`. -/
structure EntitlementData where
  id : Snowflake
  sku_id : Option Snowflake
  application_id : Option Snowflake
  user_id : Option Snowflake
  promotion_id : Option Snowflake
  type : Option Nat
  deleted : Option Bool
  guild_id : Option Snowflake
  starts_at : Option String
  ends_at : Option String
  consumed : Option Bool
deriving DecidableEq, Repr

/-- An `Entitlement` object. In `skuId`, `applicationId` and `type`, `none` is
`undefined`; in the other optional fields it is `null`. -/
structure Entitlement where
  id : Snowflake
  skuId : Option Snowflake
  applicationId : Option Snowflake
  userId : Option Snowflake
  promotionId : Option Snowflake
  type : Option String
  deleted : Bool
  guildId : Option Snowflake
  startsAt : Option JSDate
  endsAt : Option JSDate
  consumed : Bool
deriving DecidableEq, Repr

/-- The method `Entitlement._patch`. -/
def Entitlement._patch (K : Constants) (e : Entitlement) (data : EntitlementData) : Entitlement :=
  { e with
    skuId := data.sku_id
    applicationId := data.application_id
    userId := data.user_id
    promotionId := data.promotion_id
    type := data.type.bind K.EntitlementTypes
    deleted := data.deleted.getD false
    guildId := data.guild_id
    startsAt := if truthy data.starts_at then some ⟨data.starts_at⟩ else none
    endsAt := if truthy data.ends_at then some ⟨data.ends_at⟩ else none
    consumed := data.consumed.getD false }

/-- The constructor of `Entitlement`: it sets `id` and patches the new object
with the payload. -/
def Entitlement.new (K : Constants) (data : EntitlementData) : Entitlement :=
  Entitlement._patch K
    { id := data.id, skuId := none, applicationId := none, userId := none, promotionId := none,
      type := none, deleted := false, guildId := none, startsAt := none, endsAt := none,
      consumed := false }
    data

/-! ## Subscription (`structures/Subscription.js`) -/

/-- The raw subscription payload. An absent (or `null`) field is `none`. -/
structure SubscriptionData where
  id : Snowflake
  user_id : Option Snowflake
  sku_ids : Option (List Snowflake)
  entitlement_ids : Option (List Snowflake)
  current_period_start : Option String
  current_period_end : Option String
  status : Option Nat
  renewal_sku_ids : Option (List Snowflake)
  canceled_at : Option String
  country : Option String
deriving DecidableEq, Repr

/-- A `Subscription` object. In `renewalSkuIds`, `canceledAt` and `country`,
`none` is `null`; in the other optional fields it is `undefined`. The class
never assigns a property `deleted`: the field `deleted` is what reading
`subscription.deleted` yields, `none` (`undefined`) on every object the
constructor builds. -/
structure Subscription where
  id : Snowflake
  userId : Option Snowflake
  skuIds : Option (List Snowflake)
  entitlementIds : Option (List Snowflake)
  currentPeriodStart : JSDate
  currentPeriodEnd : JSDate
  status : Option String
  renewalSkuIds : Option (List Snowflake)
  canceledAt : Option JSDate
  country : Option String
  deleted : Option Bool
deriving DecidableEq, Repr

/-- The method `Subscription._patch`. -/
def Subscription._patch (K : Constants) (s : Subscription) (data : SubscriptionData) : Subscription :=
  { s with
    userId := data.user_id
    skuIds := data.sku_ids
    entitlementIds := data.entitlement_ids
    currentPeriodStart := ⟨data.current_period_start⟩
    currentPeriodEnd := ⟨data.current_period_end⟩
    status := data.status.bind K.SubscriptionStatuses
    renewalSkuIds := data.renewal_sku_ids
    canceledAt := if truthy data.canceled_at then some ⟨data.canceled_at⟩ else none
    country := data.country }

/-- The constructor of `Subscription`: it sets `id` and patches the new object
with the payload. -/
def Subscription.new (K : Constants) (data : SubscriptionData) : Subscription :=
  Subscription._patch K
    { id := data.id, userId := none, skuIds := none, entitlementIds := none,
      currentPeriodStart := ⟨none⟩, currentPeriodEnd := ⟨none⟩, status := none,
      renewalSkuIds := none, canceledAt := none, country := none, deleted := none }
    data

/-! ## SKU (`structures/SKU.js`) -/

/-- The raw SKU payload. An absent (or `null`) field is `none`. -/
structure SKUData where
  id : Snowflake
  type : Option Nat
  application_id : Option Snowflake
  name : Option String
  slug : Option String
  flags : Option Nat
deriving DecidableEq, Repr

/-- A `SKU` object; `none` is `undefined`. `flags` is the bitfield of the frozen
`SKUFlags` object, 0 when the payload has no flags. -/
structure SKU where
  id : Snowflake
  type : Option String
  applicationId : Option Snowflake
  name : Option String
  slug : Option String
  flags : Nat
deriving DecidableEq, Repr

/-- The method `SKU._patch`. -/
def SKU._patch (K : Constants) (s : SKU) (data : SKUData) : SKU :=
  { s with
    type := data.type.bind K.SKUTypes
    applicationId := data.application_id
    name := data.name
    slug := data.slug
    flags := data.flags.getD 0 }

/-- The constructor of `SKU`: it sets `id` and patches the new object with the
payload. -/
def SKU.new (K : Constants) (data : SKUData) : SKU :=
  SKU._patch K
    { id := data.id, type := none, applicationId := none, name := none, slug := none, flags := 0 }
    data

/-! ## Lifecycle helpers of `Base` and `CachedManager` -/

/-- Reading a cache: the object stored under a key, with its reference. -/
def Heap.lookup {α κ : Type} [DecidableEq κ] (h : Heap α) (cache : JSMap κ Ref) (k : κ) :
    Option (Ref × α) :=
  match cache.get k with
  | some r =>
    match h[r]? with
    | some o => some (r, o)
    | none => none
  | none => none

/-- Modelled from the spec: `Base._clone` (structures/Base.js is not among the
sources). It returns a detached snapshot: a new object holding a shallow copy of
the field values of the original. -/
def Base._clone {α : Type} (h : Heap α) (o : α) : Heap α × Ref :=
  h.alloc o

/-- Modelled from the spec: `CachedManager._add` (managers/CachedManager.js is
not among the sources), the upsert of the entity store: when the identifier is
absent a new entity is constructed and inserted, when it is present the existing
instance is patched in place; the instance is returned. -/
def CachedManager._add {α δ : Type} (construct : δ → α) (patch : α → δ → α) (key : δ → Snowflake)
    (h : Heap α) (cache : Collection) (data : δ) : Heap α × Collection × Ref :=
  match Heap.lookup h cache (key data) with
  | some (r, _) => (h.mutate r (fun o => patch o data), cache, r)
  | none => ((h.alloc (construct data)).1, cache.set (key data) (h.alloc (construct data)).2,
      (h.alloc (construct data)).2)

/-- The method `Entitlement._clone`: the clone of `Base`. -/
def Entitlement._clone (h : Heap Entitlement) (e : Entitlement) : Heap Entitlement × Ref :=
  Base._clone h e

/-- The method `Subscription._clone`: the clone of `Base`. -/
def Subscription._clone (h : Heap Subscription) (s : Subscription) : Heap Subscription × Ref :=
  Base._clone h s

/-- The constructor and the `_patch` method of a class whose file is not among
the sources (Guild, GuildMember, StageInstance): a parameter of the code that
calls them. -/
structure ClassOps (α δ : Type) where
  construct : δ → α
  _patch : α → δ → α

/-! ## Poll answers (`structures/PollAnswer.js`) -/

/-- The raw poll answer payload; `count` is `none` when the key is absent. -/
structure PollAnswerData where
  answer_id : Nat
  text : Option String
  emoji : Option (Option Snowflake × Option String)
  count : Option Nat
deriving DecidableEq, Repr

/-- A `PollAnswer` object. -/
structure PollAnswer where
  id : Nat
  text : Option String
  _emoji : Option (Option Snowflake × Option String)
  voteCount : Nat
deriving DecidableEq, Repr

/-- The method `PollAnswer._patch`: a payload with a `count` overwrites the vote
count, one without leaves a numeric count as it is. -/
def PollAnswer._patch (a : PollAnswer) (data : PollAnswerData) : PollAnswer :=
  match data.count with
  | some n => { a with voteCount := n }
  | none => a

/-- The constructor of `PollAnswer`. The new object has no vote count when
`_patch` runs, so `this.voteCount ??= 0` sets it to 0 for a payload without a
`count`: the object handed to `_patch` here carries that 0. -/
def PollAnswer.new (data : PollAnswerData) : PollAnswer :=
  PollAnswer._patch
    { id := data.answer_id, text := data.text, _emoji := data.emoji, voteCount := 0 } data

/-- The increment `answer.voteCount++`. -/
def PollAnswer.incr (a : PollAnswer) : PollAnswer :=
  { a with voteCount := a.voteCount + 1 }

/-! ## Classes read by the handlers whose files are not among the sources

Each structure lists the properties the embedded handlers read or write; `props`
stands for the remaining properties, which only the class itself interprets. -/

/-- A poll of a message: its answers by answer id. -/
structure Poll where
  answers : JSMap Nat Ref
deriving DecidableEq, Repr

/-- A cached message. -/
structure Message where
  id : Snowflake
  poll : Option Poll
deriving DecidableEq, Repr

/-- A cached channel (threads included). `messages` is the cache of its message
manager, `none` for a channel kind that has none; `guild` is its guild; `deleted`
is the mark the removal from the store leaves on the instance. -/
structure Channel where
  id : Snowflake
  isTextBased : Bool
  messages : Option Collection
  guild : Option Ref
  deleted : Bool
deriving DecidableEq, Repr

/-- A cached guild member. -/
structure GuildMember where
  id : Snowflake
  props : List (String × String)
deriving DecidableEq, Repr

/-- The raw guild member payload of GUILD_MEMBER_ADD. -/
structure GuildMemberData where
  id : Snowflake
  guild_id : Snowflake
  props : List (String × String)
deriving DecidableEq, Repr

/-- A cached stage instance. -/
structure StageInstance where
  id : Snowflake
  props : List (String × String)
deriving DecidableEq, Repr

/-- The raw stage instance payload. -/
structure StageInstanceData where
  id : Snowflake
  channel_id : Snowflake
  props : List (String × String)
deriving DecidableEq, Repr

/-- A cached guild; `members` and `stageInstances` are the caches of its
managers. -/
structure Guild where
  id : Snowflake
  available : Bool
  memberCount : Nat
  shardId : Option Nat
  members : Collection
  stageInstances : Collection
  props : List (String × String)
deriving DecidableEq, Repr

/-- The raw guild payload of GUILD_CREATE; `shardId` is the property the
handler adds. -/
structure GuildData where
  id : Snowflake
  unavailable : Option Bool
  shardId : Option Nat
  props : List (String × String)
deriving DecidableEq, Repr

/-- The shard a packet came from. -/
structure Shard where
  id : Nat
  status : Nat
deriving DecidableEq, Repr

/-- The payload of THREAD_DELETE. -/
structure ThreadDeleteData where
  id : Snowflake
deriving DecidableEq, Repr

/-- The payload of MESSAGE_POLL_VOTE_ADD. -/
structure MessagePollVoteData where
  channel_id : Snowflake
  message_id : Snowflake
  answer_id : Nat
  user_id : Snowflake
deriving DecidableEq, Repr

/-! ## Events and the client state -/

/-- An event passed to `client.emit`, with its arguments. -/
inductive Event where
  | entitlementUpdate (oldEntitlement : Option Ref) (newEntitlement : Ref)
  | entitlementDelete (entitlement : Ref)
  | subscriptionCreate (subscription : Ref)
  | subscriptionUpdate (oldSubscription : Option Ref) (newSubscription : Ref)
  | subscriptionDelete (subscription : Ref)
  | threadDelete (thread : Ref)
  | messagePollVoteAdd (pollAnswer : Ref) (userId : Snowflake)
  | stageInstanceUpdate (oldStageInstance : Option Ref) (newStageInstance : Ref)
  | guildAvailable (guild : Ref)
  | guildCreate (guild : Ref)
  | guildMemberAdd (member : Ref)
  | debug (message : String)
deriving DecidableEq, Repr

/-- A key of the registry of deleted messages. A JavaScript `Map` takes any
value as a key: an identifier or an object. -/
inductive MessageKey where
  | id (id : Snowflake)
  | object (message : Ref)
deriving DecidableEq, Repr

/-- The state the handlers act on: the object heaps, the caches of the client's
managers, the module-level tombstone registries, the status of the websocket
manager and the events emitted so far. -/
structure Client where
  entitlementObjs : Heap Entitlement
  subscriptionObjs : Heap Subscription
  guildObjs : Heap Guild
  memberObjs : Heap GuildMember
  channelObjs : Heap Channel
  messageObjs : Heap Message
  answerObjs : Heap PollAnswer
  stageInstanceObjs : Heap StageInstance
  skuObjs : Heap SKU
  /-- The cache `client.application.skus.cache`. -/
  skus : Collection
  /-- The cache `client.application.entitlements.cache`. -/
  entitlements : Collection
  /-- The cache `client.application.subscriptions.cache`. -/
  subscriptions : Collection
  /-- The cache `client.guilds.cache`. -/
  guilds : Collection
  /-- The cache `client.channels.cache`. -/
  channels : Collection
  /-- The cache `client.users.cache`. -/
  users : Collection
  deletedChannels : JSMap Snowflake Nat
  /-- The registry of deleted messages. -/
  deletedMessages : JSMap MessageKey Nat
  deletedGuildMembers : JSMap Snowflake Nat
  deletedStageInstances : JSMap Snowflake Nat
  /-- The status `client.ws.status`. -/
  wsStatus : Nat
  emitted : List Event
deriving DecidableEq, Repr

/-- A client with nothing cached and nothing emitted. -/
def Client.empty : Client :=
  { entitlementObjs := [], subscriptionObjs := [], guildObjs := [], memberObjs := [],
    channelObjs := [], messageObjs := [], answerObjs := [], stageInstanceObjs := [],
    skuObjs := [], skus := [], entitlements := [], subscriptions := [], guilds := [], channels := [],
    users := [], deletedChannels := [], deletedMessages := [], deletedGuildMembers := [],
    deletedStageInstances := [], wsStatus := 0, emitted := [] }

/-- The call `client.emit(event, ...)`. -/
def Client.emit (client : Client) (e : Event) : Client :=
  { client with emitted := client.emitted ++ [e] }

/-! ## Entity resolution of `Action` and removal of `ChannelManager` -/

/-- Modelled from the spec: `Action.getChannel` (client/actions/Action.js is not
among the sources). The handler resolves the channel the payload references from
the channel store; an uncached channel is not resolved. -/
def Action.getChannel (client : Client) (channel_id : Snowflake) : Option (Ref × Channel) :=
  Heap.lookup client.channelObjs client.channels channel_id

/-- Modelled from the spec: `Action.getMessage` (client/actions/Action.js is not
among the sources). The handler resolves the message the payload references from
the message store of the channel; an uncached message is not resolved. -/
def Action.getMessage (client : Client) (channel : Channel) (message_id : Snowflake) :
    Option (Ref × Message) :=
  match channel.messages with
  | some cache => Heap.lookup client.messageObjs cache message_id
  | none => none

/-- Modelled from the spec: `ChannelManager._remove` (managers/ChannelManager.js
is not among the sources), the removal of the entity store: it deletes the entry
of the identifier when there is one and marks the prior instance as deleted. -/
def ChannelManager._remove (client : Client) (id : Snowflake) : Client :=
  match Heap.lookup client.channelObjs client.channels id with
  | some (r, _) =>
    { client with
      channelObjs := client.channelObjs.mutate r (fun ch => { ch with deleted := true })
      channels := client.channels.delete id }
  | none => client

/-! ## Action handlers (`client/actions`) -/

/-- The handler `EntitlementUpdateAction.handle`; it returns
`{ oldEntitlement, newEntitlement }`. -/
def EntitlementUpdateAction.handle (K : Constants) (client : Client) (data : EntitlementData) :
    Client × Option Ref × Ref :=
  -- client.application.entitlements.cache.get(data.id)?._clone() ?? null
  let snap : Heap Entitlement × Option Ref :=
    match Heap.lookup client.entitlementObjs client.entitlements data.id with
    | some (_, e) => ((Entitlement._clone client.entitlementObjs e).1,
        some (Entitlement._clone client.entitlementObjs e).2)
    | none => (client.entitlementObjs, none)
  let oldEntitlement := snap.2
  -- client.application.entitlements._add(data)
  let added := CachedManager._add (Entitlement.new K) (Entitlement._patch K)
    EntitlementData.id snap.1 client.entitlements data
  let newEntitlement := added.2.2
  (({ client with entitlementObjs := added.1, entitlements := added.2.1 } : Client).emit
      (Event.entitlementUpdate oldEntitlement newEntitlement),
    oldEntitlement, newEntitlement)

/-- The handler `SubscriptionUpdateAction.handle`; it returns
`{ oldSubscription, newSubscription }`. -/
def SubscriptionUpdateAction.handle (K : Constants) (client : Client) (data : SubscriptionData) :
    Client × Option Ref × Ref :=
  -- client.application.subscriptions.cache.get(data.id)?._clone() ?? null
  let snap : Heap Subscription × Option Ref :=
    match Heap.lookup client.subscriptionObjs client.subscriptions data.id with
    | some (_, s) => ((Subscription._clone client.subscriptionObjs s).1,
        some (Subscription._clone client.subscriptionObjs s).2)
    | none => (client.subscriptionObjs, none)
  let oldSubscription := snap.2
  -- client.application.subscriptions._add(data)
  let added := CachedManager._add (Subscription.new K) (Subscription._patch K)
    SubscriptionData.id snap.1 client.subscriptions data
  let newSubscription := added.2.2
  (({ client with subscriptionObjs := added.1, subscriptions := added.2.1 } : Client).emit
      (Event.subscriptionUpdate oldSubscription newSubscription),
    oldSubscription, newSubscription)

/-- The handler `SubscriptionCreateAction.handle`; it returns `{ subscription }`. -/
def SubscriptionCreateAction.handle (K : Constants) (client : Client) (data : SubscriptionData) :
    Client × Ref :=
  let added := CachedManager._add (Subscription.new K) (Subscription._patch K)
    SubscriptionData.id client.subscriptionObjs client.subscriptions data
  (({ client with subscriptionObjs := added.1, subscriptions := added.2.1 } : Client).emit
      (Event.subscriptionCreate added.2.2),
    added.2.2)

/-- The handler `EntitlementDeleteAction.handle`; it returns `{ entitlement }`
(`none` is `undefined`). -/
def EntitlementDeleteAction.handle (client : Client) (data : EntitlementData) :
    Client × Option Ref :=
  match Heap.lookup client.entitlementObjs client.entitlements data.id with
  | some (entitlement, _) =>
    (({ client with
        -- entitlement.deleted = true
        entitlementObjs := client.entitlementObjs.mutate entitlement
          (fun e => { e with deleted := true })
        -- client.application.entitlements.cache.delete(data.id)
        entitlements := client.entitlements.delete data.id } : Client).emit
        (Event.entitlementDelete entitlement),
      some entitlement)
  | none => (client, none)

/-- The handler `SubscriptionDeleteAction.handle`; it returns `{ subscription }`
(`none` is `undefined`). -/
def SubscriptionDeleteAction.handle (client : Client) (data : SubscriptionData) :
    Client × Option Ref :=
  match Heap.lookup client.subscriptionObjs client.subscriptions data.id with
  | some (subscription, _) =>
    (({ client with
        -- client.application.subscriptions.cache.delete(data.id)
        subscriptions := client.subscriptions.delete data.id } : Client).emit
        (Event.subscriptionDelete subscription),
      some subscription)
  | none => (client, none)

/-- An exception thrown by the JavaScript runtime. -/
inductive JSError where
  | typeError (message : String)
  | rangeError (message : String)
  /-- The rejection of a remote call by the transport. -/
  | apiError (message : String)
deriving DecidableEq, Repr

/-- The handler `ThreadDeleteAction.handle` run at time `now` (the value of
`Date.now()`). It yields the client state it leaves behind and its outcome: the
result `{ thread }` (`none` is `undefined`), or the exception thrown when it
reads `thread.messages.cache` of a channel without a message manager. -/
def ThreadDeleteAction.handle (client : Client) (now : Nat) (data : ThreadDeleteData) :
    Client × Except JSError (Option Ref) :=
  match Heap.lookup client.channelObjs client.channels data.id with
  | some (t, thread) =>
    -- client.channels._remove(thread.id)
    let client1 := ChannelManager._remove client thread.id
    let deletedAt := now
    -- deletedChannels.set(thread.id, deletedAt)
    let client2 : Client :=
      { client1 with deletedChannels := client1.deletedChannels.set thread.id deletedAt }
    match thread.messages with
    | some cache =>
      -- for (const message of thread.messages.cache.values()) deletedMessages.set(message, deletedAt)
      let client3 : Client :=
        { client2 with
          deletedMessages := cache.values.foldl
            (fun reg message => reg.set (MessageKey.object message) deletedAt)
            client2.deletedMessages }
      (client3.emit (Event.threadDelete t), .ok (some t))
    | none =>
      (client2, .error (JSError.typeError "Cannot read properties of undefined (reading cache)"))
  | none => (client, .ok none)

/-- The handler `MessagePollVoteAddAction.handle`; `none` is the result `false`,
`some poll` the result `{ poll }`. -/
def MessagePollVoteAddAction.handle (client : Client) (data : MessagePollVoteData) :
    Client × Option Poll :=
  match Action.getChannel client data.channel_id with
  | none => (client, none)
  | some (_, channel) =>
    if !channel.isTextBased then (client, none)
    else
      match Action.getMessage client channel data.message_id with
      | none => (client, none)
      | some (_, message) =>
        match message.poll with
        | none => (client, none)
        | some poll =>
          match Heap.lookup client.answerObjs poll.answers data.answer_id with
          | none => (client, none)
          | some (answer, _) =>
            -- answer.voteCount++
            (({ client with answerObjs := client.answerObjs.mutate answer PollAnswer.incr }
                : Client).emit (Event.messagePollVoteAdd answer data.user_id),
              some poll)

/-- The handler `StageInstanceUpdateAction.handle`. It yields the client state
it leaves behind and its outcome: `none` is the result `{}`, `some (old, new)`
the result `{ oldStageInstance, newStageInstance }`; reading
`channel.guild.stageInstances` of a channel without a guild throws. -/
def StageInstanceUpdateAction.handle (S : ClassOps StageInstance StageInstanceData)
    (client : Client) (data : StageInstanceData) :
    Client × Except JSError (Option (Option Ref × Ref)) :=
  match Action.getChannel client data.channel_id with
  | some (_, channel) =>
    if !client.deletedStageInstances.has data.id then
      match channel.guild.bind (fun g => (client.guildObjs[g]?).map (fun guild => (g, guild))) with
      | none => (client, .error (JSError.typeError
          "Cannot read properties of undefined (reading stageInstances)"))
      | some (g, guild) =>
        -- channel.guild.stageInstances.cache.get(data.id)?._clone() ?? null
        let snap : Heap StageInstance × Option Ref :=
          match Heap.lookup client.stageInstanceObjs guild.stageInstances data.id with
          | some (_, s) => ((Base._clone client.stageInstanceObjs s).1,
              some (Base._clone client.stageInstanceObjs s).2)
          | none => (client.stageInstanceObjs, none)
        -- channel.guild.stageInstances._add(data)
        let added := CachedManager._add S.construct S._patch StageInstanceData.id snap.1
          guild.stageInstances data
        (({ client with
            stageInstanceObjs := added.1
            guildObjs := client.guildObjs.mutate g
              (fun o => { o with stageInstances := added.2.1 }) } : Client).emit
            (Event.stageInstanceUpdate snap.2 added.2.2),
          .ok (some (snap.2, added.2.2)))
    else (client, .ok none)
  | none => (client, .ok none)

/-! ## Websocket packet handlers (`client/websocket/handlers`) -/

/-- The handler of GUILD_CREATE. -/
def GUILD_CREATE (K : Constants) (G : ClassOps Guild GuildData) (client : Client)
    (data : GuildData) (shard : Shard) : Client :=
  match Heap.lookup client.guildObjs client.guilds data.id with
  | some (g, guild) =>
    if !guild.available && !(data.unavailable.getD false) then
      -- guild._patch(data)
      ({ client with guildObjs := client.guildObjs.mutate g (fun o => G._patch o data) }
        : Client).emit (Event.guildAvailable g)
    else client
  | none =>
    -- data.shardId = shard.id
    let data1 : GuildData := { data with shardId := some shard.id }
    -- guild = client.guilds._add(data)
    let added := CachedManager._add G.construct G._patch GuildData.id client.guildObjs
      client.guilds data1
    let client1 : Client := { client with guildObjs := added.1, guilds := added.2.1 }
    if client.wsStatus = K.READY then client1.emit (Event.guildCreate added.2.2)
    else client1

/-- The handler of GUILD_MEMBER_ADD. The member manager's `_add` is the store
upsert under the payload's identifier `data.id`, the one the handler looks up
in the registry of deleted members. -/
def GUILD_MEMBER_ADD (K : Constants) (M : ClassOps GuildMember GuildMemberData) (client : Client)
    (data : GuildMemberData) (shard : Shard) : Client :=
  -- if (deletedGuildMembers.has(data.id)) deletedGuildMembers.delete(data.id)
  let client1 : Client :=
    if client.deletedGuildMembers.has data.id then
      { client with deletedGuildMembers := client.deletedGuildMembers.delete data.id }
    else client
  match Heap.lookup client1.guildObjs client1.guilds data.guild_id with
  | some (g, guild) =>
    -- guild.members._add(data)
    let added := CachedManager._add M.construct M._patch GuildMemberData.id client1.memberObjs
      guild.members data
    let client2 : Client :=
      { client1 with
        -- guild.memberCount++
        guildObjs := client1.guildObjs.mutate g
          (fun o => { o with memberCount := o.memberCount + 1, members := added.2.1 })
        memberObjs := added.1 }
    if shard.status = K.READY then client2.emit (Event.guildMemberAdd added.2.2)
    else client2
  | none => client1

/-! ## Message components (`structures/BaseMessageComponent.js` and its subclasses) -/

/-- The value of the property `type` of component data: a string name, a numeric
code, or absent. -/
inductive TypeResolvable where
  | name (s : String)
  | code (n : Nat)
  | absent
deriving DecidableEq, Repr

/-- A colour as `Util.resolveColor` accepts it: a number or a string. -/
inductive ColorResolvable where
  | number (n : Nat)
  | text (s : String)
deriving DecidableEq, Repr

mutual
/-- Raw component data: the property `type` and the remaining properties. -/
inductive ComponentData where
  | mk (type : TypeResolvable) (fields : ComponentFields)
/-- The properties of raw component data that the constructors of the section,
container and label classes read; `props` stands for the remaining ones. An
absent property is `none`. -/
inductive ComponentFields where
  | mk (id : Option Nat) (components : Option (List ComponentData))
      (accessory : Option ComponentData) (component : Option ComponentData)
      (label : Option String) (description : Option String)
      (accent_color : Option ColorResolvable) (spoiler : Option Bool)
      (props : List (String × JSValue))
end

/-- A component object. The section, container and label classes are spelled
out; an object of any other class is `other`, with the kind of its class. An
entry of `components` is `none` where `create` returned `undefined`. -/
inductive Component (ρ : Type) where
  | other (kind : ComponentKind) (obj : ρ)
  | sectionComponent (id : Option Nat) (components : List (Option (Component ρ)))
      (accessory : Option (Component ρ))
  | containerComponent (id : Option Nat) (components : List (Option (Component ρ)))
      (color : Option Nat) (spoiler : Bool)
  | labelComponent (id : Option Nat) (label : Option String) (description : Option String)
      (component : Option (Component ρ))

/-- What the component code calls outside the section, container and label
classes: the constructors of the other component classes, which yield the events
they emit on the client they are given and the object or the exception thrown,
and `Util.resolveColor`. They are a parameter of `create`. -/
structure ComponentClasses (ρ : Type) where
  construct : ComponentKind → ComponentData → Bool → List Event × Except JSError ρ
  resolveColor : ColorResolvable → Except JSError Nat

/-- A computation that emits events on the client and then returns or throws. -/
abbrev Emitting (α : Type) := List Event × Except JSError α

/-- Sequencing: the second computation runs when the first returns; the events
of both are kept in order. -/
def Emitting.andThen {α β : Type} (x : Emitting α) (f : α → Emitting β) : Emitting β :=
  match x.2 with
  | .ok a => (x.1 ++ (f a).1, (f a).2)
  | .error e => (x.1, .error e)

/-- The type the switch of `create` compares with the case labels: a string name
is replaced by `MessageComponentTypes[name]`; `none` is `undefined`, also for a
name that is no key of a component kind. -/
def resolveSwitchType (K : Constants) : TypeResolvable → Option Nat
  | .name s => (ComponentKind.all.find? (fun k => k.name == s)).map K.MessageComponentTypes
  | .code n => some n
  | .absent => none

/-- The case of the switch that a type selects: the first kind, in the order of
the cases, whose code is the type. -/
def switchCase (K : Constants) (type : Option Nat) : Option ComponentKind :=
  ComponentKind.all.find? (fun k => type == some (K.MessageComponentTypes k))

/-- The text of `data.type` in a template string. -/
def TypeResolvable.text : TypeResolvable → String
  | .name s => s
  | .code n => toString n
  | .absent => "undefined"

mutual
/-- The static method `BaseMessageComponent.create(data, client)` on raw data;
`client` tells whether a client is given. It yields the events emitted on the
client and the component returned (`none` is `undefined`) or the exception
thrown. -/
def BaseMessageComponent.create {ρ : Type} (K : Constants) (E : ComponentClasses ρ) :
    ComponentData → Bool → Emitting (Option (Component ρ))
  | .mk type fields, client =>
    match switchCase K (resolveSwitchType K type) with
    | some .ACTION_ROW =>
      -- new MessageActionRow(data, client)
      Emitting.andThen (E.construct .ACTION_ROW (.mk type fields) client)
        (fun o => ([], .ok (some (.other .ACTION_ROW o))))
    | some .SECTION =>
      -- new SectionComponent(data)
      Emitting.andThen (SectionComponent.new K E fields false) (fun c => ([], .ok (some c)))
    | some .CONTAINER =>
      -- new ContainerComponent(data)
      Emitting.andThen (ContainerComponent.new K E fields false) (fun c => ([], .ok (some c)))
    | some .LABEL =>
      -- new LabelComponent(data)
      Emitting.andThen (LabelComponent.new K E fields false) (fun c => ([], .ok (some c)))
    | some kind =>
      -- new MessageButton(data), new MessageSelectMenu(data), ...
      Emitting.andThen (E.construct kind (.mk type fields) false)
        (fun o => ([], .ok (some (.other kind o))))
    | none =>
      if client then
        ([Event.debug ("[BaseMessageComponent] Received component with unknown type: "
            ++ type.text)], .ok none)
      else ([], .error (JSError.typeError "INVALID_TYPE"))
/-- The constructor `new SectionComponent(data, client)`. -/
def SectionComponent.new {ρ : Type} (K : Constants) (E : ComponentClasses ρ) :
    ComponentFields → Bool → Emitting (Component ρ)
  | .mk id components accessory _ _ _ _ _ _, client =>
    -- data.components?.map(c => BaseMessageComponentV2.create(c, client)) ?? []
    Emitting.andThen
      (match components with
        | some cs => BaseMessageComponent.createAll K E cs client
        | none => ([], .ok []))
      (fun cs =>
        -- data.accessory ? BaseMessageComponentV2.create(data.accessory, client) : undefined
        Emitting.andThen
          (match accessory with
            | some a => BaseMessageComponent.create K E a client
            | none => ([], .ok none))
          (fun acc => ([], .ok (.sectionComponent id cs acc))))
/-- The constructor `new ContainerComponent(data, client)`. -/
def ContainerComponent.new {ρ : Type} (K : Constants) (E : ComponentClasses ρ) :
    ComponentFields → Bool → Emitting (Component ρ)
  | .mk id components _ _ _ _ accent_color spoiler _, client =>
    -- data.components?.map(c => BaseMessageComponentV2.create(c, client)) ?? []
    Emitting.andThen
      (match components with
        | some cs => BaseMessageComponent.createAll K E cs client
        | none => ([], .ok []))
      (fun cs =>
        -- 'accent_color' in data ? Util.resolveColor(data.accent_color) : null
        match accent_color with
        | some c =>
          match E.resolveColor c with
          | .ok n => ([], .ok (.containerComponent id cs (some n) (spoiler.getD false)))
          | .error e => ([], .error e)
        | none => ([], .ok (.containerComponent id cs none (spoiler.getD false))))
/-- The constructor `new LabelComponent(data, client)`. -/
def LabelComponent.new {ρ : Type} (K : Constants) (E : ComponentClasses ρ) :
    ComponentFields → Bool → Emitting (Component ρ)
  | .mk id _ _ component label description _ _ _, client =>
    -- data.component ? BaseMessageComponentV2.create(data.component, client) : undefined
    Emitting.andThen
      (match component with
        | some c => BaseMessageComponent.create K E c client
        | none => ([], .ok none))
      (fun c => ([], .ok (.labelComponent id label description c)))
/-- The mapping `list.map(c => BaseMessageComponentV2.create(c, client))`: the
components are created in order, up to the first exception. -/
def BaseMessageComponent.createAll {ρ : Type} (K : Constants) (E : ComponentClasses ρ) :
    List ComponentData → Bool → Emitting (List (Option (Component ρ)))
  | [], _ => ([], .ok [])
  | d :: ds, client =>
    Emitting.andThen (BaseMessageComponent.create K E d client)
      (fun c => Emitting.andThen (BaseMessageComponent.createAll K E ds client)
        (fun cs => ([], .ok (c :: cs))))
end

/-! ## Managers (`managers/EntitlementManager.js`, `SKUManager.js`, `SubscriptionManager.js`)

An async method is run to completion: it yields the client state it leaves
behind, the remote calls it issued, in order, and the value its promise resolves
to or the error it rejects with. The answers of the remote API are a parameter. -/

/-- A value passed where an entity or an identifier is expected: a string, an
instance of the class the resolving manager holds, or any other truthy value. -/
inductive Resolvable where
  | id (id : Snowflake)
  | instance (object : Ref)
  | other
deriving DecidableEq, Repr

/-- JavaScript truthiness of a resolvable: only the empty string is falsy. -/
def Resolvable.truthy : Resolvable → Bool
  | .id s => s != ""
  | .instance _ => true
  | .other => true

/-- Modelled from the spec: `DataManager.resolveId` (managers/DataManager.js is
not among the sources). It accepts an instance of the held class, which it
normalises to its identifier, or a raw identifier; on any other input it returns
absent and does not raise. -/
def DataManager.resolveId {α : Type} (idOf : α → Snowflake) (h : Heap α) :
    Resolvable → Option Snowflake
  | .id s => some s
  | .instance r => (h[r]?).map idOf
  | .other => none

/-- Modelled from the spec: `CachedManager._add(data, cache)` with its `cache`
argument (managers/CachedManager.js is not among the sources). With `cache`
absent or true it is the upsert of the entity store. With `cache` false the
fetched entity is not cached, as the fetch options document: the store is left
as it is, no cached instance is patched, and a detached entity is returned, a
patched clone of the cached instance when there is one and a newly constructed
entity otherwise. -/
def CachedManager._addWith {α δ : Type} (construct : δ → α) (patch : α → δ → α)
    (key : δ → Snowflake) (h : Heap α) (cache : Collection) (data : δ) (flag : Option Bool) :
    Heap α × Collection × Ref :=
  if flag.getD true then CachedManager._add construct patch key h cache data
  else
    match Heap.lookup h cache (key data) with
    | some (_, o) =>
      ((Base._clone h o).1.mutate (Base._clone h o).2 (fun c => patch c data), cache,
        (Base._clone h o).2)
    | none => ((h.alloc (construct data)).1, cache, (h.alloc (construct data)).2)

/-- One step of the reduction of a fetched list: the record goes through `_add`
and the entity it returns is set under the record's id in the collection. -/
def CachedManager.reduceStep {α δ : Type} (construct : δ → α) (patch : α → δ → α)
    (key : δ → Snowflake) (flag : Option Bool)
    (acc : Heap α × Collection × JSMap Snowflake Ref) (x : δ) :
    Heap α × Collection × JSMap Snowflake Ref :=
  ((CachedManager._addWith construct patch key acc.1 acc.2.1 x flag).1,
   (CachedManager._addWith construct patch key acc.1 acc.2.1 x flag).2.1,
   acc.2.2.set (key x) (CachedManager._addWith construct patch key acc.1 acc.2.1 x flag).2.2)

/-- The reduction `data.reduce((coll, x) => coll.set(x.id, this._add(x, cache)), new Collection())`
of a fetched list: every record goes through `_add`, in order, and the entity it
returns is set under the record's id in a collection that starts empty. It
yields the heap, the manager's cache and the new collection. -/
def CachedManager.reduceAdd {α δ : Type} (construct : δ → α) (patch : α → δ → α)
    (key : δ → Snowflake) (flag : Option Bool) (h : Heap α) (cache : Collection)
    (records : List δ) : Heap α × Collection × JSMap Snowflake Ref :=
  records.foldl (CachedManager.reduceStep construct patch key flag) (h, cache, [])

/-- The entities of a fetched list as the specification words them: each
record's id paired, in the order of the list, with the entity `_add` returns for
that record once the records before it went through `_add`. -/
def CachedManager.addedInOrder {α δ : Type} (construct : δ → α) (patch : α → δ → α)
    (key : δ → Snowflake) (flag : Option Bool) :
    Heap α → Collection → List δ → List (Snowflake × Ref)
  | _, _, [] => []
  | h, cache, x :: xs =>
    (key x, (CachedManager._addWith construct patch key h cache x flag).2.2)
      :: CachedManager.addedInOrder construct patch key flag
          (CachedManager._addWith construct patch key h cache x flag).1
          (CachedManager._addWith construct patch key h cache x flag).2.1 xs

/-- The query of the entitlement list call; an absent parameter is `none`. -/
structure EntitlementQuery where
  user_id : Option Snowflake
  sku_ids : Option String
  before : Option Snowflake
  after : Option Snowflake
  limit : Option Nat
  guild_id : Option Snowflake
  exclude_ended : Option Bool
  exclude_deleted : Option Bool
deriving DecidableEq, Repr

/-- The query of the subscription list call; an absent parameter is `none`. -/
structure SubscriptionQuery where
  before : Option Snowflake
  after : Option Snowflake
  limit : Option Nat
deriving DecidableEq, Repr

/-- A remote call on `client.api`; the routes under `applications(...)` are those
of the client's application. An identifier that did not resolve is `none`. -/
inductive ApiRequest where
  | getEntitlement (id : Snowflake)
  | listEntitlements (query : EntitlementQuery)
  | deleteEntitlement (id : Option Snowflake)
  | consumeEntitlement (id : Option Snowflake)
  | getSKU (id : Snowflake)
  | listSKUs
  | getSubscription (skuId : Snowflake) (id : Snowflake)
  | listSubscriptions (skuId : Snowflake) (query : SubscriptionQuery)
  | deleteMessage (channelId : Snowflake) (messageId : Snowflake)
  | bulkDeleteMessages (channelId : Snowflake) (messages : List Snowflake)
  | fetchMessages (channelId : Snowflake) (limit : Nat)
deriving DecidableEq, Repr

/-- The answers of the remote API to the calls: the body of the response, or the
error the transport fails with. -/
structure Remote where
  getEntitlement : Snowflake → Except JSError EntitlementData
  listEntitlements : EntitlementQuery → Except JSError (List EntitlementData)
  deleteEntitlement : Option Snowflake → Except JSError Unit
  consumeEntitlement : Option Snowflake → Except JSError Unit
  getSKU : Snowflake → Except JSError SKUData
  listSKUs : Except JSError (List SKUData)
  getSubscription : Snowflake → Snowflake → Except JSError SubscriptionData
  listSubscriptions : Snowflake → SubscriptionQuery → Except JSError (List SubscriptionData)

/-- An async method run to completion. -/
structure Async (α : Type) where
  client : Client
  requests : List ApiRequest
  outcome : Except JSError α

/-- What `fetch` resolves to: one entity or a new collection of entities. -/
inductive FetchResult where
  | one (entity : Ref)
  | many (entities : JSMap Snowflake Ref)
deriving DecidableEq, Repr

/-- The argument of a `fetch`: nothing, a string, an instance of the held class,
or an options object. -/
inductive FetchArgument (ο : Type) where
  | undefined
  | id (id : Snowflake)
  | instance (object : Ref)
  | options (o : ο)

/-- The options object `FetchEntitlementsOptions`; an absent property is `none`. -/
structure FetchEntitlementsOptions where
  id : Option Resolvable
  userId : Option Snowflake
  skuIds : Option (List Snowflake)
  before : Option Snowflake
  after : Option Snowflake
  limit : Option Nat
  guildId : Option Snowflake
  excludeEnded : Option Bool
  excludeDeleted : Option Bool
  cache : Option Bool
  force : Option Bool
deriving DecidableEq, Repr

/-- The options object `SKUFetchOptions`; an absent property is `none`. -/
structure SKUFetchOptions where
  id : Option Resolvable
  cache : Option Bool
  force : Option Bool
deriving DecidableEq, Repr

/-- The options object of `SubscriptionManager.fetch`; an absent property is
`none`. -/
structure FetchSubscriptionsOptions where
  id : Option Resolvable
  sku : Option Resolvable
  before : Option Snowflake
  after : Option Snowflake
  limit : Option Nat
  cache : Option Bool
  force : Option Bool
deriving DecidableEq, Repr

/-- The method `resolveId` of the entitlement manager. -/
def EntitlementManager.resolveId (client : Client) (v : Resolvable) : Option Snowflake :=
  DataManager.resolveId Entitlement.id client.entitlementObjs v

/-- The method `resolveId` of the SKU manager. -/
def SKUManager.resolveId (client : Client) (v : Resolvable) : Option Snowflake :=
  DataManager.resolveId SKU.id client.skuObjs v

/-- The method `resolveId` of the subscription manager. -/
def SubscriptionManager.resolveId (client : Client) (v : Resolvable) : Option Snowflake :=
  DataManager.resolveId Subscription.id client.subscriptionObjs v

/-- The properties `EntitlementManager.fetch` reads off its argument: those of
the options object; none on a string and on the default `{}`; on an entitlement
instance its own `id`, `userId` and `guildId`. -/
def EntitlementManager.optionsOf (client : Client) :
    FetchArgument FetchEntitlementsOptions → FetchEntitlementsOptions
  | .options o => o
  | .instance r =>
    { id := (client.entitlementObjs[r]?).map (fun e => Resolvable.id e.id)
      userId := (client.entitlementObjs[r]?).bind Entitlement.userId
      skuIds := none, before := none, after := none, limit := none
      guildId := (client.entitlementObjs[r]?).bind Entitlement.guildId
      excludeEnded := none, excludeDeleted := none, cache := none, force := none }
  | _ =>
    { id := none, userId := none, skuIds := none, before := none, after := none, limit := none,
      guildId := none, excludeEnded := none, excludeDeleted := none, cache := none,
      force := none }

/-- The identifier `this.resolveId(options?.id ?? options)` of
`EntitlementManager.fetch`. -/
def EntitlementManager.fetchId (client : Client) :
    FetchArgument FetchEntitlementsOptions → Option Snowflake
  | .undefined => none
  | .id s => EntitlementManager.resolveId client (.id s)
  | .instance r => (client.entitlementObjs[r]?).map Entitlement.id
  | .options o => o.id.bind (EntitlementManager.resolveId client)

/-- The query `EntitlementManager.fetch` builds from the truthy options. -/
def EntitlementManager.query (options : FetchEntitlementsOptions) : EntitlementQuery :=
  { user_id := options.userId.filter (fun s => s != "")
    sku_ids := options.skuIds.map (fun ids => ",".intercalate ids)
    before := options.before.filter (fun s => s != "")
    after := options.after.filter (fun s => s != "")
    limit := options.limit.filter (fun n => n != 0)
    guild_id := options.guildId.filter (fun s => s != "")
    exclude_ended := options.excludeEnded.filter (fun b => b)
    exclude_deleted := options.excludeDeleted.filter (fun b => b) }

/-- The method `EntitlementManager.fetch`. -/
def EntitlementManager.fetch (K : Constants) (R : Remote) (client : Client)
    (arg : FetchArgument FetchEntitlementsOptions) : Async FetchResult :=
  let options := EntitlementManager.optionsOf client arg
  match (EntitlementManager.fetchId client arg).filter (fun s => s != "") with
  | some id =>
    match (if options.force != some true then
        Heap.lookup client.entitlementObjs client.entitlements id else none) with
    | some (cached, _) => ⟨client, [], .ok (.one cached)⟩
    | none =>
      match R.getEntitlement id with
      | .ok data =>
        let added := CachedManager._addWith (Entitlement.new K) (Entitlement._patch K)
          EntitlementData.id client.entitlementObjs client.entitlements data options.cache
        ⟨{ client with entitlementObjs := added.1, entitlements := added.2.1 },
          [.getEntitlement id], .ok (.one added.2.2)⟩
      | .error e => ⟨client, [.getEntitlement id], .error e⟩
  | none =>
    let query := EntitlementManager.query options
    match R.listEntitlements query with
    | .ok data =>
      let added := CachedManager.reduceAdd (Entitlement.new K) (Entitlement._patch K)
        EntitlementData.id options.cache client.entitlementObjs client.entitlements data
      ⟨{ client with entitlementObjs := added.1, entitlements := added.2.1 },
        [.listEntitlements query], .ok (.many added.2.2)⟩
    | .error e => ⟨client, [.listEntitlements query], .error e⟩

/-- The method `EntitlementManager.deleteTestEntitlement`. -/
def EntitlementManager.deleteTestEntitlement (R : Remote) (client : Client)
    (entitlement : Resolvable) : Async Unit :=
  let id := EntitlementManager.resolveId client entitlement
  match R.deleteEntitlement id with
  | .ok _ =>
    -- this.cache.delete(id)
    ⟨{ client with
        entitlements :=
          match id with
          | some i => client.entitlements.delete i
          | none => client.entitlements },
      [.deleteEntitlement id], .ok ()⟩
  | .error e => ⟨client, [.deleteEntitlement id], .error e⟩

/-- The method `EntitlementManager.consume`. -/
def EntitlementManager.consume (R : Remote) (client : Client) (entitlement : Resolvable) :
    Async Unit :=
  let id := EntitlementManager.resolveId client entitlement
  match R.consumeEntitlement id with
  | .ok _ => ⟨client, [.consumeEntitlement id], .ok ()⟩
  | .error e => ⟨client, [.consumeEntitlement id], .error e⟩

/-- The identifier `this.resolveId(options?.id ?? options)` of `SKUManager.fetch`. -/
def SKUManager.fetchId (client : Client) : FetchArgument SKUFetchOptions → Option Snowflake
  | .undefined => none
  | .id s => SKUManager.resolveId client (.id s)
  | .instance r => (client.skuObjs[r]?).map SKU.id
  | .options o => o.id.bind (SKUManager.resolveId client)

/-- The properties `force` and `cache` that `SKUManager.fetch` reads off its
argument: those of the options object, none otherwise. -/
def SKUManager.optionsOf : FetchArgument SKUFetchOptions → SKUFetchOptions
  | .options o => o
  | _ => { id := none, cache := none, force := none }

/-- The method `SKUManager.fetch`. -/
def SKUManager.fetch (K : Constants) (R : Remote) (client : Client)
    (arg : FetchArgument SKUFetchOptions) : Async FetchResult :=
  let options := SKUManager.optionsOf arg
  match (SKUManager.fetchId client arg).filter (fun s => s != "") with
  | some id =>
    match (if options.force != some true then
        Heap.lookup client.skuObjs client.skus id else none) with
    | some (cached, _) => ⟨client, [], .ok (.one cached)⟩
    | none =>
      match R.getSKU id with
      | .ok data =>
        let added := CachedManager._addWith (SKU.new K) (SKU._patch K) SKUData.id
          client.skuObjs client.skus data options.cache
        ⟨{ client with skuObjs := added.1, skus := added.2.1 }, [.getSKU id],
          .ok (.one added.2.2)⟩
      | .error e => ⟨client, [.getSKU id], .error e⟩
  | none =>
    match R.listSKUs with
    | .ok data =>
      let added := CachedManager.reduceAdd (SKU.new K) (SKU._patch K) SKUData.id options.cache
        client.skuObjs client.skus data
      ⟨{ client with skuObjs := added.1, skus := added.2.1 }, [.listSKUs],
        .ok (.many added.2.2)⟩
    | .error e => ⟨client, [.listSKUs], .error e⟩

/-- The method `SubscriptionManager.fetch`. A string, a subscription instance and
options without a truthy `sku` are rejected before any call. -/
def SubscriptionManager.fetch (K : Constants) (R : Remote) (client : Client)
    (arg : FetchArgument FetchSubscriptionsOptions) : Async FetchResult :=
  match arg with
  | .options options =>
    match options.sku.filter Resolvable.truthy with
    | none => ⟨client, [], .error (.typeError "SUBSCRIPTION_FETCH_SKU_REQUIRED")⟩
    | some sku =>
      match (SKUManager.resolveId client sku).filter (fun s => s != "") with
      | none => ⟨client, [], .error (.typeError "INVALID_TYPE")⟩
      | some skuId =>
        match (options.id.bind (SubscriptionManager.resolveId client)).filter
            (fun s => s != "") with
        | some id =>
          match (if options.force != some true then
              Heap.lookup client.subscriptionObjs client.subscriptions id else none) with
          | some (cached, _) => ⟨client, [], .ok (.one cached)⟩
          | none =>
            match R.getSubscription skuId id with
            | .ok data =>
              let added := CachedManager._addWith (Subscription.new K) (Subscription._patch K)
                SubscriptionData.id client.subscriptionObjs client.subscriptions data
                options.cache
              ⟨{ client with subscriptionObjs := added.1, subscriptions := added.2.1 },
                [.getSubscription skuId id], .ok (.one added.2.2)⟩
            | .error e => ⟨client, [.getSubscription skuId id], .error e⟩
        | none =>
          let query : SubscriptionQuery :=
            { before := options.before, after := options.after, limit := options.limit }
          match R.listSubscriptions skuId query with
          | .ok data =>
            let added := CachedManager.reduceAdd (Subscription.new K) (Subscription._patch K)
              SubscriptionData.id options.cache client.subscriptionObjs client.subscriptions
              data
            ⟨{ client with subscriptionObjs := added.1, subscriptions := added.2.1 },
              [.listSubscriptions skuId query], .ok (.many added.2.2)⟩
          | .error e => ⟨client, [.listSubscriptions skuId query], .error e⟩
  | _ => ⟨client, [], .error (.typeError "SUBSCRIPTION_FETCH_SKU_REQUIRED")⟩

/-! ## Derived accessors of `Entitlement` and `Subscription` -/

/-- The method `filter(fn)` of a cache (a `Collection`): the callback runs on the
cached objects in insertion order and the entries it accepts are kept, in that
order, in a new collection; an exception thrown by the callback ends the call. -/
def Collection.filterValues {α : Type} (h : Heap α) (fn : α → Except JSError Bool) :
    Collection → Except JSError Collection
  | [] => .ok []
  | (k, r) :: t =>
    match h[r]? with
    | some o =>
      match fn o with
      | .ok b =>
        match Collection.filterValues h fn t with
        | .ok rest => .ok (if b then (k, r) :: rest else rest)
        | .error e => .error e
      | .error e => .error e
    | none => Collection.filterValues h fn t

/-- The getter `Entitlement.guild`:
`this.client.guilds.cache.get(this.guildId) ?? null`; `none` is `null`. -/
def Entitlement.guild (client : Client) (e : Entitlement) : Option Ref :=
  match e.guildId with
  | some id => client.guilds.get id
  | none => none

/-- The getter `Entitlement.user`:
`this.client.users.cache.get(this.userId) ?? null`; `none` is `null`. -/
def Entitlement.user (client : Client) (e : Entitlement) : Option Ref :=
  match e.userId with
  | some id => client.users.get id
  | none => none

/-- The getter `Subscription.user`:
`this.client.users.cache.get(this.userId) ?? null`; `none` is `null`. -/
def Subscription.user (client : Client) (s : Subscription) : Option Ref :=
  match s.userId with
  | some id => client.users.get id
  | none => none

/-- The getter `Subscription.skus`:
`skus.cache.filter(sku => this.skuIds.includes(sku.id))`. Reading `includes` of
an undefined `skuIds` throws. -/
def Subscription.skus (client : Client) (s : Subscription) : Except JSError Collection :=
  Collection.filterValues client.skuObjs
    (fun sku =>
      match s.skuIds with
      | some ids => .ok (ids.contains sku.id)
      | none => .error (JSError.typeError "Cannot read properties of undefined (reading includes)"))
    client.skus

/-- The getter `Subscription.entitlements`:
`entitlements.cache.filter(entitlement => this.entitlementIds.includes(entitlement.id))`.
Reading `includes` of an undefined `entitlementIds` throws. -/
def Subscription.entitlements (client : Client) (s : Subscription) : Except JSError Collection :=
  Collection.filterValues client.entitlementObjs
    (fun entitlement =>
      match s.entitlementIds with
      | some ids => .ok (ids.contains entitlement.id)
      | none => .error (JSError.typeError "Cannot read properties of undefined (reading includes)"))
    client.entitlements

/-- The getter `Subscription.renewalSkus`:
`skus.cache.filter(sku => this.renewalSkuIds?.includes(sku.id))`; with
`renewalSkuIds` null the callback yields `undefined`, which is falsy. -/
def Subscription.renewalSkus (client : Client) (s : Subscription) : Except JSError Collection :=
  Collection.filterValues client.skuObjs
    (fun sku =>
      match s.renewalSkuIds with
      | some ids => .ok (ids.contains sku.id)
      | none => .ok false)
    client.skus

/-! ## Select menus (`structures/BaseSelectMenu.js` and its subclasses) -/

/-- An element of a JavaScript array that may hold arrays: a value or a nested
array. An argument list `f(...xs)` is a list of such elements. -/
inductive Nested (α : Type) where
  | item (a : α)
  | array (l : List (Nested α))

mutual
/-- The values of one element, nested arrays flattened at every depth. -/
def Nested.flat {α : Type} : Nested α → List α
  | .item a => [a]
  | .array l => Nested.flatAll l
/-- The call `xs.flat(Infinity)` on an array `xs`. -/
def Nested.flatAll {α : Type} : List (Nested α) → List α
  | [] => []
  | x :: t => Nested.flat x ++ Nested.flatAll t
end

/-- The call `a.splice(index, deleteCount, ...items)` with a start index and a
count that are natural numbers; it yields the array it leaves. -/
def JSArray.splice {α : Type} (a : List α) (index deleteCount : Nat) (items : List α) : List α :=
  a.take index ++ items ++ a.drop (index + deleteCount)

/-- JavaScript truthiness of a number that may be null: null and zero are
falsy. -/
def JSNumber.truthy : Option Nat → Bool
  | some n => n != 0
  | none => false

/-- The fields `setup` of `BaseSelectMenu` sets; `type` is the name of the
component kind the constructor of `BaseMessageComponent` stored. -/
structure BaseSelectMenu where
  type : ComponentKind
  customId : Option String
  placeholder : Option String
  minValues : Option Nat
  maxValues : Option Nat
  required : Bool
  disabled : Bool
deriving DecidableEq, Repr

/-- The fields of a select menu constructed from data without properties:
`setup` falls back on its defaults. -/
def BaseSelectMenu.new (type : ComponentKind) : BaseSelectMenu :=
  { type := type, customId := none, placeholder := none, minValues := none, maxValues := none,
    required := true, disabled := false }

/-- The method `BaseSelectMenu.setRequired(required = true)`; `none` is an omitted
argument. -/
def BaseSelectMenu.setRequired (m : BaseSelectMenu) (required : Option Bool) : BaseSelectMenu :=
  { m with required := required.getD true }

/-- The method `BaseSelectMenu.setMaxValues(maxValues)`. -/
def BaseSelectMenu.setMaxValues (m : BaseSelectMenu) (maxValues : Nat) : BaseSelectMenu :=
  { m with maxValues := some maxValues }

/-- The method `BaseSelectMenu.setMinValues(minValues)`. -/
def BaseSelectMenu.setMinValues (m : BaseSelectMenu) (minValues : Nat) : BaseSelectMenu :=
  { m with minValues := some minValues }

/-- A normalized option of a string select menu. -/
structure MessageSelectOption where
  label : String
  value : String
  description : Option String
  emoji : Option String
  isDefault : Bool
deriving DecidableEq, Repr

/-- A default value of a user, role, mentionable or channel select menu. -/
structure SelectMenuDefaultValue where
  id : Snowflake
  type : String
deriving DecidableEq, Repr

/-- A channel type as a channel select menu stores it. -/
abbrev ChannelType := String

/-- The plain object a `toJSON` of a select menu returns. In `required`,
`max_values`, `options`, `default_values` and `channel_types`, `none` is a
property that the object does not have or that is `undefined`; in `custom_id`,
`placeholder` and `min_values` it is `null`. -/
structure SelectMenuJSON where
  custom_id : Option String
  disabled : Bool
  required : Option Bool
  placeholder : Option String
  min_values : Option Nat
  max_values : Option Nat
  options : Option (List MessageSelectOption)
  default_values : Option (List (Nested SelectMenuDefaultValue))
  channel_types : Option (List (Nested ChannelType))
  type : Nat

/-- A `MessageSelectMenu` object (a string select menu). -/
structure MessageSelectMenu extends BaseSelectMenu where
  options : List MessageSelectOption
deriving DecidableEq, Repr

/-- The call `new MessageSelectMenu()`: `setup` on data without properties. -/
def MessageSelectMenu.new : MessageSelectMenu :=
  { BaseSelectMenu.new .SELECT_MENU with options := [] }

/-- The method `setRequired` that `MessageSelectMenu` inherits from
`BaseSelectMenu`. -/
def MessageSelectMenu.setRequired (m : MessageSelectMenu) (required : Option Bool) :
    MessageSelectMenu :=
  { m with toBaseSelectMenu := m.toBaseSelectMenu.setRequired required }

/-- The method `setMaxValues` that `MessageSelectMenu` inherits from
`BaseSelectMenu`. -/
def MessageSelectMenu.setMaxValues (m : MessageSelectMenu) (maxValues : Nat) : MessageSelectMenu :=
  { m with toBaseSelectMenu := m.toBaseSelectMenu.setMaxValues maxValues }

/-- The method `setMinValues` that `MessageSelectMenu` inherits from
`BaseSelectMenu`. -/
def MessageSelectMenu.setMinValues (m : MessageSelectMenu) (minValues : Nat) : MessageSelectMenu :=
  { m with toBaseSelectMenu := m.toBaseSelectMenu.setMinValues minValues }

/-- The method `MessageSelectMenu.toJSON`. The object it returns has no property
`required`. -/
def MessageSelectMenu.toJSON (K : Constants) (m : MessageSelectMenu) : SelectMenuJSON :=
  { custom_id := m.customId
    disabled := m.disabled
    required := none
    placeholder := m.placeholder
    min_values := m.minValues
    -- this.maxValues ?? (this.minValues ? this.options.length : undefined)
    max_values :=
      match m.maxValues with
      | some n => some n
      | none => if JSNumber.truthy m.minValues then some m.options.length else none
    options := some m.options
    default_values := none
    channel_types := none
    type := K.MessageComponentTypes m.type }

/-- A `UserSelectMenu` object. -/
structure UserSelectMenu extends BaseSelectMenu where
  defaultValues : List (Nested SelectMenuDefaultValue)

/-- The call `new UserSelectMenu()`: `setup` on data without properties. -/
def UserSelectMenu.new : UserSelectMenu :=
  { BaseSelectMenu.new .USER_SELECT with defaultValues := [] }

/-- The method `setRequired` that `UserSelectMenu` inherits from `BaseSelectMenu`. -/
def UserSelectMenu.setRequired (m : UserSelectMenu) (required : Option Bool) : UserSelectMenu :=
  { m with toBaseSelectMenu := m.toBaseSelectMenu.setRequired required }

/-- The method `UserSelectMenu.addDefaultValues(...values)`:
`this.defaultValues.push(...values)`. -/
def UserSelectMenu.addDefaultValues (m : UserSelectMenu) (values : List (Nested SelectMenuDefaultValue)) :
    UserSelectMenu :=
  { m with defaultValues := m.defaultValues ++ values }

/-- The method `UserSelectMenu.spliceDefaultValues(index, deleteCount, ...values)`:
`this.defaultValues.splice(index, deleteCount, ...values.flat(Infinity))`. -/
def UserSelectMenu.spliceDefaultValues (m : UserSelectMenu) (index deleteCount : Nat)
    (values : List (Nested SelectMenuDefaultValue)) : UserSelectMenu :=
  { m with defaultValues :=
      JSArray.splice m.defaultValues index deleteCount ((Nested.flatAll values).map Nested.item) }

/-- The method `UserSelectMenu.setDefaultValues(...values)`:
`this.spliceDefaultValues(0, this.defaultValues.length, ...values)`. -/
def UserSelectMenu.setDefaultValues (m : UserSelectMenu) (values : List (Nested SelectMenuDefaultValue)) :
    UserSelectMenu :=
  m.spliceDefaultValues 0 m.defaultValues.length values

/-- The method `UserSelectMenu.toJSON`. -/
def UserSelectMenu.toJSON (K : Constants) (m : UserSelectMenu) : SelectMenuJSON :=
  { custom_id := m.customId
    disabled := m.disabled
    required := some m.required
    placeholder := m.placeholder
    min_values := m.minValues
    -- this.maxValues ?? (this.minValues ? this.defaultValues.length : undefined)
    max_values :=
      match m.maxValues with
      | some n => some n
      | none => if JSNumber.truthy m.minValues then some m.defaultValues.length else none
    options := none
    default_values := some m.defaultValues
    channel_types := none
    type := K.MessageComponentTypes m.type }

/-- A `RoleSelectMenu` object. -/
structure RoleSelectMenu extends BaseSelectMenu where
  defaultValues : List (Nested SelectMenuDefaultValue)

/-- The call `new RoleSelectMenu()`: `setup` on data without properties. -/
def RoleSelectMenu.new : RoleSelectMenu :=
  { BaseSelectMenu.new .ROLE_SELECT with defaultValues := [] }

/-- The method `setRequired` that `RoleSelectMenu` inherits from `BaseSelectMenu`. -/
def RoleSelectMenu.setRequired (m : RoleSelectMenu) (required : Option Bool) : RoleSelectMenu :=
  { m with toBaseSelectMenu := m.toBaseSelectMenu.setRequired required }

/-- The method `RoleSelectMenu.addDefaultValues(...values)`:
`this.defaultValues.push(...values)`. -/
def RoleSelectMenu.addDefaultValues (m : RoleSelectMenu) (values : List (Nested SelectMenuDefaultValue)) :
    RoleSelectMenu :=
  { m with defaultValues := m.defaultValues ++ values }

/-- The method `RoleSelectMenu.spliceDefaultValues(index, deleteCount, ...values)`:
`this.defaultValues.splice(index, deleteCount, ...values.flat(Infinity))`. -/
def RoleSelectMenu.spliceDefaultValues (m : RoleSelectMenu) (index deleteCount : Nat)
    (values : List (Nested SelectMenuDefaultValue)) : RoleSelectMenu :=
  { m with defaultValues :=
      JSArray.splice m.defaultValues index deleteCount ((Nested.flatAll values).map Nested.item) }

/-- The method `RoleSelectMenu.setDefaultValues(...values)`:
`this.spliceDefaultValues(0, this.defaultValues.length, ...values)`. -/
def RoleSelectMenu.setDefaultValues (m : RoleSelectMenu) (values : List (Nested SelectMenuDefaultValue)) :
    RoleSelectMenu :=
  m.spliceDefaultValues 0 m.defaultValues.length values

/-- The method `RoleSelectMenu.toJSON`. The object it returns has no property
`required`. -/
def RoleSelectMenu.toJSON (K : Constants) (m : RoleSelectMenu) : SelectMenuJSON :=
  { custom_id := m.customId
    disabled := m.disabled
    required := none
    placeholder := m.placeholder
    min_values := m.minValues
    -- this.maxValues ?? (this.minValues ? this.defaultValues.length : undefined)
    max_values :=
      match m.maxValues with
      | some n => some n
      | none => if JSNumber.truthy m.minValues then some m.defaultValues.length else none
    options := none
    default_values := some m.defaultValues
    channel_types := none
    type := K.MessageComponentTypes m.type }

/-- A `MentionableSelectMenu` object. -/
structure MentionableSelectMenu extends BaseSelectMenu where
  defaultValues : List (Nested SelectMenuDefaultValue)

/-- The call `new MentionableSelectMenu()`: `setup` on data without properties. -/
def MentionableSelectMenu.new : MentionableSelectMenu :=
  { BaseSelectMenu.new .MENTIONABLE_SELECT with defaultValues := [] }

/-- The method `setRequired` that `MentionableSelectMenu` inherits from `BaseSelectMenu`. -/
def MentionableSelectMenu.setRequired (m : MentionableSelectMenu) (required : Option Bool) : MentionableSelectMenu :=
  { m with toBaseSelectMenu := m.toBaseSelectMenu.setRequired required }

/-- The method `MentionableSelectMenu.addDefaultValues(...values)`:
`this.defaultValues.push(...values)`. -/
def MentionableSelectMenu.addDefaultValues (m : MentionableSelectMenu) (values : List (Nested SelectMenuDefaultValue)) :
    MentionableSelectMenu :=
  { m with defaultValues := m.defaultValues ++ values }

/-- The method `MentionableSelectMenu.spliceDefaultValues(index, deleteCount, ...values)`:
`this.defaultValues.splice(index, deleteCount, ...values.flat(Infinity))`. -/
def MentionableSelectMenu.spliceDefaultValues (m : MentionableSelectMenu) (index deleteCount : Nat)
    (values : List (Nested SelectMenuDefaultValue)) : MentionableSelectMenu :=
  { m with defaultValues :=
      JSArray.splice m.defaultValues index deleteCount ((Nested.flatAll values).map Nested.item) }

/-- The method `MentionableSelectMenu.setDefaultValues(...values)`:
`this.spliceDefaultValues(0, this.defaultValues.length, ...values)`. -/
def MentionableSelectMenu.setDefaultValues (m : MentionableSelectMenu) (values : List (Nested SelectMenuDefaultValue)) :
    MentionableSelectMenu :=
  m.spliceDefaultValues 0 m.defaultValues.length values

/-- The method `MentionableSelectMenu.toJSON`. -/
def MentionableSelectMenu.toJSON (K : Constants) (m : MentionableSelectMenu) : SelectMenuJSON :=
  { custom_id := m.customId
    disabled := m.disabled
    required := some m.required
    placeholder := m.placeholder
    min_values := m.minValues
    -- this.maxValues ?? (this.minValues ? this.defaultValues.length : undefined)
    max_values :=
      match m.maxValues with
      | some n => some n
      | none => if JSNumber.truthy m.minValues then some m.defaultValues.length else none
    options := none
    default_values := some m.defaultValues
    channel_types := none
    type := K.MessageComponentTypes m.type }

/-- A `ChannelSelectMenu` object. -/
structure ChannelSelectMenu extends BaseSelectMenu where
  defaultValues : List (Nested SelectMenuDefaultValue)
  channelTypes : List (Nested ChannelType)

/-- The call `new ChannelSelectMenu()`: `setup` on data without properties. -/
def ChannelSelectMenu.new : ChannelSelectMenu :=
  { BaseSelectMenu.new .CHANNEL_SELECT with defaultValues := [], channelTypes := [] }

/-- The method `setRequired` that `ChannelSelectMenu` inherits from
`BaseSelectMenu`. -/
def ChannelSelectMenu.setRequired (m : ChannelSelectMenu) (required : Option Bool) :
    ChannelSelectMenu :=
  { m with toBaseSelectMenu := m.toBaseSelectMenu.setRequired required }

/-- The method `ChannelSelectMenu.addDefaultValues(...values)`:
`this.defaultValues.push(...values)`. -/
def ChannelSelectMenu.addDefaultValues (m : ChannelSelectMenu)
    (values : List (Nested SelectMenuDefaultValue)) : ChannelSelectMenu :=
  { m with defaultValues := m.defaultValues ++ values }

/-- The method `ChannelSelectMenu.spliceDefaultValues(index, deleteCount, ...values)`:
`this.defaultValues.splice(index, deleteCount, ...values.flat(Infinity))`. -/
def ChannelSelectMenu.spliceDefaultValues (m : ChannelSelectMenu) (index deleteCount : Nat)
    (values : List (Nested SelectMenuDefaultValue)) : ChannelSelectMenu :=
  { m with defaultValues :=
      JSArray.splice m.defaultValues index deleteCount ((Nested.flatAll values).map Nested.item) }

/-- The method `ChannelSelectMenu.setDefaultValues(...values)`:
`this.spliceDefaultValues(0, this.defaultValues.length, ...values)`. -/
def ChannelSelectMenu.setDefaultValues (m : ChannelSelectMenu)
    (values : List (Nested SelectMenuDefaultValue)) : ChannelSelectMenu :=
  m.spliceDefaultValues 0 m.defaultValues.length values

/-- The method `ChannelSelectMenu.addChannelTypes(...types)`:
`this.channelTypes.push(...types)`. -/
def ChannelSelectMenu.addChannelTypes (m : ChannelSelectMenu) (types : List (Nested ChannelType)) :
    ChannelSelectMenu :=
  { m with channelTypes := m.channelTypes ++ types }

/-- The method `ChannelSelectMenu.spliceChannelTypes(index, deleteCount, ...types)`:
`this.channelTypes.splice(index, deleteCount, ...types)`. -/
def ChannelSelectMenu.spliceChannelTypes (m : ChannelSelectMenu) (index deleteCount : Nat)
    (types : List (Nested ChannelType)) : ChannelSelectMenu :=
  { m with channelTypes := JSArray.splice m.channelTypes index deleteCount types }

/-- The method `ChannelSelectMenu.setChannelTypes(...types)`:
`this.spliceChannelTypes(0, this.channelTypes.length, types)`. The array `types`
of the arguments is passed on as one argument. -/
def ChannelSelectMenu.setChannelTypes (m : ChannelSelectMenu) (types : List (Nested ChannelType)) :
    ChannelSelectMenu :=
  m.spliceChannelTypes 0 m.channelTypes.length [Nested.array types]

/-- The method `ChannelSelectMenu.toJSON`. The object it returns has no property
`required`. -/
def ChannelSelectMenu.toJSON (K : Constants) (m : ChannelSelectMenu) : SelectMenuJSON :=
  { custom_id := m.customId
    disabled := m.disabled
    required := none
    placeholder := m.placeholder
    min_values := m.minValues
    -- this.maxValues ?? (this.minValues ? this.defaultValues.length : undefined)
    max_values :=
      match m.maxValues with
      | some n => some n
      | none => if JSNumber.truthy m.minValues then some m.defaultValues.length else none
    options := none
    default_values := some m.defaultValues
    -- this.channelTypes.length ? this.channelTypes : undefined
    channel_types := if m.channelTypes.length != 0 then some m.channelTypes else none
    type := K.MessageComponentTypes m.type }

/-! ## Media galleries (`structures/MediaGalleryComponent.js`, `MediaGalleryItem.js`) -/

/-- A gallery item or its options read as component data by
`BaseMessageComponent.create`: there is no property `type`. -/
def MediaGalleryItemResolvable.toComponentData : MediaGalleryItemResolvable → ComponentData
  | .«instance» item =>
    .mk .absent (.mk none none none none none item.description none (some item.spoiler)
      (match item.media with
        | some m => [("media", JSValue.media m)]
        | none => []))
  | .options data =>
    .mk .absent (.mk none none none none none data.description none data.spoiler
      (match data.media with
        | some m => [("media", JSValue.media m)]
        | none => []))

/-- An element of the array `items` of a gallery: a gallery item, or what
`BaseMessageComponent.create` returned where `spliceItems` put it. -/
inductive GalleryEntry (ρ : Type) where
  | item (i : MediaGalleryItem)
  | component (c : Option (Component ρ))

/-- A `MediaGalleryComponent` object. -/
structure MediaGalleryComponent (ρ : Type) where
  id : Option Nat
  items : List (GalleryEntry ρ)

/-- The call `new MediaGalleryComponent()`. -/
def MediaGalleryComponent.new {ρ : Type} : MediaGalleryComponent ρ :=
  { id := none, items := [] }

/-- The method `MediaGalleryComponent.addItems(...items)`:
`this.items.push(...items.flat(Infinity).map(i => MediaGalleryItem.create(i)))`. -/
def MediaGalleryComponent.addItems {ρ : Type} (g : MediaGalleryComponent ρ)
    (items : List (Nested MediaGalleryItemResolvable)) : MediaGalleryComponent ρ :=
  { g with items :=
      g.items ++ (Nested.flatAll items).map (fun i => GalleryEntry.item (MediaGalleryItem.create i)) }

/-- The method `MediaGalleryComponent.spliceItems(index, deleteCount, ...items)`:
`this.items.splice(index, deleteCount,
...items.flat(Infinity).map(i => BaseMessageComponentV2.create(i)))`. The
replacing items go through `create` of the component classes, without a client;
an exception leaves the gallery as it was. -/
def MediaGalleryComponent.spliceItems {ρ : Type} (K : Constants) (E : ComponentClasses ρ)
    (g : MediaGalleryComponent ρ) (index deleteCount : Nat)
    (items : List (Nested MediaGalleryItemResolvable)) : Emitting (MediaGalleryComponent ρ) :=
  Emitting.andThen
    (BaseMessageComponent.createAll K E
      ((Nested.flatAll items).map MediaGalleryItemResolvable.toComponentData) false)
    (fun cs => ([], .ok
      { g with
        items := JSArray.splice g.items index deleteCount (cs.map GalleryEntry.component) }))

/-- The method `MediaGalleryComponent.setItems(...items)`:
`this.spliceItems(0, this.items.length, items)`; the array of the arguments is
passed on as one argument. -/
def MediaGalleryComponent.setItems {ρ : Type} (K : Constants) (E : ComponentClasses ρ)
    (g : MediaGalleryComponent ρ) (items : List (Nested MediaGalleryItemResolvable)) :
    Emitting (MediaGalleryComponent ρ) :=
  MediaGalleryComponent.spliceItems K E g 0 g.items.length [Nested.array items]

/-! ## The colour of a container (`structures/ContainerComponent.js`) -/

/-- The call `n.toString(16)` on a natural number. -/
def JSNumber.toString16 (n : Nat) : List Char :=
  Nat.toDigits 16 n

/-- The call `s.padStart(length, c)` with a one-character filler. -/
def JSString.padStart (s : List Char) (length : Nat) (c : Char) : List Char :=
  List.replicate (length - s.length) c ++ s

/-- The getter `ContainerComponent.hexColor`:
`this.color ? '#' + this.color.toString(16).padStart(6, '0') : null`, given the
field `color` of the container; `none` is `null`. -/
def ContainerComponent.hexColor (color : Option Nat) : Option String :=
  if JSNumber.truthy color then
    color.map (fun c => String.mk ('#' :: JSString.padStart (JSNumber.toString16 c) 6 '0'))
  else none

/-- One hexadecimal digit more: the number read so far moves up one place; `none`
when the character is no hexadecimal digit. -/
def hexValue.step (acc : Option Nat) (ch : Char) : Option Nat :=
  match acc, "0123456789abcdef".toList.indexOf? ch with
  | some n, some d => some (16 * n + d)
  | _, _ => none

/-- The number that a string of hexadecimal digits writes, read digit by digit
from the left; `none` when a character is no hexadecimal digit. -/
def hexValue (digits : List Char) : Option Nat :=
  digits.foldl hexValue.step (some 0)

/-! ## Setters of `LabelComponent` (`structures/LabelComponent.js`) -/

/-- The method `LabelComponent.setLabel(label)`: `this.label = label; return this`.
No statement of the method throws. An object of another class has no such
method and is returned as it is. -/
def LabelComponent.setLabel {ρ : Type} : Component ρ → String → Except JSError (Component ρ)
  | .labelComponent id _ description component, label =>
    .ok (.labelComponent id (some label) description component)
  | c, _ => .ok c

/-- The method `LabelComponent.setDescription(description)`:
`this.description = description; return this`. No statement of the method
throws. -/
def LabelComponent.setDescription {ρ : Type} :
    Component ρ → String → Except JSError (Component ρ)
  | .labelComponent id label _ component, description =>
    .ok (.labelComponent id label (some description) component)
  | c, _ => .ok c

/-! ## `Entitlement.isActive` -/

/-- A JavaScript number as `isActive` compares it: an integer, `Infinity` or
`NaN`. -/
inductive JSNum where
  | int (n : Int)
  | infinity
  | nan
deriving DecidableEq, Repr

/-- The comparison `a <= b` of JavaScript numbers (`b >= a` is the same
comparison): false when one of them is `NaN`. -/
def JSNum.le : JSNum → JSNum → Bool
  | .int a, .int b => decide (a ≤ b)
  | .int _, .infinity => true
  | .infinity, .infinity => true
  | .infinity, .int _ => false
  | .nan, _ => false
  | _, .nan => false

/-- The call `date.getTime()`: the time in milliseconds that the argument the
date was built from parses to, `NaN` for an invalid date. The parsing of a date
string is a parameter. -/
def JSDate.getTime (parse : String → Option Int) (d : JSDate) : JSNum :=
  match d.arg.bind parse with
  | some t => .int t
  | none => .nan

/-- The method `Entitlement.isActive` at the time `now` that `Date.now()`
returns:
`(this.startsAt?.getTime() ?? 0) <= now && (this.endsAt?.getTime() ?? Infinity) >= now`. -/
def Entitlement.isActive (parse : String → Option Int) (now : Int) (e : Entitlement) : Bool :=
  JSNum.le
      (match e.startsAt with
        | some d => d.getTime parse
        | none => .int 0)
      (.int now)
    && JSNum.le (.int now)
      (match e.endsAt with
        | some d => d.getTime parse
        | none => .infinity)

/-! ## Option builders (`MessageSelectMenu.js`, `RadioGroupComponent.js`, `CheckboxGroupComponent.js`) -/

/-- The functions of `util/Util` that the option builders call. The module is not
among the sources, so they are a parameter of the code that calls them:
`verifyString(data, error, errorMessage, allowEmpty)`, given the value (`none` is
`undefined`), the error message and the fourth argument when there is one, and
`resolvePartialEmoji(emoji)`. Each returns or throws. -/
structure UtilFunctions where
  verifyString : Option JSValue → String → Option Bool → Except JSError String
  resolvePartialEmoji : Option JSValue → Except JSError (Option String)

/-- The call `xs.map(f)` with a callback that may throw: the elements are mapped
in order, up to the first exception. -/
def JSArray.mapE {α β : Type} (f : α → Except JSError β) : List α → Except JSError (List β)
  | [] => .ok []
  | x :: t =>
    match f x with
    | .error e => .error e
    | .ok y =>
      match JSArray.mapE f t with
      | .error e => .error e
      | .ok ys => .ok (y :: ys)

/-- The data of an option given to a `MessageSelectMenu`; an absent property is
`none`. -/
structure MessageSelectOptionData where
  label : Option JSValue
  value : Option JSValue
  description : Option JSValue
  emoji : Option JSValue
  isDefault : Option Bool
deriving DecidableEq, Repr

/-- The static method `MessageSelectMenu.normalizeOption(option)`. -/
def MessageSelectMenu.normalizeOption (U : UtilFunctions) (option : MessageSelectOptionData) :
    Except JSError MessageSelectOption :=
  match U.verifyString option.label "SELECT_OPTION_LABEL" none with
  | .error e => .error e
  | .ok label =>
    match U.verifyString option.value "SELECT_OPTION_VALUE" none with
    | .error e => .error e
    | .ok value =>
      -- emoji ? Util.resolvePartialEmoji(emoji) : null
      match (if JSValue.truthy option.emoji then U.resolvePartialEmoji option.emoji
        else .ok none) with
      | .error e => .error e
      | .ok emoji =>
        -- description ? Util.verifyString(description, RangeError, ..., true) : null
        match (if JSValue.truthy option.description then
            (U.verifyString option.description "SELECT_OPTION_DESCRIPTION" (some true)).map some
          else .ok none) with
        | .error e => .error e
        | .ok description =>
          .ok { label := label, value := value, description := description, emoji := emoji,
                isDefault := option.isDefault.getD false }

/-- The static method `MessageSelectMenu.normalizeOptions(...options)`:
`options.flat(Infinity).map(option => this.normalizeOption(option))`. -/
def MessageSelectMenu.normalizeOptions (U : UtilFunctions)
    (options : List (Nested MessageSelectOptionData)) :
    Except JSError (List MessageSelectOption) :=
  JSArray.mapE (MessageSelectMenu.normalizeOption U) (Nested.flatAll options)

/-- The method `MessageSelectMenu.addOptions(...options)`:
`this.options.push(...this.constructor.normalizeOptions(options))`. The
arguments of `push` are evaluated before the call; it yields the menu as the
call leaves it and its outcome. -/
def MessageSelectMenu.addOptions (U : UtilFunctions) (m : MessageSelectMenu)
    (options : List (Nested MessageSelectOptionData)) : MessageSelectMenu × Except JSError Unit :=
  match MessageSelectMenu.normalizeOptions U [Nested.array options] with
  | .ok normalized => ({ m with options := m.options ++ normalized }, .ok ())
  | .error e => (m, .error e)

/-- The method `MessageSelectMenu.spliceOptions(index, deleteCount, ...options)`:
`this.options.splice(index, deleteCount,
...this.constructor.normalizeOptions(...options))`. The arguments of `splice`
are evaluated before the call. -/
def MessageSelectMenu.spliceOptions (U : UtilFunctions) (m : MessageSelectMenu)
    (index deleteCount : Nat) (options : List (Nested MessageSelectOptionData)) :
    MessageSelectMenu × Except JSError Unit :=
  match MessageSelectMenu.normalizeOptions U options with
  | .ok normalized =>
    ({ m with options := JSArray.splice m.options index deleteCount normalized }, .ok ())
  | .error e => (m, .error e)

/-- The method `MessageSelectMenu.setOptions(...options)`:
`this.spliceOptions(0, this.options.length, options)`. -/
def MessageSelectMenu.setOptions (U : UtilFunctions) (m : MessageSelectMenu)
    (options : List (Nested MessageSelectOptionData)) : MessageSelectMenu × Except JSError Unit :=
  MessageSelectMenu.spliceOptions U m 0 m.options.length [Nested.array options]

/-- The data of an option given to a `RadioGroupComponent`; an absent property is
`none`. -/
structure RadioGroupOptionData where
  label : Option JSValue
  value : Option JSValue
  description : Option JSValue
  isDefault : Option Bool
deriving DecidableEq, Repr

/-- A normalized option of a `RadioGroupComponent`; in `description`, `none` is
`undefined`. -/
structure RadioGroupOption where
  label : String
  value : String
  description : Option String
  isDefault : Bool
deriving DecidableEq, Repr

/-- A `RadioGroupComponent` object. -/
structure RadioGroupComponent where
  customId : Option String
  id : Option Nat
  options : List RadioGroupOption
  required : Bool
deriving DecidableEq, Repr

/-- The static method `RadioGroupComponent.normalizeOption(option)`. -/
def RadioGroupComponent.normalizeOption (U : UtilFunctions) (option : RadioGroupOptionData) :
    Except JSError RadioGroupOption :=
  match U.verifyString option.label "RADIO_GROUP_OPTION_LABEL" none with
  | .error e => .error e
  | .ok label =>
    match U.verifyString option.value "RADIO_GROUP_OPTION_VALUE" none with
    | .error e => .error e
    | .ok value =>
      -- description ? Util.verifyString(description, RangeError, ..., true) : undefined
      match (if JSValue.truthy option.description then
          (U.verifyString option.description "RADIO_GROUP_OPTION_DESCRIPTION" (some true)).map some
        else .ok none) with
      | .error e => .error e
      | .ok description =>
        .ok { label := label, value := value, description := description,
              isDefault := option.isDefault.getD false }

/-- The static method `RadioGroupComponent.normalizeOptions(...options)`:
`options.flat(Infinity).map(option => this.normalizeOption(option))`. -/
def RadioGroupComponent.normalizeOptions (U : UtilFunctions)
    (options : List (Nested RadioGroupOptionData)) : Except JSError (List RadioGroupOption) :=
  JSArray.mapE (RadioGroupComponent.normalizeOption U) (Nested.flatAll options)

/-- The method `RadioGroupComponent.addOptions(...options)`:
`this.options.push(...this.constructor.normalizeOptions(options))`. The
arguments of `push` are evaluated before the call; it yields the component as
the call leaves it and its outcome. -/
def RadioGroupComponent.addOptions (U : UtilFunctions) (c : RadioGroupComponent)
    (options : List (Nested RadioGroupOptionData)) : RadioGroupComponent × Except JSError Unit :=
  match RadioGroupComponent.normalizeOptions U [Nested.array options] with
  | .ok normalized => ({ c with options := c.options ++ normalized }, .ok ())
  | .error e => (c, .error e)

/-- The method `RadioGroupComponent.spliceOptions(index, deleteCount, ...options)`:
`this.options.splice(index, deleteCount,
...this.constructor.normalizeOptions(...options))`. The arguments of `splice`
are evaluated before the call. -/
def RadioGroupComponent.spliceOptions (U : UtilFunctions) (c : RadioGroupComponent)
    (index deleteCount : Nat) (options : List (Nested RadioGroupOptionData)) :
    RadioGroupComponent × Except JSError Unit :=
  match RadioGroupComponent.normalizeOptions U options with
  | .ok normalized =>
    ({ c with options := JSArray.splice c.options index deleteCount normalized }, .ok ())
  | .error e => (c, .error e)

/-- The method `RadioGroupComponent.setOptions(...options)`:
`this.spliceOptions(0, this.options.length, options)`. -/
def RadioGroupComponent.setOptions (U : UtilFunctions) (c : RadioGroupComponent)
    (options : List (Nested RadioGroupOptionData)) : RadioGroupComponent × Except JSError Unit :=
  RadioGroupComponent.spliceOptions U c 0 c.options.length [Nested.array options]

/-- The data of an option given to a `CheckboxGroupComponent`; an absent property is
`none`. -/
structure CheckboxGroupOptionData where
  label : Option JSValue
  value : Option JSValue
  description : Option JSValue
  isDefault : Option Bool
deriving DecidableEq, Repr

/-- A normalized option of a `CheckboxGroupComponent`; in `description`, `none` is
`undefined`. -/
structure CheckboxGroupOption where
  label : String
  value : String
  description : Option String
  isDefault : Bool
deriving DecidableEq, Repr

/-- A `CheckboxGroupComponent` object. -/
structure CheckboxGroupComponent where
  customId : Option String
  id : Option Nat
  options : List CheckboxGroupOption
  minValues : Option Nat
  maxValues : Option Nat
  required : Bool
deriving DecidableEq, Repr

/-- The static method `CheckboxGroupComponent.normalizeOption(option)`. -/
def CheckboxGroupComponent.normalizeOption (U : UtilFunctions) (option : CheckboxGroupOptionData) :
    Except JSError CheckboxGroupOption :=
  match U.verifyString option.label "CHECKBOX_GROUP_OPTION_LABEL" none with
  | .error e => .error e
  | .ok label =>
    match U.verifyString option.value "CHECKBOX_GROUP_OPTION_VALUE" none with
    | .error e => .error e
    | .ok value =>
      -- description ? Util.verifyString(description, RangeError, ..., true) : undefined
      match (if JSValue.truthy option.description then
          (U.verifyString option.description "CHECKBOX_GROUP_OPTION_DESCRIPTION" (some true)).map some
        else .ok none) with
      | .error e => .error e
      | .ok description =>
        .ok { label := label, value := value, description := description,
              isDefault := option.isDefault.getD false }

/-- The static method `CheckboxGroupComponent.normalizeOptions(...options)`:
`options.flat(Infinity).map(option => this.normalizeOption(option))`. -/
def CheckboxGroupComponent.normalizeOptions (U : UtilFunctions)
    (options : List (Nested CheckboxGroupOptionData)) : Except JSError (List CheckboxGroupOption) :=
  JSArray.mapE (CheckboxGroupComponent.normalizeOption U) (Nested.flatAll options)

/-- The method `CheckboxGroupComponent.addOptions(...options)`:
`this.options.push(...this.constructor.normalizeOptions(options))`. The
arguments of `push` are evaluated before the call; it yields the component as
the call leaves it and its outcome. -/
def CheckboxGroupComponent.addOptions (U : UtilFunctions) (c : CheckboxGroupComponent)
    (options : List (Nested CheckboxGroupOptionData)) : CheckboxGroupComponent × Except JSError Unit :=
  match CheckboxGroupComponent.normalizeOptions U [Nested.array options] with
  | .ok normalized => ({ c with options := c.options ++ normalized }, .ok ())
  | .error e => (c, .error e)

/-- The method `CheckboxGroupComponent.spliceOptions(index, deleteCount, ...options)`:
`this.options.splice(index, deleteCount,
...this.constructor.normalizeOptions(...options))`. The arguments of `splice`
are evaluated before the call. -/
def CheckboxGroupComponent.spliceOptions (U : UtilFunctions) (c : CheckboxGroupComponent)
    (index deleteCount : Nat) (options : List (Nested CheckboxGroupOptionData)) :
    CheckboxGroupComponent × Except JSError Unit :=
  match CheckboxGroupComponent.normalizeOptions U options with
  | .ok normalized =>
    ({ c with options := JSArray.splice c.options index deleteCount normalized }, .ok ())
  | .error e => (c, .error e)

/-- The method `CheckboxGroupComponent.setOptions(...options)`:
`this.spliceOptions(0, this.options.length, options)`. -/
def CheckboxGroupComponent.setOptions (U : UtilFunctions) (c : CheckboxGroupComponent)
    (options : List (Nested CheckboxGroupOptionData)) : CheckboxGroupComponent × Except JSError Unit :=
  CheckboxGroupComponent.spliceOptions U c 0 c.options.length [Nested.array options]

/-! ## `TextBasedChannel.bulkDelete` (`structures/interfaces/TextBasedChannel.js`) -/

/-- An element of the array given to `bulkDelete`: a message, or anything else,
which is taken as the id. -/
inductive MessageResolvable where
  | message (m : Message)
  | id (s : Snowflake)
deriving DecidableEq, Repr

/-- The first argument of `bulkDelete`: an array, a collection of messages, a
numeric value, or any other value. -/
inductive BulkDeleteArgument where
  | array (messages : List MessageResolvable)
  | collection (messages : JSMap Snowflake Ref)
  | numeric (n : Nat)
  | other
deriving DecidableEq, Repr

/-- What `bulkDelete` calls outside the sources: the answers of the remote API to
the deletion of one message and to the bulk deletion, and
`this.messages.fetch(options)` with a limit, of the message manager, run to
completion. -/
structure MessageRemote where
  deleteMessage : Snowflake → Snowflake → Except JSError Unit
  bulkDelete : Snowflake → List Snowflake → Except JSError Unit
  fetch : Client → Channel → Nat → Async (JSMap Snowflake Ref)

/-- The branch of `bulkDelete` for an array or a collection, from the message
ids on: the filter on the age of the ids, then the remote call and the
collection returned. `timestampFrom` is `SnowflakeUtil.timestampFrom`, which is
not among the sources, and `now` is what `Date.now()` returns. -/
def TextBasedChannel.bulkDeleteIds (K : Constants) (R : MessageRemote)
    (timestampFrom : Snowflake → Int) (now : Int) (client : Client) (channel : Channel)
    (ids : List Snowflake) (filterOld : Bool) : Async (JSMap Snowflake (Option Ref)) :=
  -- messageIds.filter(id => Date.now() - SnowflakeUtil.timestampFrom(id) < MaxBulkDeletableMessageAge)
  let messageIds :=
    if filterOld then
      ids.filter (fun id => decide (now - timestampFrom id < K.MaxBulkDeletableMessageAge))
    else ids
  match messageIds with
  | [] => ⟨client, [], .ok []⟩
  | [id] =>
    match R.deleteMessage channel.id id with
    | .error e => ⟨client, [.deleteMessage channel.id id], .error e⟩
    | .ok _ =>
      ⟨client, [.deleteMessage channel.id id],
        .ok (match Action.getMessage client channel id with
          | some (r, message) => [(message.id, some r)]
          | none => [])⟩
  | id :: id2 :: rest =>
    match R.bulkDelete channel.id (id :: id2 :: rest) with
    | .error e => ⟨client, [.bulkDeleteMessages channel.id (id :: id2 :: rest)], .error e⟩
    | .ok _ =>
      ⟨client, [.bulkDeleteMessages channel.id (id :: id2 :: rest)],
        .ok ((id :: id2 :: rest).foldl
          (fun col x => JSMap.set col x ((Action.getMessage client channel x).map Prod.fst))
          [])⟩

/-- The method `TextBasedChannel.bulkDelete(messages, filterOld)` of a channel,
run to completion. -/
def TextBasedChannel.bulkDelete (K : Constants) (R : MessageRemote)
    (timestampFrom : Snowflake → Int) (now : Int) (client : Client) (channel : Channel)
    (messages : BulkDeleteArgument) (filterOld : Bool) : Async (JSMap Snowflake (Option Ref)) :=
  match messages with
  | .array ms =>
    -- messages.map(m => m.id ?? m)
    TextBasedChannel.bulkDeleteIds K R timestampFrom now client channel
      (ms.map (fun m =>
        match m with
        | .message o => o.id
        | .id x => x))
      filterOld
  | .collection c =>
    -- [...messages.keys()]
    TextBasedChannel.bulkDeleteIds K R timestampFrom now client channel (c.map Prod.fst) filterOld
  | .numeric n =>
    -- const msgs = await this.messages.fetch({ limit: messages })
    match (R.fetch client channel n).outcome with
    | .error e => ⟨(R.fetch client channel n).client, (R.fetch client channel n).requests, .error e⟩
    | .ok msgs =>
      -- return this.bulkDelete(msgs, filterOld)
      ⟨(TextBasedChannel.bulkDeleteIds K R timestampFrom now (R.fetch client channel n).client
          channel (msgs.map Prod.fst) filterOld).client,
        (R.fetch client channel n).requests
          ++ (TextBasedChannel.bulkDeleteIds K R timestampFrom now (R.fetch client channel n).client
            channel (msgs.map Prod.fst) filterOld).requests,
        (TextBasedChannel.bulkDeleteIds K R timestampFrom now (R.fetch client channel n).client
          channel (msgs.map Prod.fst) filterOld).outcome⟩
  | .other => ⟨client, [], .error (JSError.typeError "MESSAGE_BULK_DELETE_TYPE")⟩

/-! ## The V2 component classes among the sources -/

/-- The property `key` of raw component data among the remaining properties;
`none` is `undefined`. -/
def ComponentFields.prop : ComponentFields → String → Option JSValue
  | .mk _ _ _ _ _ _ _ _ props, key => props.lookup key

/-- A `TextDisplayComponent` object. -/
structure TextDisplayComponent where
  id : Option Nat
  content : Option JSValue
deriving DecidableEq, Repr

/-- The constructor `new TextDisplayComponent(data)`. -/
def TextDisplayComponent.new : ComponentFields → TextDisplayComponent
  | .mk id _ _ _ _ _ _ _ props => { id := id, content := props.lookup "content" }

/-- A `ThumbnailComponent` object. -/
structure ThumbnailComponent where
  id : Option Nat
  media : Option JSValue
  description : Option String
  spoiler : Bool
deriving DecidableEq, Repr

/-- The constructor `new ThumbnailComponent(data)`. -/
def ThumbnailComponent.new : ComponentFields → ThumbnailComponent
  | .mk id _ _ _ _ description _ spoiler props =>
    { id := id, media := props.lookup "media", description := description,
      spoiler := spoiler.getD false }

/-- A `FileComponent` object. -/
structure FileComponent where
  id : Option Nat
  file : Option JSValue
  spoiler : Bool
  name : Option JSValue
  size : Option JSValue
deriving DecidableEq, Repr

/-- The constructor `new FileComponent(data)`. -/
def FileComponent.new : ComponentFields → FileComponent
  | .mk id _ _ _ _ _ _ spoiler props =>
    { id := id, file := props.lookup "file", spoiler := spoiler.getD false,
      name := props.lookup "name", size := props.lookup "size" }

/-- A `SeparatorComponent` object; in `spacing`, `none` is `undefined`. -/
structure SeparatorComponent where
  id : Option Nat
  divider : JSValue
  spacing : Option JSValue
deriving DecidableEq, Repr

/-- The constructor `new SeparatorComponent(data)`. -/
def SeparatorComponent.new (K : Constants) : ComponentFields → SeparatorComponent
  | .mk id _ _ _ _ _ _ _ props =>
    { id := id
      -- data.divider ?? true
      divider :=
        match props.lookup "divider" with
        | none => .bool true
        | some .null => .bool true
        | some v => v
      -- data.spacing ? SeparatorSpacing[data.spacing] : 'SMALL'
      spacing :=
        if JSValue.truthy (props.lookup "spacing") then
          (props.lookup "spacing").bind K.SeparatorSpacing
        else some (.string "SMALL") }

/-- The constructor `new MediaGalleryComponent(data)`:
`this.items = data.items?.map(i => MediaGalleryItem.create(i)) ?? []`. A property
`items` that is no array has no method `map`. -/
def MediaGalleryComponent.ofData {ρ : Type} :
    ComponentFields → Except JSError (MediaGalleryComponent ρ)
  | .mk id _ _ _ _ _ _ _ props =>
    match props.lookup "items" with
    | some (.items l) =>
      .ok { id := id, items := l.map (fun i => GalleryEntry.item (MediaGalleryItem.create i)) }
    | none => .ok { id := id, items := [] }
    | some .null => .ok { id := id, items := [] }
    | some _ => .error (JSError.typeError "data.items?.map is not a function")

/-- An object of a component class other than the section, container and label
classes: of one of the V2 classes among the sources, or of another class. -/
inductive ComponentObject (ρ : Type) where
  | textDisplay (c : TextDisplayComponent)
  | thumbnail (c : ThumbnailComponent)
  | mediaGallery (c : MediaGalleryComponent ρ)
  | file (c : FileComponent)
  | separator (c : SeparatorComponent)
  | other (o : ρ)

/-- The component classes with the constructors of the text display, thumbnail,
media gallery, file and separator classes taken from the sources; the
constructors of the remaining classes and `Util.resolveColor` stay a
parameter. -/
def ComponentClasses.ofSources {ρ : Type} (K : Constants) (L : ComponentClasses ρ) :
    ComponentClasses (ComponentObject ρ) :=
  { construct := fun kind data client =>
      match kind, data with
      | .TEXT_DISPLAY, .mk _ fields => ([], .ok (.textDisplay (TextDisplayComponent.new fields)))
      | .THUMBNAIL, .mk _ fields => ([], .ok (.thumbnail (ThumbnailComponent.new fields)))
      | .MEDIA_GALLERY, .mk _ fields =>
        ([], (MediaGalleryComponent.ofData fields).map ComponentObject.mediaGallery)
      | .FILE, .mk _ fields => ([], .ok (.file (FileComponent.new fields)))
      | .SEPARATOR, .mk _ fields => ([], .ok (.separator (SeparatorComponent.new K fields)))
      | kind, data =>
        ((L.construct kind data client).1, (L.construct kind data client).2.map ComponentObject.other)
    resolveColor := L.resolveColor }

/-- The field `type` of a component: the string that the constructor of its
class hands to the constructor of `BaseMessageComponent` (`super` with
`type: 'SECTION'` and so on), which keeps a string as it is. -/
def Component.type {ρ : Type} : Component ρ → String
  | .other kind _ => kind.name
  | .sectionComponent _ _ _ => "SECTION"
  | .containerComponent _ _ _ _ => "CONTAINER"
  | .labelComponent _ _ _ _ => "LABEL"

/-- The property `type` of the object `toJSON` returns:
`MessageComponentTypes[this.type]`; `none` is `undefined`. -/
def Component.toJSONType {ρ : Type} (K : Constants) (c : Component ρ) : Option Nat :=
  resolveSwitchType K (.name c.type)

/-- The V2 component kinds. -/
def ComponentKind.v2 : List ComponentKind :=
  [.SECTION, .TEXT_DISPLAY, .THUMBNAIL, .MEDIA_GALLERY, .FILE, .SEPARATOR, .CONTAINER, .LABEL]

/-- Whether a value is a string that is not empty; `none` is `undefined`. -/
def JSValue.isNonEmptyString : Option JSValue → Bool
  | some (.string s) => s != ""
  | _ => false

/-! ## Entities in the object store

A field of an entity that holds an array or a date holds a reference to an
object. `Base._clone` copies the fields, so a clone refers to the same arrays
and dates as the original; `_patch` decides what happens to them. -/

/-- The objects that fields of entities and of payloads refer to: arrays of
identifiers and dates. -/
structure ObjectStore where
  arrays : Heap (List Snowflake)
  dates : Heap JSDate
deriving DecidableEq, Repr

/-- The array behind a field; `none` is a field that is `undefined` or `null`. -/
def ObjectStore.array (store : ObjectStore) (r : Option Ref) : Option (List Snowflake) :=
  r.bind (fun x => store.arrays[x]?)

/-- The date behind a field; `none` is a field that is `undefined` or `null`. -/
def ObjectStore.date (store : ObjectStore) (r : Option Ref) : Option JSDate :=
  r.bind (fun x => store.dates[x]?)

/-- A `Subscription` object with its arrays and dates as references into the
object store. -/
structure SubscriptionObject where
  id : Snowflake
  userId : Option Snowflake
  skuIds : Option Ref
  entitlementIds : Option Ref
  currentPeriodStart : Option Ref
  currentPeriodEnd : Option Ref
  status : Option String
  renewalSkuIds : Option Ref
  canceledAt : Option Ref
  country : Option String
  deleted : Option Bool
deriving DecidableEq, Repr

/-- The raw subscription payload with its arrays as references into the object
store. -/
structure SubscriptionPayload where
  id : Snowflake
  user_id : Option Snowflake
  sku_ids : Option Ref
  entitlement_ids : Option Ref
  current_period_start : Option String
  current_period_end : Option String
  status : Option Nat
  renewal_sku_ids : Option Ref
  canceled_at : Option String
  country : Option String
deriving DecidableEq, Repr

/-- The values of the properties of a payload: each array read from the store. -/
def SubscriptionPayload.read (store : ObjectStore) (d : SubscriptionPayload) : SubscriptionData :=
  { id := d.id, user_id := d.user_id, sku_ids := store.array d.sku_ids,
    entitlement_ids := store.array d.entitlement_ids,
    current_period_start := d.current_period_start,
    current_period_end := d.current_period_end, status := d.status,
    renewal_sku_ids := store.array d.renewal_sku_ids, canceled_at := d.canceled_at,
    country := d.country }

/-- The values of the fields of a subscription object: each array and each date
read from the store. A period date that is not set reads as the date of
`undefined`. -/
def SubscriptionObject.read (store : ObjectStore) (o : SubscriptionObject) : Subscription :=
  { id := o.id, userId := o.userId, skuIds := store.array o.skuIds,
    entitlementIds := store.array o.entitlementIds,
    currentPeriodStart := (store.date o.currentPeriodStart).getD ⟨none⟩,
    currentPeriodEnd := (store.date o.currentPeriodEnd).getD ⟨none⟩, status := o.status,
    renewalSkuIds := store.array o.renewalSkuIds, canceledAt := store.date o.canceledAt,
    country := o.country, deleted := o.deleted }

/-- Whether every date a subscription object refers to is an object of the
store. -/
def SubscriptionObject.valid (store : ObjectStore) (o : SubscriptionObject) : Bool :=
  [o.currentPeriodStart, o.currentPeriodEnd, o.canceledAt].all
    (fun r =>
      match r with
      | some x => decide (x < store.dates.length)
      | none => true)

/-- The method `Subscription._patch` on the object store. An assignment of an
array of the payload stores the reference to that array, `new Date(...)` makes a
new date; it yields the store and the object it leaves. -/
def Subscription._patchObject (K : Constants) (store : ObjectStore) (s : SubscriptionObject)
    (data : SubscriptionPayload) : ObjectStore × SubscriptionObject :=
  -- new Date(data.current_period_start)
  let start := store.dates.alloc ⟨data.current_period_start⟩
  -- new Date(data.current_period_end)
  let stop := start.1.alloc ⟨data.current_period_end⟩
  -- data.canceled_at ? new Date(data.canceled_at) : null
  let canceled : Heap JSDate × Option Ref :=
    if truthy data.canceled_at then
      ((stop.1.alloc ⟨data.canceled_at⟩).1, some (stop.1.alloc ⟨data.canceled_at⟩).2)
    else (stop.1, none)
  ({ store with dates := canceled.1 },
    { s with
      userId := data.user_id
      skuIds := data.sku_ids
      entitlementIds := data.entitlement_ids
      currentPeriodStart := some start.2
      currentPeriodEnd := some stop.2
      status := data.status.bind K.SubscriptionStatuses
      renewalSkuIds := data.renewal_sku_ids
      canceledAt := canceled.2
      country := data.country })

/-- An `Entitlement` object with its dates as references into the object
store. -/
structure EntitlementObject where
  id : Snowflake
  skuId : Option Snowflake
  applicationId : Option Snowflake
  userId : Option Snowflake
  promotionId : Option Snowflake
  type : Option String
  deleted : Bool
  guildId : Option Snowflake
  startsAt : Option Ref
  endsAt : Option Ref
  consumed : Bool
deriving DecidableEq, Repr

/-- The values of the fields of an entitlement object: each date read from the
store. -/
def EntitlementObject.read (store : ObjectStore) (o : EntitlementObject) : Entitlement :=
  { id := o.id, skuId := o.skuId, applicationId := o.applicationId, userId := o.userId,
    promotionId := o.promotionId, type := o.type, deleted := o.deleted, guildId := o.guildId,
    startsAt := store.date o.startsAt, endsAt := store.date o.endsAt, consumed := o.consumed }

/-- Whether every date an entitlement object refers to is an object of the
store. -/
def EntitlementObject.valid (store : ObjectStore) (o : EntitlementObject) : Bool :=
  [o.startsAt, o.endsAt].all
    (fun r =>
      match r with
      | some x => decide (x < store.dates.length)
      | none => true)

/-- The method `Entitlement._patch` on the object store: `new Date(...)` makes a
new date; it yields the store and the object it leaves. -/
def Entitlement._patchObject (K : Constants) (store : ObjectStore) (e : EntitlementObject)
    (data : EntitlementData) : ObjectStore × EntitlementObject :=
  -- data.starts_at ? new Date(data.starts_at) : null
  let starts : Heap JSDate × Option Ref :=
    if truthy data.starts_at then
      ((store.dates.alloc ⟨data.starts_at⟩).1, some (store.dates.alloc ⟨data.starts_at⟩).2)
    else (store.dates, none)
  -- data.ends_at ? new Date(data.ends_at) : null
  let ends : Heap JSDate × Option Ref :=
    if truthy data.ends_at then
      ((starts.1.alloc ⟨data.ends_at⟩).1, some (starts.1.alloc ⟨data.ends_at⟩).2)
    else (starts.1, none)
  ({ store with dates := ends.1 },
    { e with
      skuId := data.sku_id
      applicationId := data.application_id
      userId := data.user_id
      promotionId := data.promotion_id
      type := data.type.bind K.EntitlementTypes
      deleted := data.deleted.getD false
      guildId := data.guild_id
      startsAt := starts.2
      endsAt := ends.2
      consumed := data.consumed.getD false })

/-! ## Sample values -/

/-- Sample tables: a purchase entitlement type, an active subscription status,
and 0 as the code of the ready status. -/
def sampleConstants : Constants :=
  { EntitlementTypes := fun n => if n = 1 then some "PURCHASE" else none
    SubscriptionStatuses := fun n => if n = 0 then some "ACTIVE" else none
    READY := 0
    SKUTypes := fun n => if n = 5 then some "SUBSCRIPTION" else none
    MessageComponentTypes := fun k => (ComponentKind.all.indexOf k) + 1
    MaxBulkDeletableMessageAge := 1209600000
    SeparatorSpacing := fun v =>
      if v = .number 1 then some (.string "SMALL")
      else if v = .number 2 then some (.string "LARGE")
      else if v = .string "SMALL" then some (.number 1)
      else if v = .string "LARGE" then some (.number 2)
      else none }

/-- A sample entitlement payload with id 10. -/
def sampleEntitlementData : EntitlementData :=
  { id := "10", sku_id := some "7", application_id := some "1", user_id := some "5",
    promotion_id := none, type := some 1, deleted := none, guild_id := none,
    starts_at := some "2024-01-01T00:00:00Z", ends_at := none, consumed := none }

/-- A sample subscription payload with id 20 that has neither renewal SKUs, nor a
cancellation time, nor a country. -/
def sampleSubscriptionData : SubscriptionData :=
  { id := "20", user_id := some "5", sku_ids := some ["7"], entitlement_ids := some ["10"],
    current_period_start := some "2024-01-01T00:00:00Z",
    current_period_end := some "2024-02-01T00:00:00Z", status := some 0,
    renewal_sku_ids := none, canceled_at := none, country := none }

/-- A sample cached entitlement with id 10, owned by another user. -/
def sampleEntitlement : Entitlement :=
  { id := "10", skuId := some "7", applicationId := some "1", userId := some "6",
    promotionId := none, type := some "PURCHASE", deleted := false, guildId := none,
    startsAt := none, endsAt := none, consumed := false }

/-- A sample cached subscription with id 20, canceled and with renewal SKUs. -/
def sampleSubscription : Subscription :=
  { id := "20", userId := some "5", skuIds := some ["7"], entitlementIds := some ["10"],
    currentPeriodStart := ⟨some "2023-12-01T00:00:00Z"⟩,
    currentPeriodEnd := ⟨some "2024-01-01T00:00:00Z"⟩, status := some "ACTIVE",
    renewalSkuIds := some ["8"], canceledAt := some ⟨some "2023-12-15T00:00:00Z"⟩,
    country := some "DE", deleted := none }

/-- A sample client that caches the sample entitlement and the sample
subscription. -/
def sampleClient : Client :=
  { Client.empty with
    entitlementObjs := [sampleEntitlement]
    entitlements := [("10", 0)]
    subscriptionObjs := [sampleSubscription]
    subscriptions := [("20", 0)] }

/-- A sample client for the poll handlers: the text channel 30 caches the
message 40, whose poll has the answers 7 (3 votes) and 8 (5 votes); the voice
channel 31 is not text-based and the text channel 32 caches the message 41,
which has no poll. -/
def samplePollClient : Client :=
  { Client.empty with
    channelObjs :=
      [{ id := "30", isTextBased := true, messages := some [("40", 0)], guild := none,
         deleted := false },
       { id := "31", isTextBased := false, messages := none, guild := none, deleted := false },
       { id := "32", isTextBased := true, messages := some [("41", 1)], guild := none,
         deleted := false }]
    channels := [("30", 0), ("31", 1), ("32", 2)]
    messageObjs :=
      [{ id := "40", poll := some { answers := [(7, 0), (8, 1)] } },
       { id := "41", poll := none }]
    answerObjs :=
      [{ id := 7, text := some "yes", _emoji := none, voteCount := 3 },
       { id := 8, text := some "no", _emoji := none, voteCount := 5 }] }

/-- A sample vote of the user 5 for the answer 7 of the message 40. -/
def sampleVote : MessagePollVoteData :=
  { channel_id := "30", message_id := "40", answer_id := 7, user_id := "5" }

/-- A sample `Guild` class: the constructor copies the id, the shard id and the
remaining properties of the payload; both the constructor and `_patch` derive
`available` from `unavailable`. -/
def sampleGuildClass : ClassOps Guild GuildData :=
  { construct := fun d =>
      { id := d.id, available := !(d.unavailable.getD false), memberCount := 0,
        shardId := d.shardId, members := [], stageInstances := [], props := d.props }
    _patch := fun g d =>
      { g with available := !(d.unavailable.getD false), props := d.props } }

/-- A sample `GuildMember` class: the member carries the payload's id and
properties. -/
def sampleMemberClass : ClassOps GuildMember GuildMemberData :=
  { construct := fun d => { id := d.id, props := d.props }
    _patch := fun m d => { m with props := d.props } }

/-- A sample guild 50 that was announced as unavailable, with 2 members counted
and the member 5 cached. -/
def sampleGuild : Guild :=
  { id := "50", available := false, memberCount := 2, shardId := some 0,
    members := [("5", 0)], stageInstances := [], props := [] }

/-- A sample client for the guild handlers: it caches the sample guild, and the
member 6 was deleted at time 1000. -/
def sampleGuildClient : Client :=
  { Client.empty with
    guildObjs := [sampleGuild]
    guilds := [("50", 0)]
    memberObjs := [{ id := "5", props := [] }]
    deletedGuildMembers := [("6", 1000)] }

/-- A sample GUILD_CREATE payload for the guild 50, without `unavailable`. -/
def sampleGuildData : GuildData :=
  { id := "50", unavailable := none, shardId := none, props := [("name", "fire")] }

/-- A sample GUILD_MEMBER_ADD payload: the member 6 joins the guild 50. -/
def sampleMemberData : GuildMemberData :=
  { id := "6", guild_id := "50", props := [("nick", "ember")] }

/-- A sample `StageInstance` class: the instance carries the payload's id and
properties. -/
def sampleStageClass : ClassOps StageInstance StageInstanceData :=
  { construct := fun d => { id := d.id, props := d.props }
    _patch := fun s d => { s with props := d.props } }

/-- A sample client for the stage handler: the guild 50 caches the stage instance
70, the stage channel 60 belongs to that guild, and the stage instance 71 was
deleted at time 1000. -/
def sampleStageClient : Client :=
  { Client.empty with
    guildObjs := [{ sampleGuild with stageInstances := [("70", 0)] }]
    guilds := [("50", 0)]
    channelObjs :=
      [{ id := "60", isTextBased := true, messages := some [], guild := some 0,
         deleted := false }]
    channels := [("60", 0)]
    stageInstanceObjs := [{ id := "70", props := [("topic", "old")] }]
    deletedStageInstances := [("71", 1000)] }

/-- A sample update of the stage instance 70 in the channel 60. -/
def sampleStageData : StageInstanceData :=
  { id := "70", channel_id := "60", props := [("topic", "new")] }

/-- Sample component classes: an object of another class records the data it was
constructed from, and only numbers resolve to a colour. -/
def sampleComponentClasses : ComponentClasses ComponentData :=
  { construct := fun _ d _ => ([], .ok d)
    resolveColor := fun c =>
      match c with
      | .number n => .ok n
      | .text _ => .error (.typeError "COLOR_CONVERT") }

/-- Component fields with no property set. -/
def noFields : ComponentFields :=
  .mk none none none none none none none none []

/-- Sample component data of the unknown type 99. -/
def sampleUnknownComponent : ComponentData :=
  .mk (.code 99) noFields

/-- A sample entitlement record with id 11, consumed, as the API returns it. -/
def sampleEntitlementRecord : EntitlementData :=
  { sampleEntitlementData with id := "11", consumed := some true }

/-- A sample remote API: it knows the entitlements 10 and 11, the SKU 7 and the
subscription 20 of that SKU, and accepts every delete and consume call. -/
def sampleRemote : Remote :=
  { getEntitlement := fun id =>
      if id = "10" then .ok sampleEntitlementData
      else if id = "11" then .ok sampleEntitlementRecord
      else .error (.apiError "Unknown Entitlement")
    listEntitlements := fun _ => .ok [sampleEntitlementData, sampleEntitlementRecord]
    deleteEntitlement := fun _ => .ok ()
    consumeEntitlement := fun _ => .ok ()
    getSKU := fun id =>
      if id = "7" then
        .ok { id := "7", type := some 5, application_id := some "1", name := some "Premium",
              slug := some "premium", flags := some 4 }
      else .error (.apiError "Unknown SKU")
    listSKUs := .ok [{ id := "7", type := some 5, application_id := some "1",
                       name := some "Premium", slug := some "premium", flags := some 4 }]
    getSubscription := fun _ id =>
      if id = "20" then .ok sampleSubscriptionData else .error (.apiError "Unknown Subscription")
    listSubscriptions := fun _ _ => .ok [sampleSubscriptionData] }

/-- A sample remote API on which every call fails. -/
def sampleFailingRemote : Remote :=
  { getEntitlement := fun _ => .error (.apiError "503")
    listEntitlements := fun _ => .error (.apiError "503")
    deleteEntitlement := fun _ => .error (.apiError "503")
    consumeEntitlement := fun _ => .error (.apiError "503")
    getSKU := fun _ => .error (.apiError "503")
    listSKUs := .error (.apiError "503")
    getSubscription := fun _ _ => .error (.apiError "503")
    listSubscriptions := fun _ _ => .error (.apiError "503") }

/-- Fetch options for entitlements with no property set. -/
def noEntitlementOptions : FetchEntitlementsOptions :=
  { id := none, userId := none, skuIds := none, before := none, after := none, limit := none,
    guildId := none, excludeEnded := none, excludeDeleted := none, cache := none, force := none }

/-- Fetch options for subscriptions with no property set. -/
def noSubscriptionOptions : FetchSubscriptionsOptions :=
  { id := none, sku := none, before := none, after := none, limit := none, cache := none,
    force := none }

/-- A sample client that caches, besides the sample entitlement and the sample
subscription, the SKUs 7 and 9 and the user 6. -/
def sampleSkuClient : Client :=
  { sampleClient with
    skuObjs := [
      { id := "7", type := some "SUBSCRIPTION", applicationId := some "1",
        name := some "Premium", slug := some "premium", flags := 0 },
      { id := "9", type := some "SUBSCRIPTION", applicationId := some "1",
        name := some "Basic", slug := some "basic", flags := 0 }]
    skus := [("7", 0), ("9", 1)]
    users := [("6", 0)] }

/-- A sample string select menu with three options and no maximum. -/
def sampleSelectMenu : MessageSelectMenu :=
  { MessageSelectMenu.new with
    customId := some "pick"
    options := [
      { label := "One", value := "1", description := none, emoji := none, isDefault := false },
      { label := "Two", value := "2", description := none, emoji := none, isDefault := false },
      { label := "Three", value := "3", description := none, emoji := none, isDefault := false }] }

/-- Sample options of a gallery item. -/
def sampleItemOptions : MediaGalleryItemOptions :=
  { media := some { url := some "attachment://cat.png" }, description := some "A cat",
    spoiler := none }

/-- A sample parser of date strings: it knows three instants of the year 2024,
in milliseconds since the epoch. -/
def sampleDateParse (s : String) : Option Int :=
  if s = "2024-01-01T00:00:00Z" then some 1704067200000
  else if s = "2024-02-01T00:00:00Z" then some 1706745600000
  else if s = "2024-03-01T00:00:00Z" then some 1709251200000
  else none

/-- A sample entitlement that starts on 2024-01-01 and ends on 2024-02-01. -/
def sampleTimedEntitlement : Entitlement :=
  { sampleEntitlement with
    startsAt := some ⟨some "2024-01-01T00:00:00Z"⟩
    endsAt := some ⟨some "2024-02-01T00:00:00Z"⟩ }

/-- Sample functions of `Util`: `verifyString` throws a RangeError with the given
message for a value that is no string, and for the empty string unless the
fourth argument is true; `resolvePartialEmoji` resolves nothing. -/
def sampleUtil : UtilFunctions :=
  { verifyString := fun v msg allowEmpty =>
      match v with
      | some (.string s) =>
        if s = "" ∧ allowEmpty ≠ some true then .error (.rangeError msg) else .ok s
      | _ => .error (.rangeError msg)
    resolvePartialEmoji := fun _ => .ok none }

/-- Sample functions of `Util` that check the type only: `verifyString` throws a
RangeError with the given message for a value that is no string, and for the
empty string only when the fourth argument is false; `resolvePartialEmoji`
resolves nothing. -/
def sampleStringUtil : UtilFunctions :=
  { verifyString := fun v msg allowEmpty =>
      match v with
      | some (.string s) =>
        if s = "" ∧ allowEmpty = some false then .error (.rangeError msg) else .ok s
      | _ => .error (.rangeError msg)
    resolvePartialEmoji := fun _ => .ok none }

/-- Sample data of a valid option of a checkbox group. -/
def sampleGoodOption : CheckboxGroupOptionData :=
  { label := some (.string "Yes"), value := some (.string "yes"), description := none,
    isDefault := none }

/-- Sample data of an option of a checkbox group whose value is a number. -/
def sampleBadOption : CheckboxGroupOptionData :=
  { label := some (.string "No"), value := some (.number 0), description := none,
    isDefault := none }

/-- A sample checkbox group with one option. -/
def sampleCheckboxGroup : CheckboxGroupComponent :=
  { customId := some "agree", id := none,
    options := [{ label := "Maybe", value := "maybe", description := none, isDefault := false }],
    minValues := none, maxValues := none, required := false }

/-- A sample text channel: the channel 30 of the sample poll client, which
caches the message 40. -/
def sampleTextChannel : Channel :=
  { id := "30", isTextBased := true, messages := some [("40", 0)], guild := none,
    deleted := false }

/-- Sample answers for `bulkDelete`: the remote calls succeed and the fetch
returns the cached message 40 and the message 39 after one request. -/
def sampleMessageRemote : MessageRemote :=
  { deleteMessage := fun _ _ => .ok ()
    bulkDelete := fun _ _ => .ok ()
    fetch := fun client channel n =>
      ⟨client, [.fetchMessages channel.id n], .ok [("40", 0), ("39", 0)]⟩ }

/-- Sample timestamps of message ids: the message 40 was sent at the instant
2000000000000, every other message at the instant 1000. -/
def sampleTimestampFrom (id : Snowflake) : Int :=
  if id = "40" then 2000000000000 else 1000

/-- Sample data of a text display, without its type: the id 3 and a content. -/
def sampleTextFields : ComponentFields :=
  .mk (some 3) none none none none none none none [("content", .string "Hello")]

/-- A sample object store: four arrays of identifiers and three dates. -/
def sampleStore : ObjectStore :=
  { arrays := [["7"], ["10"], ["8"], ["7", "9"]]
    dates := [⟨some "2023-12-01T00:00:00Z"⟩, ⟨some "2024-01-01T00:00:00Z"⟩,
      ⟨some "2023-12-15T00:00:00Z"⟩] }

/-- The sample subscription as an object of the sample store. -/
def sampleSubscriptionObject : SubscriptionObject :=
  { id := "20", userId := some "5", skuIds := some 0, entitlementIds := some 1,
    currentPeriodStart := some 0, currentPeriodEnd := some 1, status := some "ACTIVE",
    renewalSkuIds := some 2, canceledAt := some 2, country := some "DE", deleted := none }

/-- A sample subscription payload in the sample store: it lists the SKUs 7 and 9
and has neither renewal SKUs nor a cancellation time. -/
def sampleSubscriptionPayload : SubscriptionPayload :=
  { id := "20", user_id := some "5", sku_ids := some 3, entitlement_ids := some 1,
    current_period_start := some "2024-01-01T00:00:00Z",
    current_period_end := some "2024-02-01T00:00:00Z", status := some 0,
    renewal_sku_ids := none, canceled_at := none, country := none }

/-- A sample entitlement as an object of the sample store, with a start and an
end. -/
def sampleEntitlementObject : EntitlementObject :=
  { id := "10", skuId := some "7", applicationId := some "1", userId := some "6",
    promotionId := none, type := some "PURCHASE", deleted := false, guildId := none,
    startsAt := some 0, endsAt := some 1, consumed := false }

/-! ## Facts about collections and heaps -/

theorem JSMap.get_delete_self {κ ν : Type} [DecidableEq κ] (m : JSMap κ ν) (k : κ) :
    (m.delete k).get k = none := by
  induction m with
  | nil => rfl
  | cons p t ih =>
    obtain ⟨k', v⟩ := p
    by_cases h : k' = k
    · simp [JSMap.delete, h, ih]
    · simp [JSMap.delete, JSMap.get, h, ih]

theorem JSMap.get_delete_ne {κ ν : Type} [DecidableEq κ] (m : JSMap κ ν) {k k' : κ}
    (hne : k' ≠ k) : (m.delete k).get k' = m.get k' := by
  induction m with
  | nil => rfl
  | cons p t ih =>
    obtain ⟨k₀, v⟩ := p
    by_cases h : k₀ = k
    · subst h
      have h' : ¬ k₀ = k' := fun e => hne e.symm
      simp only [JSMap.delete, JSMap.get, if_true, if_neg h', ih]
    · by_cases h' : k₀ = k'
      · simp only [JSMap.delete, JSMap.get, if_neg h, if_pos h']
      · simp only [JSMap.delete, JSMap.get, if_neg h, if_neg h', ih]

theorem JSMap.delete_of_get_none {κ ν : Type} [DecidableEq κ] (m : JSMap κ ν) {k : κ}
    (hk : m.get k = none) : m.delete k = m := by
  induction m with
  | nil => rfl
  | cons p t ih =>
    obtain ⟨k₀, v⟩ := p
    by_cases h : k₀ = k
    · simp [JSMap.get, h] at hk
    · simp only [JSMap.get, h, if_false] at hk
      simp [JSMap.delete, h, ih hk]

theorem JSMap.get_set_self {κ ν : Type} [DecidableEq κ] (m : JSMap κ ν) (k : κ) (v : ν) :
    (m.set k v).get k = some v := by
  induction m with
  | nil => simp [JSMap.set, JSMap.get]
  | cons p t ih =>
    obtain ⟨k₀, v₀⟩ := p
    by_cases h : k₀ = k
    · simp [JSMap.set, JSMap.get, h]
    · simp [JSMap.set, JSMap.get, h, ih]

theorem JSMap.get_set_ne {κ ν : Type} [DecidableEq κ] (m : JSMap κ ν) {k k' : κ} (v : ν)
    (hne : k' ≠ k) : (m.set k v).get k' = m.get k' := by
  induction m with
  | nil =>
    have h : ¬ k = k' := fun e => hne e.symm
    simp only [JSMap.set, JSMap.get, if_neg h]
  | cons p t ih =>
    obtain ⟨k₀, v₀⟩ := p
    by_cases h : k₀ = k
    · subst h
      have h' : ¬ k₀ = k' := fun e => hne e.symm
      simp only [JSMap.set, JSMap.get, if_true, if_neg h']
    · by_cases h' : k₀ = k'
      · simp only [JSMap.set, JSMap.get, if_neg h, if_pos h']
      · simp only [JSMap.set, JSMap.get, if_neg h, if_neg h', ih]

theorem Heap.getElem?_alloc_self {α : Type} (h : Heap α) (o : α) :
    (h.alloc o).1[(h.alloc o).2]? = some o := by
  simp [Heap.alloc]

theorem Heap.getElem?_alloc_of_some {α : Type} (h : Heap α) (o : α) {r : Ref} {x : α}
    (hr : h[r]? = some x) : (h.alloc o).1[r]? = some x := by
  have hlt : r < h.length := by
    rcases Nat.lt_or_ge r h.length with hl | hl
    · exact hl
    · rw [List.getElem?_eq_none hl] at hr
      cases hr
  simp only [Heap.alloc]
  rw [List.getElem?_append_left hlt]
  exact hr

theorem Heap.alloc_fresh {α : Type} (h : Heap α) (o : α) : h[(h.alloc o).2]? = none := by
  simp [Heap.alloc]

theorem Heap.getElem?_mutate_self {α : Type} (h : Heap α) (f : α → α) {r : Ref} {x : α}
    (hr : h[r]? = some x) : (h.mutate r f)[r]? = some (f x) := by
  have hlt : r < h.length := by
    rcases Nat.lt_or_ge r h.length with hl | hl
    · exact hl
    · rw [List.getElem?_eq_none hl] at hr
      cases hr
  simp [Heap.mutate, hr, List.getElem?_set_eq_of_lt, hlt]

theorem Heap.getElem?_mutate_ne {α : Type} (h : Heap α) (f : α → α) {r r' : Ref}
    (hne : r ≠ r') : (h.mutate r f)[r']? = h[r']? := by
  unfold Heap.mutate
  cases h[r]? with
  | none => rfl
  | some x => simp [List.getElem?_set_ne hne]

theorem Heap.lookup_eq_none_of_get {α κ : Type} [DecidableEq κ] (h : Heap α) (cache : JSMap κ Ref)
    {k : κ} (hk : cache.get k = none) : Heap.lookup h cache k = none := by
  simp [Heap.lookup, hk]

theorem Heap.lookup_eq_some_of_get {α κ : Type} [DecidableEq κ] (h : Heap α) (cache : JSMap κ Ref)
    {k : κ} {r : Ref} {o : α} (hk : cache.get k = some r) (hr : h[r]? = some o) :
    Heap.lookup h cache k = some (r, o) := by
  simp [Heap.lookup, hk, hr]

theorem CachedManager._add_present {α δ : Type} (construct : δ → α) (patch : α → δ → α)
    (key : δ → Snowflake) (h : Heap α) (cache : Collection) (data : δ) {r : Ref} {x : α}
    (hk : cache.get (key data) = some r) (hr : h[r]? = some x) :
    CachedManager._add construct patch key h cache data
      = (h.mutate r (fun o => patch o data), cache, r) := by
  simp [CachedManager._add, Heap.lookup, hk, hr]

theorem CachedManager._add_absent {α δ : Type} (construct : δ → α) (patch : α → δ → α)
    (key : δ → Snowflake) (h : Heap α) (cache : Collection) (data : δ)
    (hk : Heap.lookup h cache (key data) = none) :
    CachedManager._add construct patch key h cache data
      = (h ++ [construct data], cache.set (key data) h.length, h.length) := by
  simp [CachedManager._add, hk, Heap.alloc]

/-- The upsert returns an instance that the cache holds under the key and that
the heap holds. -/
theorem CachedManager._add_get {α δ : Type} (construct : δ → α) (patch : α → δ → α)
    (key : δ → Snowflake) (h : Heap α) (cache : Collection) (data : δ) :
    (CachedManager._add construct patch key h cache data).2.1.get (key data)
        = some (CachedManager._add construct patch key h cache data).2.2
      ∧ ∃ x, (CachedManager._add construct patch key h cache data).1[
          (CachedManager._add construct patch key h cache data).2.2]? = some x := by
  cases hl : Heap.lookup h cache (key data) with
  | none =>
    rw [CachedManager._add_absent _ _ _ _ _ _ hl]
    exact ⟨JSMap.get_set_self _ _ _, construct data, by simp⟩
  | some p =>
    obtain ⟨r, x⟩ := p
    have hk : cache.get (key data) = some r ∧ h[r]? = some x := by
      unfold Heap.lookup at hl
      cases hg : cache.get (key data) with
      | none => simp [hg] at hl
      | some r' =>
        cases hx : h[r']? with
        | none => simp [hg, hx] at hl
        | some x' =>
          simp only [hg, hx, Option.some.injEq, Prod.mk.injEq] at hl
          obtain ⟨h1, h2⟩ := hl
          subst h1
          subst h2
          exact ⟨rfl, hx⟩
    rw [CachedManager._add_present _ _ _ _ _ _ hk.1 hk.2]
    exact ⟨hk.1, patch x data, Heap.getElem?_mutate_self _ _ hk.2⟩

theorem Heap.lt_length_of_getElem? {α : Type} (h : Heap α) {r : Ref} {x : α}
    (hr : h[r]? = some x) : r < h.length := by
  rcases Nat.lt_or_ge r h.length with hl | hl
  · exact hl
  · rw [List.getElem?_eq_none hl] at hr
    cases hr

/-! ## Update handlers -/

/-- Claim C1. EntitlementUpdate and SubscriptionUpdate: exactly one update event
is emitted, carrying the returned old and new values. When no entity is cached
under the payload's id the old value is null and the new value is the entity
constructed from the payload. When an entity is cached, the old value is a new
object, distinct from the cached one, that holds the field values the cached
entity had before the patch, and the new value is the cached instance, patched.
In both cases the store holds the new value under the payload's id. -/
theorem update_handlers_old_is_snapshot (K : Constants) (client : Client)
    (d : EntitlementData) (d' : SubscriptionData) :
    ((EntitlementUpdateAction.handle K client d).1.emitted
        = client.emitted ++ [Event.entitlementUpdate
            (EntitlementUpdateAction.handle K client d).2.1
            (EntitlementUpdateAction.handle K client d).2.2]
      ∧ (client.entitlements.get d.id = none →
          (EntitlementUpdateAction.handle K client d).2.1 = none
          ∧ (EntitlementUpdateAction.handle K client d).1.entitlementObjs[
              (EntitlementUpdateAction.handle K client d).2.2]? = some (Entitlement.new K d))
      ∧ (∀ r e, client.entitlements.get d.id = some r → client.entitlementObjs[r]? = some e →
          ∃ old, (EntitlementUpdateAction.handle K client d).2.1 = some old
            ∧ old ≠ r ∧ client.entitlementObjs[old]? = none
            ∧ (EntitlementUpdateAction.handle K client d).1.entitlementObjs[old]? = some e
            ∧ (EntitlementUpdateAction.handle K client d).2.2 = r
            ∧ (EntitlementUpdateAction.handle K client d).1.entitlementObjs[r]?
                = some (Entitlement._patch K e d))
      ∧ (EntitlementUpdateAction.handle K client d).1.entitlements.get d.id
          = some (EntitlementUpdateAction.handle K client d).2.2)
    ∧ ((SubscriptionUpdateAction.handle K client d').1.emitted
        = client.emitted ++ [Event.subscriptionUpdate
            (SubscriptionUpdateAction.handle K client d').2.1
            (SubscriptionUpdateAction.handle K client d').2.2]
      ∧ (client.subscriptions.get d'.id = none →
          (SubscriptionUpdateAction.handle K client d').2.1 = none
          ∧ (SubscriptionUpdateAction.handle K client d').1.subscriptionObjs[
              (SubscriptionUpdateAction.handle K client d').2.2]? = some (Subscription.new K d'))
      ∧ (∀ r e, client.subscriptions.get d'.id = some r → client.subscriptionObjs[r]? = some e →
          ∃ old, (SubscriptionUpdateAction.handle K client d').2.1 = some old
            ∧ old ≠ r ∧ client.subscriptionObjs[old]? = none
            ∧ (SubscriptionUpdateAction.handle K client d').1.subscriptionObjs[old]? = some e
            ∧ (SubscriptionUpdateAction.handle K client d').2.2 = r
            ∧ (SubscriptionUpdateAction.handle K client d').1.subscriptionObjs[r]?
                = some (Subscription._patch K e d'))
      ∧ (SubscriptionUpdateAction.handle K client d').1.subscriptions.get d'.id
          = some (SubscriptionUpdateAction.handle K client d').2.2) := by
  refine ⟨⟨?_, ?_, ?_, ?_⟩, ⟨?_, ?_, ?_, ?_⟩⟩
  · simp [EntitlementUpdateAction.handle, Client.emit]
  · intro hk
    have hl := Heap.lookup_eq_none_of_get client.entitlementObjs client.entitlements hk
    simp [EntitlementUpdateAction.handle, Client.emit, hl,
      CachedManager._add_absent _ _ EntitlementData.id _ _ d hl]
  · intro r e hk hr
    have hl := Heap.lookup_eq_some_of_get client.entitlementObjs client.entitlements hk hr
    have hlt := Heap.lt_length_of_getElem? _ hr
    have hr' : (client.entitlementObjs ++ [e])[r]? = some e := by
      rw [List.getElem?_append_left hlt]; exact hr
    refine ⟨client.entitlementObjs.length, ?_, ?_, ?_, ?_, ?_, ?_⟩
    · simp [EntitlementUpdateAction.handle, hl, Entitlement._clone, Subscription._clone, Base._clone, Heap.alloc]
    · exact fun e => Nat.lt_irrefl r (e ▸ hlt)
    · simp
    · simp only [EntitlementUpdateAction.handle, Client.emit, hl, Entitlement._clone, Subscription._clone, Base._clone, Heap.alloc,
        CachedManager._add_present _ _ EntitlementData.id _ _ d hk hr']
      rw [Heap.getElem?_mutate_ne _ _ (Nat.ne_of_lt hlt)]
      simp
    · simp [EntitlementUpdateAction.handle, hl, Entitlement._clone, Subscription._clone, Base._clone, Heap.alloc,
        CachedManager._add_present _ _ EntitlementData.id _ _ d hk hr']
    · simp only [EntitlementUpdateAction.handle, Client.emit, hl, Entitlement._clone, Subscription._clone, Base._clone, Heap.alloc,
        CachedManager._add_present _ _ EntitlementData.id _ _ d hk hr']
      exact Heap.getElem?_mutate_self _ _ hr'
  · simpa [EntitlementUpdateAction.handle, Client.emit] using
      (CachedManager._add_get (Entitlement.new K) (Entitlement._patch K) EntitlementData.id _
        client.entitlements d).1
  · simp [SubscriptionUpdateAction.handle, Client.emit]
  · intro hk
    have hl := Heap.lookup_eq_none_of_get client.subscriptionObjs client.subscriptions hk
    simp [SubscriptionUpdateAction.handle, Client.emit, hl,
      CachedManager._add_absent _ _ SubscriptionData.id _ _ d' hl]
  · intro r e hk hr
    have hl := Heap.lookup_eq_some_of_get client.subscriptionObjs client.subscriptions hk hr
    have hlt := Heap.lt_length_of_getElem? _ hr
    have hr' : (client.subscriptionObjs ++ [e])[r]? = some e := by
      rw [List.getElem?_append_left hlt]; exact hr
    refine ⟨client.subscriptionObjs.length, ?_, ?_, ?_, ?_, ?_, ?_⟩
    · simp [SubscriptionUpdateAction.handle, hl, Entitlement._clone, Subscription._clone, Base._clone, Heap.alloc]
    · exact fun e => Nat.lt_irrefl r (e ▸ hlt)
    · simp
    · simp only [SubscriptionUpdateAction.handle, Client.emit, hl, Entitlement._clone, Subscription._clone, Base._clone, Heap.alloc,
        CachedManager._add_present _ _ SubscriptionData.id _ _ d' hk hr']
      rw [Heap.getElem?_mutate_ne _ _ (Nat.ne_of_lt hlt)]
      simp
    · simp [SubscriptionUpdateAction.handle, hl, Entitlement._clone, Subscription._clone, Base._clone, Heap.alloc,
        CachedManager._add_present _ _ SubscriptionData.id _ _ d' hk hr']
    · simp only [SubscriptionUpdateAction.handle, Client.emit, hl, Entitlement._clone, Subscription._clone, Base._clone, Heap.alloc,
        CachedManager._add_present _ _ SubscriptionData.id _ _ d' hk hr']
      exact Heap.getElem?_mutate_self _ _ hr'
  · simpa [SubscriptionUpdateAction.handle, Client.emit] using
      (CachedManager._add_get (Subscription.new K) (Subscription._patch K) SubscriptionData.id _
        client.subscriptions d').1

/-- Witness of C1 on the sample client: the cached entitlement 10 is updated,
the old value is the new object 1 holding the former field values. -/
theorem update_handlers_old_is_snapshot_witness :
    ∃ old, (EntitlementUpdateAction.handle sampleConstants sampleClient sampleEntitlementData).2.1
        = some old
      ∧ old ≠ 0 ∧ sampleClient.entitlementObjs[old]? = none
      ∧ (EntitlementUpdateAction.handle sampleConstants sampleClient
          sampleEntitlementData).1.entitlementObjs[old]? = some sampleEntitlement
      ∧ (EntitlementUpdateAction.handle sampleConstants sampleClient sampleEntitlementData).2.2 = 0
      ∧ (EntitlementUpdateAction.handle sampleConstants sampleClient
          sampleEntitlementData).1.entitlementObjs[0]?
          = some (Entitlement._patch sampleConstants sampleEntitlement sampleEntitlementData) :=
  (update_handlers_old_is_snapshot sampleConstants sampleClient sampleEntitlementData
    sampleSubscriptionData).1.2.2.1 0 sampleEntitlement (by decide) (by decide)

/-! ## Delete handlers -/

/-- Claim C2. EntitlementDelete, SubscriptionDelete and ThreadDelete on a payload
whose id is not in the corresponding store: the handler returns normally, with
no entity in its result, and the client state (every store, every heap, every
tombstone registry and the list of emitted events) is unchanged. -/
theorem delete_handlers_noop_on_unknown_id (client : Client) (d : EntitlementData)
    (d' : SubscriptionData) (t : ThreadDeleteData) (now : Nat) :
    (client.entitlements.get d.id = none →
        EntitlementDeleteAction.handle client d = (client, none))
    ∧ (client.subscriptions.get d'.id = none →
        SubscriptionDeleteAction.handle client d' = (client, none))
    ∧ (client.channels.get t.id = none →
        ThreadDeleteAction.handle client now t = (client, Except.ok none)) := by
  refine ⟨?_, ?_, ?_⟩
  · intro hk
    simp [EntitlementDeleteAction.handle, Heap.lookup_eq_none_of_get _ _ hk]
  · intro hk
    simp [SubscriptionDeleteAction.handle, Heap.lookup_eq_none_of_get _ _ hk]
  · intro hk
    simp [ThreadDeleteAction.handle, Heap.lookup_eq_none_of_get _ _ hk]

/-- Witness of C2 on the sample client, which caches neither an entitlement 99,
nor a subscription 99, nor a channel 99. -/
theorem delete_handlers_noop_on_unknown_id_witness :
    EntitlementDeleteAction.handle sampleClient { sampleEntitlementData with id := "99" }
        = (sampleClient, none)
    ∧ SubscriptionDeleteAction.handle sampleClient { sampleSubscriptionData with id := "99" }
        = (sampleClient, none)
    ∧ ThreadDeleteAction.handle sampleClient 1700000000000 { id := "99" }
        = (sampleClient, Except.ok none) :=
  ⟨(delete_handlers_noop_on_unknown_id sampleClient { sampleEntitlementData with id := "99" }
      { sampleSubscriptionData with id := "99" } { id := "99" } 1700000000000).1 (by decide),
   (delete_handlers_noop_on_unknown_id sampleClient { sampleEntitlementData with id := "99" }
      { sampleSubscriptionData with id := "99" } { id := "99" } 1700000000000).2.1 (by decide),
   (delete_handlers_noop_on_unknown_id sampleClient { sampleEntitlementData with id := "99" }
      { sampleSubscriptionData with id := "99" } { id := "99" } 1700000000000).2.2 (by decide)⟩

/-- Claim C3. EntitlementDelete on a payload whose id is that of a cached
entitlement: afterwards the store has no entry for the id, every other entry of
the store and every other entitlement object is unchanged, exactly one
entitlementDelete event is emitted, carrying the cached instance, which is also
returned, and that instance has `deleted` true (its other fields unchanged). -/
theorem entitlementDelete_removes_and_marks (client : Client) (d : EntitlementData) (r : Ref)
    (e : Entitlement) (hk : client.entitlements.get d.id = some r)
    (hr : client.entitlementObjs[r]? = some e) :
    (EntitlementDeleteAction.handle client d).1.entitlements.get d.id = none
    ∧ (∀ k, k ≠ d.id →
        (EntitlementDeleteAction.handle client d).1.entitlements.get k
          = client.entitlements.get k)
    ∧ (∀ r', r' ≠ r →
        (EntitlementDeleteAction.handle client d).1.entitlementObjs[r']?
          = client.entitlementObjs[r']?)
    ∧ (EntitlementDeleteAction.handle client d).1.emitted
        = client.emitted ++ [Event.entitlementDelete r]
    ∧ (EntitlementDeleteAction.handle client d).2 = some r
    ∧ (EntitlementDeleteAction.handle client d).1.entitlementObjs[r]?
        = some { e with deleted := true }
    ∧ (∃ e', (EntitlementDeleteAction.handle client d).1.entitlementObjs[r]? = some e'
        ∧ e'.deleted = true) := by
  have hl := Heap.lookup_eq_some_of_get client.entitlementObjs client.entitlements hk hr
  have hm := Heap.getElem?_mutate_self client.entitlementObjs
    (fun e : Entitlement => { e with deleted := true }) hr
  refine ⟨?_, ?_, ?_, ?_, ?_, ?_, ?_⟩
  · simp [EntitlementDeleteAction.handle, hl, Client.emit, JSMap.get_delete_self]
  · intro k hne
    simp [EntitlementDeleteAction.handle, hl, Client.emit, JSMap.get_delete_ne _ hne]
  · intro r' hne
    simp only [EntitlementDeleteAction.handle, hl, Client.emit]
    exact Heap.getElem?_mutate_ne _ _ (fun h => hne h.symm)
  · simp [EntitlementDeleteAction.handle, hl, Client.emit]
  · simp [EntitlementDeleteAction.handle, hl]
  · simp only [EntitlementDeleteAction.handle, hl, Client.emit]
    exact hm
  · refine ⟨{ e with deleted := true }, ?_, rfl⟩
    simp only [EntitlementDeleteAction.handle, hl, Client.emit]
    exact hm

/-- Witness of C3 on the sample client: deleting the cached entitlement 10. -/
theorem entitlementDelete_removes_and_marks_witness :
    (EntitlementDeleteAction.handle sampleClient sampleEntitlementData).1.entitlements.get "10"
      = none
    ∧ (EntitlementDeleteAction.handle sampleClient sampleEntitlementData).1.emitted
        = [Event.entitlementDelete 0]
    ∧ (EntitlementDeleteAction.handle sampleClient sampleEntitlementData).1.entitlementObjs[0]?
        = some { sampleEntitlement with deleted := true } :=
  have h := entitlementDelete_removes_and_marks sampleClient sampleEntitlementData 0
    sampleEntitlement (by decide) (by decide)
  ⟨h.1, h.2.2.2.1, h.2.2.2.2.2.1⟩

/-- Counterexample to C4 as stated: the sample client caches the subscription 20;
the handler removes it from the store, emits and returns it, and the instance
has no `deleted` flag set. -/
theorem subscriptionDelete_leaves_deleted_unset :
    sampleClient.subscriptions.get sampleSubscriptionData.id = some 0
    ∧ (SubscriptionDeleteAction.handle sampleClient sampleSubscriptionData).2 = some 0
    ∧ (SubscriptionDeleteAction.handle sampleClient sampleSubscriptionData).1.emitted
        = [Event.subscriptionDelete 0]
    ∧ ((SubscriptionDeleteAction.handle sampleClient sampleSubscriptionData).1.subscriptionObjs[0]?).map
        Subscription.deleted = some none
    ∧ ¬ ∃ s, (SubscriptionDeleteAction.handle sampleClient sampleSubscriptionData).1.subscriptionObjs[0]?
          = some s ∧ s.deleted = some true := by
  decide

/-- Claim C4, amended. SubscriptionDelete on a payload whose id is that of a
cached subscription: afterwards the store has no entry for the id, exactly one
subscriptionDelete event is emitted, the instance emitted and returned is the
cached one, and the handler changes no field of any subscription object, so the
instance keeps whatever `deleted` it had: no flag is set. -/
theorem subscriptionDelete_removes_without_marking (client : Client) (d : SubscriptionData)
    (r : Ref) (s : Subscription) (hk : client.subscriptions.get d.id = some r)
    (hr : client.subscriptionObjs[r]? = some s) :
    (SubscriptionDeleteAction.handle client d).1.subscriptions.get d.id = none
    ∧ (SubscriptionDeleteAction.handle client d).1.emitted
        = client.emitted ++ [Event.subscriptionDelete r]
    ∧ (SubscriptionDeleteAction.handle client d).2 = some r
    ∧ (SubscriptionDeleteAction.handle client d).1.subscriptionObjs = client.subscriptionObjs
    ∧ (SubscriptionDeleteAction.handle client d).1.subscriptionObjs[r]? = some s := by
  have hl := Heap.lookup_eq_some_of_get client.subscriptionObjs client.subscriptions hk hr
  refine ⟨?_, ?_, ?_, ?_, ?_⟩
  · simp [SubscriptionDeleteAction.handle, hl, Client.emit, JSMap.get_delete_self]
  · simp [SubscriptionDeleteAction.handle, hl, Client.emit]
  · simp [SubscriptionDeleteAction.handle, hl]
  · simp [SubscriptionDeleteAction.handle, hl, Client.emit]
  · simpa [SubscriptionDeleteAction.handle, hl, Client.emit] using hr

/-- Witness of the amended C4 on the sample client: deleting the cached
subscription 20. -/
theorem subscriptionDelete_removes_without_marking_witness :
    (SubscriptionDeleteAction.handle sampleClient sampleSubscriptionData).1.subscriptions.get "20"
      = none
    ∧ (SubscriptionDeleteAction.handle sampleClient sampleSubscriptionData).1.subscriptionObjs[0]?
        = some sampleSubscription :=
  have h := subscriptionDelete_removes_without_marking sampleClient sampleSubscriptionData 0
    sampleSubscription (by decide) (by decide)
  ⟨h.1, h.2.2.2.2⟩

/-! ## Full-replace patch of a subscription -/

/-- Claim C5. `Subscription._patch` with a payload that lacks `renewal_sku_ids`,
`canceled_at` or `country` sets the corresponding field (`renewalSkuIds`,
`canceledAt`, `country`) to null, whatever the subscription held before. -/
theorem subscription_patch_resets_absent_optionals (K : Constants) (s : Subscription)
    (d : SubscriptionData) :
    (d.renewal_sku_ids = none → (Subscription._patch K s d).renewalSkuIds = none)
    ∧ (d.canceled_at = none → (Subscription._patch K s d).canceledAt = none)
    ∧ (d.country = none → (Subscription._patch K s d).country = none) := by
  refine ⟨?_, ?_, ?_⟩
  · intro h
    simp [Subscription._patch, h]
  · intro h
    simp [Subscription._patch, h, truthy]
  · intro h
    simp [Subscription._patch, h]

/-- Witness of C5: the sample subscription has renewal SKUs, a cancellation time
and a country; the sample payload has none of the three. -/
theorem subscription_patch_resets_absent_optionals_witness :
    sampleSubscription.renewalSkuIds = some ["8"]
    ∧ sampleSubscription.canceledAt = some ⟨some "2023-12-15T00:00:00Z"⟩
    ∧ sampleSubscription.country = some "DE"
    ∧ (Subscription._patch sampleConstants sampleSubscription sampleSubscriptionData).renewalSkuIds
        = none
    ∧ (Subscription._patch sampleConstants sampleSubscription sampleSubscriptionData).canceledAt
        = none
    ∧ (Subscription._patch sampleConstants sampleSubscription sampleSubscriptionData).country
        = none :=
  ⟨rfl, rfl, rfl,
    (subscription_patch_resets_absent_optionals sampleConstants sampleSubscription
      sampleSubscriptionData).1 rfl,
    (subscription_patch_resets_absent_optionals sampleConstants sampleSubscription
      sampleSubscriptionData).2.1 rfl,
    (subscription_patch_resets_absent_optionals sampleConstants sampleSubscription
      sampleSubscriptionData).2.2 rfl⟩

/-! ## Poll votes -/

theorem Heap.length_mutate {α : Type} (h : Heap α) (r : Ref) (f : α → α) :
    (h.mutate r f).length = h.length := by
  unfold Heap.mutate
  cases h[r]? with
  | none => rfl
  | some x => simp

/-- Claim C6. MessagePollVoteAdd when the channel resolves and is text-based, the
message is cached, and its poll has an answer under `data.answer_id`: that
answer's vote count grows by exactly 1 and its other fields are unchanged, every
other answer object is unchanged, no answer object is created, the channels and
the messages (and with them the poll's map from answer ids to answer objects)
are unchanged, exactly one messagePollVoteAdd event is emitted with the answer
and `data.user_id`, and the handler returns the poll. -/
theorem messagePollVoteAdd_increments (client : Client) (d : MessagePollVoteData)
    (cr : Ref) (ch : Channel) (mr : Ref) (msg : Message) (poll : Poll) (ar : Ref)
    (a : PollAnswer)
    (hch : Action.getChannel client d.channel_id = some (cr, ch))
    (htb : ch.isTextBased = true)
    (hmsg : Action.getMessage client ch d.message_id = some (mr, msg))
    (hpoll : msg.poll = some poll)
    (hans : poll.answers.get d.answer_id = some ar)
    (hobj : client.answerObjs[ar]? = some a) :
    (MessagePollVoteAddAction.handle client d).1.answerObjs[ar]?
        = some { a with voteCount := a.voteCount + 1 }
    ∧ (∀ r', r' ≠ ar →
        (MessagePollVoteAddAction.handle client d).1.answerObjs[r']? = client.answerObjs[r']?)
    ∧ (MessagePollVoteAddAction.handle client d).1.answerObjs.length = client.answerObjs.length
    ∧ (MessagePollVoteAddAction.handle client d).1.messageObjs = client.messageObjs
    ∧ (MessagePollVoteAddAction.handle client d).1.channelObjs = client.channelObjs
    ∧ (MessagePollVoteAddAction.handle client d).1.channels = client.channels
    ∧ (MessagePollVoteAddAction.handle client d).1.emitted
        = client.emitted ++ [Event.messagePollVoteAdd ar d.user_id]
    ∧ (MessagePollVoteAddAction.handle client d).2 = some poll := by
  have hl := Heap.lookup_eq_some_of_get client.answerObjs poll.answers hans hobj
  have hm := Heap.getElem?_mutate_self client.answerObjs PollAnswer.incr hobj
  refine ⟨?_, ?_, ?_, ?_, ?_, ?_, ?_, ?_⟩
  · simp only [MessagePollVoteAddAction.handle, hch, htb, hmsg, hpoll, hl, Client.emit]
    exact hm
  · intro r' hne
    simp only [MessagePollVoteAddAction.handle, hch, htb, hmsg, hpoll, hl, Client.emit]
    exact Heap.getElem?_mutate_ne _ _ (fun h => hne h.symm)
  · simp only [MessagePollVoteAddAction.handle, hch, htb, hmsg, hpoll, hl, Client.emit]
    exact Heap.length_mutate _ _ _
  · simp [MessagePollVoteAddAction.handle, hch, htb, hmsg, hpoll, hl, Client.emit]
  · simp [MessagePollVoteAddAction.handle, hch, htb, hmsg, hpoll, hl, Client.emit]
  · simp [MessagePollVoteAddAction.handle, hch, htb, hmsg, hpoll, hl, Client.emit]
  · simp [MessagePollVoteAddAction.handle, hch, htb, hmsg, hpoll, hl, Client.emit]
  · simp [MessagePollVoteAddAction.handle, hch, htb, hmsg, hpoll, hl]

/-- Witness of C6 on the sample poll client: a vote for the answer 7, which has
3 votes, gives it 4 votes and leaves the answer 8 as it is. -/
theorem messagePollVoteAdd_increments_witness :
    (MessagePollVoteAddAction.handle samplePollClient sampleVote).1.answerObjs[0]?
        = some { id := 7, text := some "yes", _emoji := none, voteCount := 4 }
    ∧ (MessagePollVoteAddAction.handle samplePollClient sampleVote).1.answerObjs[1]?
        = samplePollClient.answerObjs[1]?
    ∧ (MessagePollVoteAddAction.handle samplePollClient sampleVote).1.emitted
        = [Event.messagePollVoteAdd 0 "5"] :=
  have h := messagePollVoteAdd_increments samplePollClient sampleVote 0
    { id := "30", isTextBased := true, messages := some [("40", 0)], guild := none,
      deleted := false }
    0 { id := "40", poll := some { answers := [(7, 0), (8, 1)] } } { answers := [(7, 0), (8, 1)] }
    0 { id := 7, text := some "yes", _emoji := none, voteCount := 3 }
    (by decide) (by decide) (by decide) (by decide) (by decide) (by decide)
  ⟨h.1, h.2.1 1 (by decide), h.2.2.2.2.2.2.1⟩

/-- Claim C7. MessagePollVoteAdd returns false and leaves the client state (vote
counts and emitted events included) unchanged when the channel is not resolved,
when it is not text-based, when the message is not resolved, when the message
has no poll, and when the poll has no answer under `data.answer_id`. -/
theorem messagePollVoteAdd_noop_when_unresolved (client : Client) (d : MessagePollVoteData) :
    (Action.getChannel client d.channel_id = none →
        MessagePollVoteAddAction.handle client d = (client, none))
    ∧ (∀ cr ch, Action.getChannel client d.channel_id = some (cr, ch) →
        ch.isTextBased = false →
        MessagePollVoteAddAction.handle client d = (client, none))
    ∧ (∀ cr ch, Action.getChannel client d.channel_id = some (cr, ch) →
        Action.getMessage client ch d.message_id = none →
        MessagePollVoteAddAction.handle client d = (client, none))
    ∧ (∀ cr ch mr msg, Action.getChannel client d.channel_id = some (cr, ch) →
        Action.getMessage client ch d.message_id = some (mr, msg) →
        msg.poll = none →
        MessagePollVoteAddAction.handle client d = (client, none))
    ∧ (∀ cr ch mr msg poll, Action.getChannel client d.channel_id = some (cr, ch) →
        Action.getMessage client ch d.message_id = some (mr, msg) →
        msg.poll = some poll →
        poll.answers.get d.answer_id = none →
        MessagePollVoteAddAction.handle client d = (client, none)) := by
  refine ⟨?_, ?_, ?_, ?_, ?_⟩
  · intro h
    simp [MessagePollVoteAddAction.handle, h]
  · intro cr ch h htb
    simp [MessagePollVoteAddAction.handle, h, htb]
  · intro cr ch h hm
    simp [MessagePollVoteAddAction.handle, h, hm]
  · intro cr ch mr msg h hm hp
    simp [MessagePollVoteAddAction.handle, h, hm, hp]
  · intro cr ch mr msg poll h hm hp ha
    simp [MessagePollVoteAddAction.handle, h, hm, hp, Heap.lookup_eq_none_of_get _ _ ha]

/-- Witness of C7 on the sample poll client: a vote in the uncached channel 99,
in the voice channel 31, on the uncached message 99, on the message 41 without a
poll, and for the missing answer 9. -/
theorem messagePollVoteAdd_noop_when_unresolved_witness :
    MessagePollVoteAddAction.handle samplePollClient { sampleVote with channel_id := "99" }
        = (samplePollClient, none)
    ∧ MessagePollVoteAddAction.handle samplePollClient { sampleVote with channel_id := "31" }
        = (samplePollClient, none)
    ∧ MessagePollVoteAddAction.handle samplePollClient { sampleVote with message_id := "99" }
        = (samplePollClient, none)
    ∧ MessagePollVoteAddAction.handle samplePollClient
          { sampleVote with channel_id := "32", message_id := "41" }
        = (samplePollClient, none)
    ∧ MessagePollVoteAddAction.handle samplePollClient { sampleVote with answer_id := 9 }
        = (samplePollClient, none) :=
  ⟨(messagePollVoteAdd_noop_when_unresolved samplePollClient
      { sampleVote with channel_id := "99" }).1 (by decide),
   (messagePollVoteAdd_noop_when_unresolved samplePollClient
      { sampleVote with channel_id := "31" }).2.1 1
      { id := "31", isTextBased := false, messages := none, guild := none, deleted := false }
      (by decide) (by decide),
   (messagePollVoteAdd_noop_when_unresolved samplePollClient
      { sampleVote with message_id := "99" }).2.2.1 0
      { id := "30", isTextBased := true, messages := some [("40", 0)], guild := none,
        deleted := false }
      (by decide) (by decide),
   (messagePollVoteAdd_noop_when_unresolved samplePollClient
      { sampleVote with channel_id := "32", message_id := "41" }).2.2.2.1 2
      { id := "32", isTextBased := true, messages := some [("41", 1)], guild := none,
        deleted := false }
      1 { id := "41", poll := none } (by decide) (by decide) (by decide),
   (messagePollVoteAdd_noop_when_unresolved samplePollClient
      { sampleVote with answer_id := 9 }).2.2.2.2 0
      { id := "30", isTextBased := true, messages := some [("40", 0)], guild := none,
        deleted := false }
      0 { id := "40", poll := some { answers := [(7, 0), (8, 1)] } }
      { answers := [(7, 0), (8, 1)] } (by decide) (by decide) (by decide) (by decide)⟩

/-! ## Guild packets -/

/-- Claim C8. GUILD_CREATE for a guild that is cached with `available` false and
a payload whose `unavailable` is absent or false: the cached instance is patched
with the payload, the guild store is unchanged and no guild object is created,
every other guild object is unchanged, and exactly one event is emitted, the
guildAvailable event carrying the cached instance; this holds for every status
of the websocket manager and of the shard, so no guildCreate event is emitted. -/
theorem guildCreate_available_transition (K : Constants) (G : ClassOps Guild GuildData)
    (client : Client) (d : GuildData) (shard : Shard) (g : Ref) (guild : Guild)
    (hk : client.guilds.get d.id = some g) (hr : client.guildObjs[g]? = some guild)
    (hav : guild.available = false)
    (hun : d.unavailable = none ∨ d.unavailable = some false) :
    (GUILD_CREATE K G client d shard).guildObjs[g]? = some (G._patch guild d)
    ∧ (GUILD_CREATE K G client d shard).guilds = client.guilds
    ∧ (GUILD_CREATE K G client d shard).guildObjs.length = client.guildObjs.length
    ∧ (∀ g', g' ≠ g → (GUILD_CREATE K G client d shard).guildObjs[g']? = client.guildObjs[g']?)
    ∧ (GUILD_CREATE K G client d shard).emitted = client.emitted ++ [Event.guildAvailable g] := by
  have hl := Heap.lookup_eq_some_of_get client.guildObjs client.guilds hk hr
  have hu : d.unavailable.getD false = false := by
    rcases hun with h | h <;> simp [h]
  have hm := Heap.getElem?_mutate_self client.guildObjs (fun o => G._patch o d) hr
  refine ⟨?_, ?_, ?_, ?_, ?_⟩
  · simp only [GUILD_CREATE, hl, hav, hu, Client.emit, Bool.not_false, Bool.and_self, if_true]
    exact hm
  · simp [GUILD_CREATE, hl, hav, hu, Client.emit]
  · simp only [GUILD_CREATE, hl, hav, hu, Client.emit, Bool.not_false, Bool.and_self, if_true]
    exact Heap.length_mutate _ _ _
  · intro g' hne
    simp only [GUILD_CREATE, hl, hav, hu, Client.emit, Bool.not_false, Bool.and_self, if_true]
    exact Heap.getElem?_mutate_ne _ _ (fun h => hne h.symm)
  · simp [GUILD_CREATE, hl, hav, hu, Client.emit]

/-- Witness of C8 on the sample guild client, whose websocket manager is ready:
the unavailable guild 50 becomes available. -/
theorem guildCreate_available_transition_witness :
    (GUILD_CREATE sampleConstants sampleGuildClass sampleGuildClient sampleGuildData
        { id := 3, status := 0 }).guildObjs[0]?
      = some { sampleGuild with available := true, props := [("name", "fire")] }
    ∧ (GUILD_CREATE sampleConstants sampleGuildClass sampleGuildClient sampleGuildData
        { id := 3, status := 0 }).emitted = [Event.guildAvailable 0] :=
  have h := guildCreate_available_transition sampleConstants sampleGuildClass sampleGuildClient
    sampleGuildData { id := 3, status := 0 } 0 sampleGuild (by decide) (by decide) (by decide)
    (Or.inl rfl)
  ⟨h.1, h.2.2.2.2⟩

/-- Claim C9. GUILD_CREATE for a payload whose id is not in the guild store, with
a `Guild` constructor that stores the payload's `shardId`: the store then holds,
under the payload's id, a new guild object, constructed from the payload extended
with the shard's id, whose `shardId` is the shard's id; the events emitted are
the single guildCreate event carrying that guild when the websocket manager's
status is READY and none otherwise, so never a guildAvailable event. -/
theorem guildCreate_new_guild (K : Constants) (G : ClassOps Guild GuildData)
    (client : Client) (d : GuildData) (shard : Shard)
    (hk : client.guilds.get d.id = none)
    (hctor : ∀ x : GuildData, (G.construct x).shardId = x.shardId) :
    (GUILD_CREATE K G client d shard).guilds.get d.id = some client.guildObjs.length
    ∧ client.guildObjs[client.guildObjs.length]? = none
    ∧ (GUILD_CREATE K G client d shard).guildObjs[client.guildObjs.length]?
        = some (G.construct { d with shardId := some shard.id })
    ∧ (G.construct { d with shardId := some shard.id }).shardId = some shard.id
    ∧ (GUILD_CREATE K G client d shard).emitted
        = client.emitted ++
          (if client.wsStatus = K.READY then [Event.guildCreate client.guildObjs.length] else [])
    ∧ (Event.guildCreate client.guildObjs.length ∈ (GUILD_CREATE K G client d shard).emitted
        ↔ client.wsStatus = K.READY
          ∨ Event.guildCreate client.guildObjs.length ∈ client.emitted) := by
  have hl : Heap.lookup client.guildObjs client.guilds d.id = none :=
    Heap.lookup_eq_none_of_get _ _ hk
  have hadd := CachedManager._add_absent G.construct G._patch GuildData.id client.guildObjs
    client.guilds { d with shardId := some shard.id } hl
  have hem : (GUILD_CREATE K G client d shard).emitted
      = client.emitted ++
        (if client.wsStatus = K.READY then [Event.guildCreate client.guildObjs.length]
          else []) := by
    by_cases hs : client.wsStatus = K.READY
    · simp [GUILD_CREATE, hl, hadd, hs, Client.emit]
    · simp [GUILD_CREATE, hl, hadd, hs, Client.emit]
  refine ⟨?_, ?_, ?_, hctor _, hem, ?_⟩
  · by_cases hs : client.wsStatus = K.READY
    · simp only [GUILD_CREATE, hl, hadd, hs, Client.emit, if_true]
      exact JSMap.get_set_self _ _ _
    · simp only [GUILD_CREATE, hl, hadd, hs, Client.emit, if_false]
      exact JSMap.get_set_self _ _ _
  · simp
  · by_cases hs : client.wsStatus = K.READY
    · simp [GUILD_CREATE, hl, hadd, hs, Client.emit]
    · simp [GUILD_CREATE, hl, hadd, hs, Client.emit]
  · rw [hem]
    by_cases hs : client.wsStatus = K.READY
    · simp [hs]
    · simp [hs]

/-- Witness of C9 on the sample guild client, whose websocket manager is ready:
the guild 51 arrives on the shard 3. -/
theorem guildCreate_new_guild_witness :
    (GUILD_CREATE sampleConstants sampleGuildClass sampleGuildClient
        { sampleGuildData with id := "51" } { id := 3, status := 0 }).guilds.get "51" = some 1
    ∧ (GUILD_CREATE sampleConstants sampleGuildClass sampleGuildClient
        { sampleGuildData with id := "51" } { id := 3, status := 0 }).guildObjs[1]?
      = some (sampleGuildClass.construct
          { id := "51", unavailable := none, shardId := some 3, props := [("name", "fire")] })
    ∧ (GUILD_CREATE sampleConstants sampleGuildClass sampleGuildClient
        { sampleGuildData with id := "51" } { id := 3, status := 0 }).emitted
      = [Event.guildCreate 1] :=
  have h := guildCreate_new_guild sampleConstants sampleGuildClass sampleGuildClient
    { sampleGuildData with id := "51" } { id := 3, status := 0 } (by decide) (fun _ => rfl)
  ⟨h.1, h.2.2.1, h.2.2.2.2.1⟩

theorem JSMap.has_delete_self {κ ν : Type} [DecidableEq κ] (m : JSMap κ ν) (k : κ) :
    (m.delete k).has k = false := by
  simp [JSMap.has, JSMap.get_delete_self]

/-- Claim C10. GUILD_MEMBER_ADD for a payload whose identifier is in the registry
of deleted guild members and whose guild is cached: afterwards the identifier is
not in the registry; the registry is cleared first, the outcome being that of
handling the payload with the registry already cleared; and the guild's member
store holds, under the identifier, a member object, which is the one constructed
from the payload when the store had none and the patched cached one otherwise. -/
theorem guildMemberAdd_clears_tombstone (K : Constants)
    (M : ClassOps GuildMember GuildMemberData) (client : Client) (d : GuildMemberData)
    (shard : Shard) (g : Ref) (guild : Guild)
    (hdel : client.deletedGuildMembers.has d.id = true)
    (hk : client.guilds.get d.guild_id = some g) (hr : client.guildObjs[g]? = some guild) :
    (GUILD_MEMBER_ADD K M client d shard).deletedGuildMembers.has d.id = false
    ∧ GUILD_MEMBER_ADD K M client d shard
        = GUILD_MEMBER_ADD K M
            { client with deletedGuildMembers := client.deletedGuildMembers.delete d.id } d shard
    ∧ (∃ guild' m member,
        (GUILD_MEMBER_ADD K M client d shard).guildObjs[g]? = some guild'
        ∧ guild'.members.get d.id = some m
        ∧ (GUILD_MEMBER_ADD K M client d shard).memberObjs[m]? = some member
        ∧ (Heap.lookup client.memberObjs guild.members d.id = none → member = M.construct d)
        ∧ (∀ m₀ x, Heap.lookup client.memberObjs guild.members d.id = some (m₀, x) →
            m = m₀ ∧ member = M._patch x d)) := by
  have hl := Heap.lookup_eq_some_of_get client.guildObjs client.guilds hk hr
  have hget := CachedManager._add_get M.construct M._patch GuildMemberData.id client.memberObjs
    guild.members d
  refine ⟨?_, ?_, ?_⟩
  · by_cases hs : shard.status = K.READY
    · simp [GUILD_MEMBER_ADD, hdel, hl, hs, Client.emit, JSMap.has_delete_self]
    · simp [GUILD_MEMBER_ADD, hdel, hl, hs, JSMap.has_delete_self]
  · simp [GUILD_MEMBER_ADD, hdel, JSMap.has_delete_self]
  · obtain ⟨hg, x, hx⟩ := hget
    refine ⟨{ guild with
        memberCount := guild.memberCount + 1
        members := (CachedManager._add M.construct M._patch GuildMemberData.id
          client.memberObjs guild.members d).2.1 },
      (CachedManager._add M.construct M._patch GuildMemberData.id
          client.memberObjs guild.members d).2.2, x, ?_, hg, ?_, ?_, ?_⟩
    · have hm := Heap.getElem?_mutate_self client.guildObjs
        (fun o : Guild => { o with
          memberCount := o.memberCount + 1
          members := (CachedManager._add M.construct M._patch GuildMemberData.id
            client.memberObjs guild.members d).2.1 }) hr
      by_cases hs : shard.status = K.READY
      · simp only [GUILD_MEMBER_ADD, hdel, hl, hs, Client.emit, if_true]
        exact hm
      · simp only [GUILD_MEMBER_ADD, hdel, hl, hs, if_true, if_false]
        exact hm
    · by_cases hs : shard.status = K.READY
      · simp only [GUILD_MEMBER_ADD, hdel, hl, hs, Client.emit, if_true]
        exact hx
      · simp only [GUILD_MEMBER_ADD, hdel, hl, hs, if_true, if_false]
        exact hx
    · intro hnone
      rw [CachedManager._add_absent _ _ _ _ _ _ hnone] at hx
      simpa using hx.symm
    · intro m₀ x₀ hsome
      have hk₀ : guild.members.get d.id = some m₀ ∧ client.memberObjs[m₀]? = some x₀ := by
        unfold Heap.lookup at hsome
        cases hg₀ : guild.members.get d.id with
        | none => simp [hg₀] at hsome
        | some r' =>
          cases hx₀ : client.memberObjs[r']? with
          | none => simp [hg₀, hx₀] at hsome
          | some x' =>
            simp only [hg₀, hx₀, Option.some.injEq, Prod.mk.injEq] at hsome
            obtain ⟨h1, h2⟩ := hsome
            subst h1
            subst h2
            exact ⟨rfl, hx₀⟩
      have hadd := CachedManager._add_present M.construct M._patch GuildMemberData.id
        client.memberObjs guild.members d hk₀.1 hk₀.2
      rw [hadd] at hx
      refine ⟨by rw [hadd], ?_⟩
      have := Heap.getElem?_mutate_self client.memberObjs (fun o => M._patch o d) hk₀.2
      simp only at hx
      rw [this] at hx
      exact (Option.some.inj hx).symm

/-- Witness of C10 on the sample guild client: the deleted member 6 joins the
guild 50 again. -/
theorem guildMemberAdd_clears_tombstone_witness :
    sampleGuildClient.deletedGuildMembers.has "6" = true
    ∧ (GUILD_MEMBER_ADD sampleConstants sampleMemberClass sampleGuildClient sampleMemberData
        { id := 3, status := 0 }).deletedGuildMembers.has "6" = false
    ∧ ∃ guild' m member,
        (GUILD_MEMBER_ADD sampleConstants sampleMemberClass sampleGuildClient sampleMemberData
          { id := 3, status := 0 }).guildObjs[0]? = some guild'
        ∧ guild'.members.get "6" = some m
        ∧ (GUILD_MEMBER_ADD sampleConstants sampleMemberClass sampleGuildClient sampleMemberData
          { id := 3, status := 0 }).memberObjs[m]? = some member :=
  have h := guildMemberAdd_clears_tombstone sampleConstants sampleMemberClass sampleGuildClient
    sampleMemberData { id := 3, status := 0 } 0 sampleGuild (by decide) (by decide) (by decide)
  ⟨by decide, h.1,
    h.2.2.elim fun guild' hg => hg.elim fun m hm => hm.elim fun member hmem =>
      ⟨guild', m, member, hmem.1, hmem.2.1, hmem.2.2.1⟩⟩

/-- Counterexample to C11 as stated: on the sample guild client the member 6 is
in the registry of deleted members and the guild 99 is not cached; the handler
emits nothing and leaves the guilds and the members as they are, and it removes
the member 6 from the registry. -/
theorem guildMemberAdd_unknown_guild_clears_tombstone :
    sampleGuildClient.guilds.get "99" = none
    ∧ sampleGuildClient.deletedGuildMembers = [("6", 1000)]
    ∧ (GUILD_MEMBER_ADD sampleConstants sampleMemberClass sampleGuildClient
        { sampleMemberData with guild_id := "99" } { id := 3, status := 0 }).deletedGuildMembers
      = []
    ∧ (GUILD_MEMBER_ADD sampleConstants sampleMemberClass sampleGuildClient
        { sampleMemberData with guild_id := "99" } { id := 3, status := 0 }).deletedGuildMembers
      ≠ sampleGuildClient.deletedGuildMembers := by
  decide

/-- Claim C11, amended. GUILD_MEMBER_ADD for a payload whose `guild_id` is not in
the guild store: the handler emits nothing and changes nothing but the registry
of deleted guild members, from which it removes the payload's identifier; when
the identifier is not in the registry the whole client state is unchanged. -/
theorem guildMemberAdd_unknown_guild (K : Constants)
    (M : ClassOps GuildMember GuildMemberData) (client : Client) (d : GuildMemberData)
    (shard : Shard) (hk : client.guilds.get d.guild_id = none) :
    GUILD_MEMBER_ADD K M client d shard
        = { client with deletedGuildMembers := client.deletedGuildMembers.delete d.id }
    ∧ (GUILD_MEMBER_ADD K M client d shard).emitted = client.emitted
    ∧ (GUILD_MEMBER_ADD K M client d shard).guilds = client.guilds
    ∧ (GUILD_MEMBER_ADD K M client d shard).guildObjs = client.guildObjs
    ∧ (GUILD_MEMBER_ADD K M client d shard).memberObjs = client.memberObjs
    ∧ (∀ k, k ≠ d.id →
        (GUILD_MEMBER_ADD K M client d shard).deletedGuildMembers.get k
          = client.deletedGuildMembers.get k)
    ∧ (client.deletedGuildMembers.has d.id = false →
        GUILD_MEMBER_ADD K M client d shard = client) := by
  have hmain : GUILD_MEMBER_ADD K M client d shard
      = { client with deletedGuildMembers := client.deletedGuildMembers.delete d.id } := by
    by_cases hdel : client.deletedGuildMembers.has d.id = true
    · simp [GUILD_MEMBER_ADD, hdel, Heap.lookup_eq_none_of_get _ _ hk]
    · have hnone : client.deletedGuildMembers.get d.id = none := by
        cases hg : client.deletedGuildMembers.get d.id with
        | none => rfl
        | some v => simp [JSMap.has, hg] at hdel
      simp [GUILD_MEMBER_ADD, hdel, Heap.lookup_eq_none_of_get _ _ hk,
        JSMap.delete_of_get_none _ hnone]
  refine ⟨hmain, ?_, ?_, ?_, ?_, ?_, ?_⟩
  · rw [hmain]
  · rw [hmain]
  · rw [hmain]
  · rw [hmain]
  · intro k hne
    rw [hmain]
    exact JSMap.get_delete_ne _ hne
  · intro hdel
    have hnone : client.deletedGuildMembers.get d.id = none := by
      cases hg : client.deletedGuildMembers.get d.id with
      | none => rfl
      | some v => simp [JSMap.has, hg] at hdel
    rw [hmain, JSMap.delete_of_get_none _ hnone]

/-- Witness of the amended C11 on the sample guild client: the member 6 joins the
uncached guild 99. -/
theorem guildMemberAdd_unknown_guild_witness :
    GUILD_MEMBER_ADD sampleConstants sampleMemberClass sampleGuildClient
        { sampleMemberData with guild_id := "99" } { id := 3, status := 0 }
      = { sampleGuildClient with
          deletedGuildMembers := sampleGuildClient.deletedGuildMembers.delete "6" } :=
  (guildMemberAdd_unknown_guild sampleConstants sampleMemberClass sampleGuildClient
    { sampleMemberData with guild_id := "99" } { id := 3, status := 0 } (by decide)).1

/-- Claim C12. GUILD_MEMBER_ADD for a payload whose guild is cached: the guild's
member store then holds, under the payload's identifier, a member object, which
is the one constructed from the payload when the store had none and the patched
cached one otherwise; the events emitted are the single guildMemberAdd event
carrying that member when the shard's status is READY, and none otherwise. -/
theorem guildMemberAdd_upserts_and_gates_event (K : Constants)
    (M : ClassOps GuildMember GuildMemberData) (client : Client) (d : GuildMemberData)
    (shard : Shard) (g : Ref) (guild : Guild)
    (hk : client.guilds.get d.guild_id = some g) (hr : client.guildObjs[g]? = some guild) :
    ∃ guild' m member,
      (GUILD_MEMBER_ADD K M client d shard).guildObjs[g]? = some guild'
      ∧ guild'.members.get d.id = some m
      ∧ (GUILD_MEMBER_ADD K M client d shard).memberObjs[m]? = some member
      ∧ (Heap.lookup client.memberObjs guild.members d.id = none → member = M.construct d)
      ∧ (∀ m₀ x, guild.members.get d.id = some m₀ → client.memberObjs[m₀]? = some x →
          m = m₀ ∧ member = M._patch x d)
      ∧ (GUILD_MEMBER_ADD K M client d shard).emitted
          = client.emitted ++ (if shard.status = K.READY then [Event.guildMemberAdd m] else [])
      ∧ (Event.guildMemberAdd m ∈ (GUILD_MEMBER_ADD K M client d shard).emitted
          ↔ shard.status = K.READY ∨ Event.guildMemberAdd m ∈ client.emitted) := by
  have hl0 := Heap.lookup_eq_some_of_get client.guildObjs client.guilds hk hr
  obtain ⟨hg, x, hx⟩ := CachedManager._add_get M.construct M._patch GuildMemberData.id
    client.memberObjs guild.members d
  have hm := Heap.getElem?_mutate_self client.guildObjs
    (fun o : Guild => { o with
      memberCount := o.memberCount + 1
      members := (CachedManager._add M.construct M._patch GuildMemberData.id
        client.memberObjs guild.members d).2.1 }) hr
  have hem : (GUILD_MEMBER_ADD K M client d shard).emitted
      = client.emitted ++ (if shard.status = K.READY then
          [Event.guildMemberAdd (CachedManager._add M.construct M._patch GuildMemberData.id
            client.memberObjs guild.members d).2.2] else []) := by
    by_cases hs : shard.status = K.READY <;>
      by_cases hdel : client.deletedGuildMembers.has d.id = true <;>
        simp [GUILD_MEMBER_ADD, hdel, hl0, hs, Client.emit]
  refine ⟨{ guild with
      memberCount := guild.memberCount + 1
      members := (CachedManager._add M.construct M._patch GuildMemberData.id
        client.memberObjs guild.members d).2.1 },
    (CachedManager._add M.construct M._patch GuildMemberData.id
        client.memberObjs guild.members d).2.2, x, ?_, hg, ?_, ?_, ?_, hem, ?_⟩
  · by_cases hs : shard.status = K.READY <;>
      by_cases hdel : client.deletedGuildMembers.has d.id = true <;>
        simpa [GUILD_MEMBER_ADD, hdel, hl0, hs, Client.emit] using hm
  · by_cases hs : shard.status = K.READY <;>
      by_cases hdel : client.deletedGuildMembers.has d.id = true <;>
        simpa [GUILD_MEMBER_ADD, hdel, hl0, hs, Client.emit] using hx
  · intro hnone
    rw [CachedManager._add_absent _ _ _ _ _ _ hnone] at hx
    simpa using hx.symm
  · intro m₀ x₀ hk₀ hx₀
    have hadd := CachedManager._add_present M.construct M._patch GuildMemberData.id
      client.memberObjs guild.members d hk₀ hx₀
    rw [hadd] at hx
    refine ⟨by rw [hadd], ?_⟩
    have := Heap.getElem?_mutate_self client.memberObjs (fun o => M._patch o d) hx₀
    simp only at hx
    rw [this] at hx
    exact (Option.some.inj hx).symm
  · rw [hem]
    by_cases hs : shard.status = K.READY
    · simp [hs]
    · simp [hs]

/-- Witness of C12 on the sample guild client: the member 6 joins the guild 50 on
a ready shard and on a shard that is not ready. -/
theorem guildMemberAdd_upserts_and_gates_event_witness :
    (∃ guild' m member,
      (GUILD_MEMBER_ADD sampleConstants sampleMemberClass sampleGuildClient sampleMemberData
        { id := 3, status := 0 }).guildObjs[0]? = some guild'
      ∧ guild'.members.get "6" = some m
      ∧ (GUILD_MEMBER_ADD sampleConstants sampleMemberClass sampleGuildClient sampleMemberData
        { id := 3, status := 0 }).memberObjs[m]? = some member
      ∧ (GUILD_MEMBER_ADD sampleConstants sampleMemberClass sampleGuildClient sampleMemberData
        { id := 3, status := 0 }).emitted = [Event.guildMemberAdd m])
    ∧ (GUILD_MEMBER_ADD sampleConstants sampleMemberClass sampleGuildClient sampleMemberData
        { id := 3, status := 5 }).emitted = [] :=
  ⟨(guildMemberAdd_upserts_and_gates_event sampleConstants sampleMemberClass sampleGuildClient
      sampleMemberData { id := 3, status := 0 } 0 sampleGuild (by decide) (by decide)).elim
      fun guild' hg => hg.elim fun m hm => hm.elim fun member h =>
        ⟨guild', m, member, h.1, h.2.1, h.2.2.1,
          by simpa [sampleGuildClient, Client.empty] using h.2.2.2.2.2.1⟩,
    by decide⟩

/-! ## Thread deletion and stage instance updates -/

/-- Setting every key of a list to one value: a listed key then maps to that
value, any other key keeps its entry. -/
theorem JSMap.get_foldl_set {κ ν ι : Type} [DecidableEq κ] (f : ι → κ) (v : ν) (l : List ι)
    (m : JSMap κ ν) (k : κ) :
    (l.foldl (fun reg x => reg.set (f x) v) m).get k
      = if k ∈ l.map f then some v else m.get k := by
  induction l generalizing m with
  | nil => simp
  | cons a t ih =>
    simp only [List.foldl_cons, List.map_cons, List.mem_cons]
    rw [ih]
    by_cases hmem : k ∈ t.map f
    · simp [hmem]
    · by_cases hka : k = f a
      · subst hka
        simp [hmem, JSMap.get_set_self]
      · simp [hmem, hka, JSMap.get_set_ne _ _ hka]

/-- Claim C13, the code at the failing input. On the sample poll client the
thread 30 caches the message 40 (the message object 0); after the handler at
time 5 the registry of deleted channels has its entry under the identifier 30 of
the thread, while the registry of deleted messages has no entry under the
identifier 40 of the message: its entry is under the message object. -/
theorem threadDelete_keys_messages_by_object :
    (Heap.lookup samplePollClient.channelObjs samplePollClient.channels "30").map
        (fun p => p.2.messages) = some (some [("40", 0)])
    ∧ (ThreadDeleteAction.handle samplePollClient 5 { id := "30" }).1.deletedMessages.get
        (MessageKey.id "40") = none
    ∧ (ThreadDeleteAction.handle samplePollClient 5 { id := "30" }).1.deletedMessages
        = [(MessageKey.object 0, 5)]
    ∧ (ThreadDeleteAction.handle samplePollClient 5 { id := "30" }).1.deletedChannels
        = [("30", 5)] := by
  decide

/-- The handler `ThreadDeleteAction.handle` as the code stands, for a cached
thread (a channel stored under its own id that has a message manager):
afterwards the channel store has no entry for the thread, exactly one
threadDelete event is emitted, carrying the thread, which is also returned, the
registry of deleted channels maps the thread's identifier to the handler's
timestamp, and the registry of deleted messages gets its entries, with that same
timestamp, under the message objects cached in the thread and under nothing
else. -/
theorem threadDelete_tombstones_thread_and_messages (client : Client) (now : Nat)
    (d : ThreadDeleteData) (t : Ref) (thread : Channel) (cache : Collection)
    (hk : client.channels.get d.id = some t) (hr : client.channelObjs[t]? = some thread)
    (hid : thread.id = d.id) (hmsgs : thread.messages = some cache) :
    (ThreadDeleteAction.handle client now d).1.channels.get d.id = none
    ∧ (ThreadDeleteAction.handle client now d).1.emitted
        = client.emitted ++ [Event.threadDelete t]
    ∧ (ThreadDeleteAction.handle client now d).2 = Except.ok (some t)
    ∧ (ThreadDeleteAction.handle client now d).1.deletedChannels.get thread.id = some now
    ∧ (∀ message, message ∈ cache.values →
        (ThreadDeleteAction.handle client now d).1.deletedMessages.get
          (MessageKey.object message) = some now)
    ∧ (∀ k, k ∉ cache.values.map MessageKey.object →
        (ThreadDeleteAction.handle client now d).1.deletedMessages.get k
          = client.deletedMessages.get k) := by
  have hl := Heap.lookup_eq_some_of_get client.channelObjs client.channels hk hr
  have hl' : Heap.lookup client.channelObjs client.channels thread.id = some (t, thread) := by
    rw [hid]; exact hl
  refine ⟨?_, ?_, ?_, ?_, ?_, ?_⟩
  · simp [ThreadDeleteAction.handle, hl, hmsgs, ChannelManager._remove, hl', Client.emit, hid,
      JSMap.get_delete_self]
  · simp [ThreadDeleteAction.handle, hl, hmsgs, ChannelManager._remove, hl', Client.emit]
  · simp [ThreadDeleteAction.handle, hl, hmsgs]
  · simp [ThreadDeleteAction.handle, hl, hmsgs, ChannelManager._remove, hl', Client.emit,
      JSMap.get_set_self]
  · intro message hmem
    simp only [ThreadDeleteAction.handle, hl, hmsgs, ChannelManager._remove, hl', Client.emit]
    rw [JSMap.get_foldl_set]
    simp [List.mem_map, hmem]
  · intro k hk'
    simp only [ThreadDeleteAction.handle, hl, hmsgs, ChannelManager._remove, hl', Client.emit]
    rw [JSMap.get_foldl_set]
    simp [hk']

/-- The handler `ThreadDeleteAction.handle` on the sample poll client: the thread
30 with its cached message is deleted at time 5. -/
theorem threadDelete_tombstones_thread_and_messages_witness :
    (ThreadDeleteAction.handle samplePollClient 5 { id := "30" }).1.channels.get "30" = none
    ∧ (ThreadDeleteAction.handle samplePollClient 5 { id := "30" }).1.emitted
        = [Event.threadDelete 0]
    ∧ (ThreadDeleteAction.handle samplePollClient 5 { id := "30" }).1.deletedChannels.get "30"
        = some 5
    ∧ (ThreadDeleteAction.handle samplePollClient 5 { id := "30" }).1.deletedMessages.get
        (MessageKey.object 0) = some 5 :=
  have h := threadDelete_tombstones_thread_and_messages samplePollClient 5 { id := "30" } 0
    { id := "30", isTextBased := true, messages := some [("40", 0)], guild := none,
      deleted := false }
    [("40", 0)] (by decide) (by decide) (by decide) (by decide)
  ⟨h.1, h.2.1, h.2.2.2.1, h.2.2.2.2.1 0 (by decide)⟩

/-- Claim C14. StageInstanceUpdate returns the empty result and leaves the client
state (stores and emitted events included) unchanged when the payload's channel
is not resolved and when the payload's id is in the registry of deleted stage
instances. Otherwise, for a channel whose guild is cached, it returns normally
and emits exactly one stageInstanceUpdate event with the returned old and new
values: the old value is null when the guild's store has no entry for the id,
and else a new object, distinct from the cached one, holding the field values
the cached instance had before the patch; the new value is the instance the
guild's store then holds under the id, constructed from the payload or
patched. -/
theorem stageInstanceUpdate_guards_and_snapshot (S : ClassOps StageInstance StageInstanceData)
    (client : Client) (d : StageInstanceData) :
    (Action.getChannel client d.channel_id = none →
        StageInstanceUpdateAction.handle S client d = (client, Except.ok none))
    ∧ (client.deletedStageInstances.has d.id = true →
        StageInstanceUpdateAction.handle S client d = (client, Except.ok none))
    ∧ (∀ cr ch g guild, Action.getChannel client d.channel_id = some (cr, ch) →
        client.deletedStageInstances.has d.id = false →
        ch.guild = some g → client.guildObjs[g]? = some guild →
        ∃ old new guild',
          (StageInstanceUpdateAction.handle S client d).2 = Except.ok (some (old, new))
          ∧ (StageInstanceUpdateAction.handle S client d).1.emitted
              = client.emitted ++ [Event.stageInstanceUpdate old new]
          ∧ (StageInstanceUpdateAction.handle S client d).1.guildObjs[g]? = some guild'
          ∧ guild'.stageInstances.get d.id = some new
          ∧ (guild.stageInstances.get d.id = none →
              old = none
              ∧ (StageInstanceUpdateAction.handle S client d).1.stageInstanceObjs[new]?
                  = some (S.construct d))
          ∧ (∀ r s, guild.stageInstances.get d.id = some r →
              client.stageInstanceObjs[r]? = some s →
              ∃ o, old = some o ∧ o ≠ r ∧ client.stageInstanceObjs[o]? = none
                ∧ (StageInstanceUpdateAction.handle S client d).1.stageInstanceObjs[o]? = some s
                ∧ new = r
                ∧ (StageInstanceUpdateAction.handle S client d).1.stageInstanceObjs[r]?
                    = some (S._patch s d))) := by
  refine ⟨?_, ?_, ?_⟩
  · intro h
    simp [StageInstanceUpdateAction.handle, h]
  · intro h
    cases hc : Action.getChannel client d.channel_id with
    | none => simp [StageInstanceUpdateAction.handle, hc]
    | some p => simp [StageInstanceUpdateAction.handle, hc, h]
  · intro cr ch g guild hc hdel hg hgo
    have hbind : (ch.guild.bind fun g => (client.guildObjs[g]?).map fun guild => (g, guild))
        = some (g, guild) := by simp [hg, hgo]
    cases hl : Heap.lookup client.stageInstanceObjs guild.stageInstances d.id with
    | none =>
      have hadd := CachedManager._add_absent S.construct S._patch StageInstanceData.id
        client.stageInstanceObjs guild.stageInstances d hl
      have hm := Heap.getElem?_mutate_self client.guildObjs
        (fun o : Guild => { o with
          stageInstances := guild.stageInstances.set d.id client.stageInstanceObjs.length }) hgo
      refine ⟨none, client.stageInstanceObjs.length,
        { guild with
          stageInstances := guild.stageInstances.set d.id client.stageInstanceObjs.length },
        ?_, ?_, ?_, JSMap.get_set_self _ _ _, ?_, ?_⟩
      · simp [StageInstanceUpdateAction.handle, hc, hdel, hbind, hl, hadd]
      · simp [StageInstanceUpdateAction.handle, hc, hdel, hbind, hl, hadd, Client.emit]
      · simpa [StageInstanceUpdateAction.handle, hc, hdel, hbind, hl, hadd, Client.emit] using hm
      · intro _
        refine ⟨rfl, ?_⟩
        simp [StageInstanceUpdateAction.handle, hc, hdel, hbind, hl, hadd, Client.emit]
      · intro r s hk hr
        rw [Heap.lookup_eq_some_of_get _ _ hk hr] at hl
        cases hl
    | some p =>
      obtain ⟨r, s⟩ := p
      have hks : guild.stageInstances.get d.id = some r ∧ client.stageInstanceObjs[r]? = some s := by
        unfold Heap.lookup at hl
        cases hg₀ : guild.stageInstances.get d.id with
        | none => simp [hg₀] at hl
        | some r' =>
          cases hx₀ : client.stageInstanceObjs[r']? with
          | none => simp [hg₀, hx₀] at hl
          | some x' =>
            simp only [hg₀, hx₀, Option.some.injEq, Prod.mk.injEq] at hl
            obtain ⟨h1, h2⟩ := hl
            subst h1
            subst h2
            exact ⟨rfl, hx₀⟩
      have hlt := Heap.lt_length_of_getElem? _ hks.2
      have hr' : (client.stageInstanceObjs ++ [s])[r]? = some s := by
        rw [List.getElem?_append_left hlt]; exact hks.2
      have hadd := CachedManager._add_present S.construct S._patch StageInstanceData.id
        (client.stageInstanceObjs ++ [s]) guild.stageInstances d hks.1 hr'
      have hm := Heap.getElem?_mutate_self client.guildObjs
        (fun o : Guild => { o with stageInstances := guild.stageInstances }) hgo
      refine ⟨some client.stageInstanceObjs.length, r,
        { guild with stageInstances := guild.stageInstances }, ?_, ?_, ?_, hks.1, ?_, ?_⟩
      · simp [StageInstanceUpdateAction.handle, hc, hdel, hbind, hl, Base._clone, Heap.alloc,
          hadd]
      · simp [StageInstanceUpdateAction.handle, hc, hdel, hbind, hl, Base._clone, Heap.alloc,
          hadd, Client.emit]
      · simpa [StageInstanceUpdateAction.handle, hc, hdel, hbind, hl, Base._clone, Heap.alloc,
          hadd, Client.emit] using hm
      · intro hnone
        rw [hks.1] at hnone
        cases hnone
      · intro r₁ s₁ hk₁ hr₁
        rw [hks.1] at hk₁
        cases hk₁
        rw [hks.2] at hr₁
        cases hr₁
        refine ⟨client.stageInstanceObjs.length, rfl,
          fun e => Nat.lt_irrefl r (e ▸ hlt), by simp, ?_, rfl, ?_⟩
        · simp only [StageInstanceUpdateAction.handle, hc, hdel, hbind, hl, Base._clone,
            Heap.alloc, hadd, Client.emit, Bool.not_false, if_true]
          rw [Heap.getElem?_mutate_ne _ _ (Nat.ne_of_lt hlt)]
          simp
        · simp only [StageInstanceUpdateAction.handle, hc, hdel, hbind, hl, Base._clone,
            Heap.alloc, hadd, Client.emit, Bool.not_false, if_true]
          exact Heap.getElem?_mutate_self _ _ hr'

/-- Witness of C14 on the sample stage client: an update in the uncached channel
99, an update of the deleted stage instance 71, and an update of the cached
stage instance 70. -/
theorem stageInstanceUpdate_guards_and_snapshot_witness :
    StageInstanceUpdateAction.handle sampleStageClass sampleStageClient
        { sampleStageData with channel_id := "99" } = (sampleStageClient, Except.ok none)
    ∧ StageInstanceUpdateAction.handle sampleStageClass sampleStageClient
        { sampleStageData with id := "71" } = (sampleStageClient, Except.ok none)
    ∧ ∃ old new,
        (StageInstanceUpdateAction.handle sampleStageClass sampleStageClient sampleStageData).2
          = Except.ok (some (old, new))
        ∧ (StageInstanceUpdateAction.handle sampleStageClass sampleStageClient
            sampleStageData).1.emitted = [Event.stageInstanceUpdate old new] :=
  ⟨(stageInstanceUpdate_guards_and_snapshot sampleStageClass sampleStageClient
      { sampleStageData with channel_id := "99" }).1 (by decide),
   (stageInstanceUpdate_guards_and_snapshot sampleStageClass sampleStageClient
      { sampleStageData with id := "71" }).2.1 (by decide),
   ((stageInstanceUpdate_guards_and_snapshot sampleStageClass sampleStageClient
      sampleStageData).2.2 0
      { id := "60", isTextBased := true, messages := some [], guild := some 0, deleted := false }
      0 { sampleGuild with stageInstances := [("70", 0)] }
      (by decide) (by decide) (by decide) (by decide)).elim
      fun old h => h.elim fun new h => h.elim fun _ h =>
        ⟨old, new, h.1, by simpa [sampleStageClient, Client.empty] using h.2.1⟩⟩

/-! ## Unknown component kinds -/

theorem ComponentKind.mem_all (k : ComponentKind) : k ∈ ComponentKind.all := by
  cases k <;> simp [ComponentKind.all]

/-- No case of the switch is selected when the type is the code of no kind. -/
theorem switchCase_eq_none (K : Constants) (type : Option Nat)
    (h : ∀ k : ComponentKind, type ≠ some (K.MessageComponentTypes k)) :
    switchCase K type = none := by
  unfold switchCase
  rw [List.find?_eq_none]
  intro k _
  simpa using h k

/-- Claim C15. `BaseMessageComponent.create` on data whose type, after a string
name is replaced by its numeric code, is the code of no component kind: with a
client it emits exactly one debug event, returns no component and does not
throw; without a client it throws the TypeError INVALID_TYPE and emits
nothing. -/
theorem create_unknown_type {ρ : Type} (K : Constants) (E : ComponentClasses ρ)
    (type : TypeResolvable) (fields : ComponentFields)
    (hunknown : ∀ k : ComponentKind,
      resolveSwitchType K type ≠ some (K.MessageComponentTypes k)) :
    BaseMessageComponent.create K E (ComponentData.mk type fields) true
        = ([Event.debug ("[BaseMessageComponent] Received component with unknown type: "
              ++ type.text)], Except.ok none)
    ∧ BaseMessageComponent.create K E (ComponentData.mk type fields) false
        = ([], Except.error (JSError.typeError "INVALID_TYPE")) := by
  have h := switchCase_eq_none K _ hunknown
  constructor
  · rw [BaseMessageComponent.create]
    simp [h]
  · rw [BaseMessageComponent.create]
    simp [h]

/-- Witness of C15: component data of the type 99, which the sample table gives
to no kind, and of the unknown type name GIZMO. -/
theorem create_unknown_type_witness :
    BaseMessageComponent.create sampleConstants sampleComponentClasses sampleUnknownComponent true
        = ([Event.debug "[BaseMessageComponent] Received component with unknown type: 99"],
            Except.ok none)
    ∧ BaseMessageComponent.create sampleConstants sampleComponentClasses
        (ComponentData.mk (TypeResolvable.name "GIZMO") noFields) false
        = ([], Except.error (JSError.typeError "INVALID_TYPE")) :=
  ⟨(create_unknown_type sampleConstants sampleComponentClasses (TypeResolvable.code 99) noFields
      (by intro k; cases k <;> decide)).1,
   (create_unknown_type sampleConstants sampleComponentClasses (TypeResolvable.name "GIZMO")
      noFields (by intro k; cases k <;> decide)).2⟩

/-- Claim C16, the code at the failing inputs. With a client given, `create` on a
container whose only child has the unknown type 99, on a section whose accessory
has it, and on a label whose component has it throws the TypeError INVALID_TYPE
and emits no debug event: `create` constructs the three classes without the
client. The container constructor itself, given the client, emits the debug
event and returns a container. -/
theorem create_nested_unknown_throws :
    BaseMessageComponent.create sampleConstants sampleComponentClasses
        (ComponentData.mk (TypeResolvable.name "CONTAINER")
          (ComponentFields.mk none (some [sampleUnknownComponent]) none none none none none none
            []))
        true
      = ([], Except.error (JSError.typeError "INVALID_TYPE"))
    ∧ BaseMessageComponent.create sampleConstants sampleComponentClasses
        (ComponentData.mk (TypeResolvable.name "SECTION")
          (ComponentFields.mk none (some []) (some sampleUnknownComponent) none none none none
            none []))
        true
      = ([], Except.error (JSError.typeError "INVALID_TYPE"))
    ∧ BaseMessageComponent.create sampleConstants sampleComponentClasses
        (ComponentData.mk (TypeResolvable.name "LABEL")
          (ComponentFields.mk none none none (some sampleUnknownComponent) (some "Name") none
            none none []))
        true
      = ([], Except.error (JSError.typeError "INVALID_TYPE"))
    ∧ ContainerComponent.new sampleConstants sampleComponentClasses
        (ComponentFields.mk none (some [sampleUnknownComponent]) none none none none none none [])
        true
      = ([Event.debug "[BaseMessageComponent] Received component with unknown type: 99"],
          Except.ok (Component.containerComponent none [none] none false)) :=
  ⟨rfl, rfl, rfl, rfl⟩

/-! ## Manager methods -/

theorem CachedManager._addWith_of_cache {α δ : Type} (construct : δ → α) (patch : α → δ → α)
    (key : δ → Snowflake) (h : Heap α) (cache : Collection) (data : δ) {flag : Option Bool}
    (hflag : flag ≠ some false) :
    CachedManager._addWith construct patch key h cache data flag
      = CachedManager._add construct patch key h cache data := by
  have : flag.getD true = true := by
    cases flag with
    | none => rfl
    | some b =>
      cases b with
      | true => rfl
      | false => exact absurd rfl hflag
  simp [CachedManager._addWith, this]

/-- With `cache` false the store is left as it is and the entity returned is a
new object. -/
theorem CachedManager._addWith_false {α δ : Type} (construct : δ → α) (patch : α → δ → α)
    (key : δ → Snowflake) (h : Heap α) (cache : Collection) (data : δ) :
    (CachedManager._addWith construct patch key h cache data (some false)).2.1 = cache
    ∧ (CachedManager._addWith construct patch key h cache data (some false)).2.2 = h.length
    ∧ ∃ x, (CachedManager._addWith construct patch key h cache data (some false)).1[h.length]?
        = some x := by
  cases hl : Heap.lookup h cache (key data) with
  | none =>
    simp [CachedManager._addWith, hl, Heap.alloc]
  | some p =>
    obtain ⟨r, o⟩ := p
    have hm := Heap.getElem?_mutate_self (h ++ [o]) (fun c => patch c data)
      (r := h.length) (x := o) (by simp)
    refine ⟨by simp [CachedManager._addWith, hl], by simp [CachedManager._addWith, hl,
      Base._clone, Heap.alloc], patch o data, ?_⟩
    simpa [CachedManager._addWith, hl, Base._clone, Heap.alloc] using hm

/-- Counterexample to C17 as stated: the sample client caches the subscription
20, and `SubscriptionManager.fetch` with options that give the id 20 and no SKU
rejects with a TypeError instead of returning the cached instance;
`EntitlementManager.fetch` with options that give the id 11 and `cache` false
issues one remote call and returns an entity, and the store has no entry for 11
afterwards. -/
theorem fetch_by_id_sku_guard_and_cache_option :
    sampleClient.subscriptions.get "20" = some 0
    ∧ (SubscriptionManager.fetch sampleConstants sampleRemote sampleClient
        (FetchArgument.options { noSubscriptionOptions with id := some (Resolvable.id "20") })).outcome
      = Except.error (JSError.typeError "SUBSCRIPTION_FETCH_SKU_REQUIRED")
    ∧ (EntitlementManager.fetch sampleConstants sampleRemote sampleClient
        (FetchArgument.options
          { noEntitlementOptions with id := some (Resolvable.id "11"), cache := some false })).requests
      = [ApiRequest.getEntitlement "11"]
    ∧ (EntitlementManager.fetch sampleConstants sampleRemote sampleClient
        (FetchArgument.options
          { noEntitlementOptions with id := some (Resolvable.id "11"), cache := some false })).outcome
      = Except.ok (FetchResult.one 1)
    ∧ (EntitlementManager.fetch sampleConstants sampleRemote sampleClient
        (FetchArgument.options
          { noEntitlementOptions with id := some (Resolvable.id "11"), cache := some false })).client.entitlements.get
        "11" = none :=
  ⟨by decide, rfl, rfl, rfl, rfl⟩

/-- Claim C17, amended. `EntitlementManager.fetch` and `SKUManager.fetch` with an
argument that resolves to a non-empty id, and `SubscriptionManager.fetch` with
options whose `sku` resolves to a non-empty SKU id and whose `id` resolves to a
non-empty id: when `force` is not true and an entity is cached under the id, the
cached instance is returned, no remote call is issued and the client state is
unchanged; when `force` is true or no entity is cached under the id, exactly one
remote call, the get of that id, is issued; if it fails the error is the
outcome and the client state is unchanged; if it succeeds the entity `_add`
returns for the record is returned, which is the instance upserted into the
store unless `options.cache` is false, and with `options.cache` false a new
object, the store being left as it is. -/
theorem fetch_by_id (K : Constants) (R : Remote) (client : Client)
    (ae : FetchArgument FetchEntitlementsOptions) (ie : Snowflake)
    (ak : FetchArgument SKUFetchOptions) (ik : Snowflake)
    (os : FetchSubscriptionsOptions) (sku : Resolvable) (skuId sid : Snowflake) :
    ((EntitlementManager.fetchId client ae).filter (fun s => s != "") = some ie →
        ((EntitlementManager.optionsOf client ae).force ≠ some true →
          ∀ r e, client.entitlements.get ie = some r → client.entitlementObjs[r]? = some e →
            (EntitlementManager.fetch K R client ae).client = client
            ∧ (EntitlementManager.fetch K R client ae).requests = []
            ∧ (EntitlementManager.fetch K R client ae).outcome = Except.ok (FetchResult.one r))
        ∧ ((EntitlementManager.optionsOf client ae).force = some true
            ∨ Heap.lookup client.entitlementObjs client.entitlements ie = none →
          (EntitlementManager.fetch K R client ae).requests = [ApiRequest.getEntitlement ie]
          ∧ (∀ err, R.getEntitlement ie = Except.error err →
              (EntitlementManager.fetch K R client ae).outcome = Except.error err
              ∧ (EntitlementManager.fetch K R client ae).client = client)
          ∧ (∀ data, R.getEntitlement ie = Except.ok data →
              ∃ r, (EntitlementManager.fetch K R client ae).outcome = Except.ok (FetchResult.one r)
                ∧ ((EntitlementManager.optionsOf client ae).cache ≠ some false →
                    ((EntitlementManager.fetch K R client ae).client.entitlementObjs, (EntitlementManager.fetch K R client ae).client.entitlements, r)
                        = CachedManager._add (Entitlement.new K) (Entitlement._patch K) EntitlementData.id
                            client.entitlementObjs client.entitlements data
                    ∧ (EntitlementManager.fetch K R client ae).client.entitlements.get data.id = some r)
                ∧ ((EntitlementManager.optionsOf client ae).cache = some false →
                    (EntitlementManager.fetch K R client ae).client.entitlements = client.entitlements
                    ∧ client.entitlementObjs[r]? = none
                    ∧ ∃ x, (EntitlementManager.fetch K R client ae).client.entitlementObjs[r]? = some x))))
    ∧ ((SKUManager.fetchId client ak).filter (fun s => s != "") = some ik →
        ((SKUManager.optionsOf ak).force ≠ some true →
          ∀ r e, client.skus.get ik = some r → client.skuObjs[r]? = some e →
            (SKUManager.fetch K R client ak).client = client
            ∧ (SKUManager.fetch K R client ak).requests = []
            ∧ (SKUManager.fetch K R client ak).outcome = Except.ok (FetchResult.one r))
        ∧ ((SKUManager.optionsOf ak).force = some true
            ∨ Heap.lookup client.skuObjs client.skus ik = none →
          (SKUManager.fetch K R client ak).requests = [ApiRequest.getSKU ik]
          ∧ (∀ err, R.getSKU ik = Except.error err →
              (SKUManager.fetch K R client ak).outcome = Except.error err
              ∧ (SKUManager.fetch K R client ak).client = client)
          ∧ (∀ data, R.getSKU ik = Except.ok data →
              ∃ r, (SKUManager.fetch K R client ak).outcome = Except.ok (FetchResult.one r)
                ∧ ((SKUManager.optionsOf ak).cache ≠ some false →
                    ((SKUManager.fetch K R client ak).client.skuObjs, (SKUManager.fetch K R client ak).client.skus, r)
                        = CachedManager._add (SKU.new K) (SKU._patch K) SKUData.id
                            client.skuObjs client.skus data
                    ∧ (SKUManager.fetch K R client ak).client.skus.get data.id = some r)
                ∧ ((SKUManager.optionsOf ak).cache = some false →
                    (SKUManager.fetch K R client ak).client.skus = client.skus
                    ∧ client.skuObjs[r]? = none
                    ∧ ∃ x, (SKUManager.fetch K R client ak).client.skuObjs[r]? = some x))))
    ∧ (os.sku.filter Resolvable.truthy = some sku →
        (SKUManager.resolveId client sku).filter (fun s => s != "") = some skuId →
        (os.id.bind (SubscriptionManager.resolveId client)).filter (fun s => s != "") = some sid →
        (os.force ≠ some true →
          ∀ r e, client.subscriptions.get sid = some r → client.subscriptionObjs[r]? = some e →
            (SubscriptionManager.fetch K R client (FetchArgument.options os)).client = client
            ∧ (SubscriptionManager.fetch K R client (FetchArgument.options os)).requests = []
            ∧ (SubscriptionManager.fetch K R client (FetchArgument.options os)).outcome = Except.ok (FetchResult.one r))
        ∧ (os.force = some true
            ∨ Heap.lookup client.subscriptionObjs client.subscriptions sid = none →
          (SubscriptionManager.fetch K R client (FetchArgument.options os)).requests = [ApiRequest.getSubscription skuId sid]
          ∧ (∀ err, R.getSubscription skuId sid = Except.error err →
              (SubscriptionManager.fetch K R client (FetchArgument.options os)).outcome = Except.error err
              ∧ (SubscriptionManager.fetch K R client (FetchArgument.options os)).client = client)
          ∧ (∀ data, R.getSubscription skuId sid = Except.ok data →
              ∃ r, (SubscriptionManager.fetch K R client (FetchArgument.options os)).outcome = Except.ok (FetchResult.one r)
                ∧ (os.cache ≠ some false →
                    ((SubscriptionManager.fetch K R client (FetchArgument.options os)).client.subscriptionObjs, (SubscriptionManager.fetch K R client (FetchArgument.options os)).client.subscriptions, r)
                        = CachedManager._add (Subscription.new K) (Subscription._patch K) SubscriptionData.id
                            client.subscriptionObjs client.subscriptions data
                    ∧ (SubscriptionManager.fetch K R client (FetchArgument.options os)).client.subscriptions.get data.id = some r)
                ∧ (os.cache = some false →
                    (SubscriptionManager.fetch K R client (FetchArgument.options os)).client.subscriptions = client.subscriptions
                    ∧ client.subscriptionObjs[r]? = none
                    ∧ ∃ x, (SubscriptionManager.fetch K R client (FetchArgument.options os)).client.subscriptionObjs[r]? = some x)))) := by
  refine ⟨?_, ?_, ?_⟩
  · intro hid
    refine ⟨?_, ?_⟩
    · intro hforce r e hk hr
      have hb : ((EntitlementManager.optionsOf client ae).force != some true) = true := by simpa using hforce
      have hl := Heap.lookup_eq_some_of_get client.entitlementObjs client.entitlements hk hr
      simp [EntitlementManager.fetch, hid, hb, hl]
    · intro hmiss
      have hnone : (if ((EntitlementManager.optionsOf client ae).force != some true) = true then
          Heap.lookup client.entitlementObjs client.entitlements ie else none) = none := by
        rcases hmiss with hf | hl
        · simp [hf]
        · simp [hl]
      refine ⟨?_, ?_, ?_⟩
      · simp only [EntitlementManager.fetch, hid, hnone]
        cases hrem : R.getEntitlement ie <;> rfl
      · intro err hrem
        simp only [EntitlementManager.fetch, hid, hnone, hrem]
        exact ⟨trivial, trivial⟩
      · intro data hrem
        refine ⟨(CachedManager._addWith (Entitlement.new K) (Entitlement._patch K) EntitlementData.id
          client.entitlementObjs client.entitlements data (EntitlementManager.optionsOf client ae).cache).2.2, ?_, ?_, ?_⟩
        · simp only [EntitlementManager.fetch, hid, hnone, hrem]
        · intro hc
          have hadd := CachedManager._addWith_of_cache (Entitlement.new K) (Entitlement._patch K) EntitlementData.id
            client.entitlementObjs client.entitlements data hc
          simp only [EntitlementManager.fetch, hid, hnone, hrem, hadd]
          exact ⟨trivial, (CachedManager._add_get (Entitlement.new K) (Entitlement._patch K) EntitlementData.id
                client.entitlementObjs client.entitlements data).1⟩
        · intro hc
          obtain ⟨h1, h2, x, hx⟩ := CachedManager._addWith_false (Entitlement.new K) (Entitlement._patch K) EntitlementData.id
            client.entitlementObjs client.entitlements data
          simp only [EntitlementManager.fetch, hid, hnone, hrem, hc, h1, h2]
          exact ⟨trivial, by simp, x, hx⟩
  · intro hid
    refine ⟨?_, ?_⟩
    · intro hforce r e hk hr
      have hb : ((SKUManager.optionsOf ak).force != some true) = true := by simpa using hforce
      have hl := Heap.lookup_eq_some_of_get client.skuObjs client.skus hk hr
      simp [SKUManager.fetch, hid, hb, hl]
    · intro hmiss
      have hnone : (if ((SKUManager.optionsOf ak).force != some true) = true then
          Heap.lookup client.skuObjs client.skus ik else none) = none := by
        rcases hmiss with hf | hl
        · simp [hf]
        · simp [hl]
      refine ⟨?_, ?_, ?_⟩
      · simp only [SKUManager.fetch, hid, hnone]
        cases hrem : R.getSKU ik <;> rfl
      · intro err hrem
        simp only [SKUManager.fetch, hid, hnone, hrem]
        exact ⟨trivial, trivial⟩
      · intro data hrem
        refine ⟨(CachedManager._addWith (SKU.new K) (SKU._patch K) SKUData.id
          client.skuObjs client.skus data (SKUManager.optionsOf ak).cache).2.2, ?_, ?_, ?_⟩
        · simp only [SKUManager.fetch, hid, hnone, hrem]
        · intro hc
          have hadd := CachedManager._addWith_of_cache (SKU.new K) (SKU._patch K) SKUData.id
            client.skuObjs client.skus data hc
          simp only [SKUManager.fetch, hid, hnone, hrem, hadd]
          exact ⟨trivial, (CachedManager._add_get (SKU.new K) (SKU._patch K) SKUData.id
                client.skuObjs client.skus data).1⟩
        · intro hc
          obtain ⟨h1, h2, x, hx⟩ := CachedManager._addWith_false (SKU.new K) (SKU._patch K) SKUData.id
            client.skuObjs client.skus data
          simp only [SKUManager.fetch, hid, hnone, hrem, hc, h1, h2]
          exact ⟨trivial, by simp, x, hx⟩
  · intro hsku hskuId hid
    refine ⟨?_, ?_⟩
    · intro hforce r e hk hr
      have hb : (os.force != some true) = true := by simpa using hforce
      have hl := Heap.lookup_eq_some_of_get client.subscriptionObjs client.subscriptions hk hr
      simp [SubscriptionManager.fetch, hsku, hskuId, hid, hb, hl]
    · intro hmiss
      have hnone : (if (os.force != some true) = true then
          Heap.lookup client.subscriptionObjs client.subscriptions sid else none) = none := by
        rcases hmiss with hf | hl
        · simp [hf]
        · simp [hl]
      refine ⟨?_, ?_, ?_⟩
      · simp only [SubscriptionManager.fetch, hsku, hskuId, hid, hnone]
        cases hrem : R.getSubscription skuId sid <;> rfl
      · intro err hrem
        simp only [SubscriptionManager.fetch, hsku, hskuId, hid, hnone, hrem]
        exact ⟨trivial, trivial⟩
      · intro data hrem
        refine ⟨(CachedManager._addWith (Subscription.new K) (Subscription._patch K) SubscriptionData.id
          client.subscriptionObjs client.subscriptions data os.cache).2.2, ?_, ?_, ?_⟩
        · simp only [SubscriptionManager.fetch, hsku, hskuId, hid, hnone, hrem]
        · intro hc
          have hadd := CachedManager._addWith_of_cache (Subscription.new K) (Subscription._patch K) SubscriptionData.id
            client.subscriptionObjs client.subscriptions data hc
          simp only [SubscriptionManager.fetch, hsku, hskuId, hid, hnone, hrem, hadd]
          exact ⟨trivial, (CachedManager._add_get (Subscription.new K) (Subscription._patch K) SubscriptionData.id
                client.subscriptionObjs client.subscriptions data).1⟩
        · intro hc
          obtain ⟨h1, h2, x, hx⟩ := CachedManager._addWith_false (Subscription.new K) (Subscription._patch K) SubscriptionData.id
            client.subscriptionObjs client.subscriptions data
          simp only [SubscriptionManager.fetch, hsku, hskuId, hid, hnone, hrem, hc, h1, h2]
          exact ⟨trivial, by simp, x, hx⟩


/-- Witness of C17 on the sample client: the cached entitlement 10 is served from
the store without a remote call, and the uncached entitlement 11 costs one
remote call. -/
theorem fetch_by_id_witness :
    (EntitlementManager.fetch sampleConstants sampleRemote sampleClient
        (FetchArgument.id "10")).outcome = Except.ok (FetchResult.one 0)
    ∧ (EntitlementManager.fetch sampleConstants sampleRemote sampleClient
        (FetchArgument.id "10")).requests = []
    ∧ (EntitlementManager.fetch sampleConstants sampleRemote sampleClient
        (FetchArgument.id "11")).requests = [ApiRequest.getEntitlement "11"] :=
  have h := ((fetch_by_id sampleConstants sampleRemote sampleClient (FetchArgument.id "10") "10"
    FetchArgument.undefined "" noSubscriptionOptions Resolvable.other "" "").1 (by decide)).1
    (by decide) 0 sampleEntitlement (by decide) (by decide)
  ⟨h.2.2, h.2.1,
    (((fetch_by_id sampleConstants sampleRemote sampleClient (FetchArgument.id "11") "11"
      FetchArgument.undefined "" noSubscriptionOptions Resolvable.other "" "").1 (by decide)).2
      (Or.inr (by decide))).1⟩

/-! ### The reduction of a fetched list -/

theorem JSMap.set_of_get_none {κ ν : Type} [DecidableEq κ] (m : JSMap κ ν) (k : κ) (v : ν)
    (h : m.get k = none) : m.set k v = m ++ [(k, v)] := by
  induction m with
  | nil => rfl
  | cons p t ih =>
    obtain ⟨k₀, v₀⟩ := p
    by_cases hk : k₀ = k
    · simp [JSMap.get, hk] at h
    · simp only [JSMap.get, if_neg hk] at h
      simp only [JSMap.set, if_neg hk, ih h, List.cons_append]

theorem JSMap.get_append {κ ν : Type} [DecidableEq κ] (m n : JSMap κ ν) (k : κ) :
    (m ++ n).get k = (m.get k).orElse (fun _ => n.get k) := by
  induction m with
  | nil => rfl
  | cons p t ih =>
    obtain ⟨k₀, v₀⟩ := p
    by_cases hk : k₀ = k
    · simp [JSMap.get, hk]
    · simp only [List.cons_append, JSMap.get, if_neg hk]
      exact ih

/-- Setting pairs with distinct keys that the collection does not have appends
them in order. -/
theorem JSMap.foldl_set_of_nodup {κ ν : Type} [DecidableEq κ] (l : List (κ × ν)) :
    ∀ m : JSMap κ ν, (∀ p ∈ l, m.get p.1 = none) → (l.map Prod.fst).Nodup →
      l.foldl (fun acc p => acc.set p.1 p.2) m = m ++ l := by
  induction l with
  | nil => intro m _ _; simp
  | cons a t ih =>
    intro m hm hnd
    rw [List.map_cons, List.nodup_cons] at hnd
    rw [List.foldl_cons, JSMap.set_of_get_none m a.1 a.2 (hm a (List.mem_cons_self _ _))]
    rw [ih (m ++ [(a.1, a.2)]) ?_ hnd.2]
    · simp
    · intro p hp
      rw [JSMap.get_append, hm p (List.mem_cons_of_mem _ hp)]
      have hne : ¬ a.1 = p.1 := fun e => hnd.1 (e ▸ List.mem_map_of_mem Prod.fst hp)
      simp [JSMap.get, hne]

/-- Setting pairs leaves the entry of a key that is not among theirs. -/
theorem JSMap.get_foldl_set_pairs_of_not_mem {κ ν : Type} [DecidableEq κ] (l : List (κ × ν))
    (k : κ) (hk : k ∉ l.map Prod.fst) :
    ∀ m : JSMap κ ν, (l.foldl (fun acc p => acc.set p.1 p.2) m).get k = m.get k := by
  induction l with
  | nil => intro m; rfl
  | cons a t ih =>
    intro m
    rw [List.map_cons, List.mem_cons, not_or] at hk
    rw [List.foldl_cons, ih hk.2, JSMap.get_set_ne _ _ hk.1]

/-- Setting pairs never removes a key. -/
theorem JSMap.isSome_get_foldl_set_pairs {κ ν : Type} [DecidableEq κ] (l : List (κ × ν))
    (k : κ) :
    ∀ m : JSMap κ ν, (m.get k).isSome = true ∨ k ∈ l.map Prod.fst →
      ((l.foldl (fun acc p => acc.set p.1 p.2) m).get k).isSome = true := by
  induction l with
  | nil =>
    intro m h
    rcases h with h | h
    · exact h
    · simp at h
  | cons a t ih =>
    intro m h
    rw [List.foldl_cons]
    apply ih
    by_cases hka : k = a.1
    · left
      rw [hka, JSMap.get_set_self]
      rfl
    · rcases h with h | h
      · left
        rw [JSMap.get_set_ne _ _ hka]
        exact h
      · right
        rw [List.map_cons, List.mem_cons] at h
        rcases h with h | h
        · exact absurd h hka
        · exact h

theorem CachedManager.addedInOrder_keys {α δ : Type} (construct : δ → α) (patch : α → δ → α)
    (key : δ → Snowflake) (flag : Option Bool) (records : List δ) :
    ∀ (h : Heap α) (cache : Collection),
      (CachedManager.addedInOrder construct patch key flag h cache records).map Prod.fst
        = records.map key := by
  induction records with
  | nil => intro h cache; rfl
  | cons x xs ih =>
    intro h cache
    simp [CachedManager.addedInOrder, ih]

/-- The collection the reduction builds is the one obtained by setting, in
order, the pairs of the specification. -/
theorem CachedManager.reduce_collection {α δ : Type} (construct : δ → α) (patch : α → δ → α)
    (key : δ → Snowflake) (flag : Option Bool) (records : List δ) :
    ∀ (h : Heap α) (cache : Collection) (out : JSMap Snowflake Ref),
      (records.foldl (CachedManager.reduceStep construct patch key flag) (h, cache, out)).2.2
        = (CachedManager.addedInOrder construct patch key flag h cache records).foldl
            (fun acc p => acc.set p.1 p.2) out := by
  induction records with
  | nil => intro h cache out; rfl
  | cons x xs ih =>
    intro h cache out
    rw [List.foldl_cons]
    simp only [CachedManager.reduceStep, CachedManager.addedInOrder, List.foldl_cons]
    rw [ih]

/-- With `cache` false the reduction leaves the manager's cache as it is. -/
theorem CachedManager.reduce_cache_of_false {α δ : Type} (construct : δ → α)
    (patch : α → δ → α) (key : δ → Snowflake) (records : List δ) :
    ∀ (h : Heap α) (cache : Collection) (out : JSMap Snowflake Ref),
      (records.foldl (CachedManager.reduceStep construct patch key (some false))
        (h, cache, out)).2.1 = cache := by
  induction records with
  | nil => intro h cache out; rfl
  | cons x xs ih =>
    intro h cache out
    rw [List.foldl_cons]
    simp only [CachedManager.reduceStep]
    rw [ih, (CachedManager._addWith_false construct patch key h cache x).1]

theorem Heap.length_le_mutate {α : Type} (h : Heap α) (r : Ref) (f : α → α) :
    h.length ≤ (h.mutate r f).length := by
  rw [Heap.length_mutate]

/-- The upsert leaves the entries of the other keys, and keeps or grows the
heap. -/
theorem CachedManager._add_frame {α δ : Type} (construct : δ → α) (patch : α → δ → α)
    (key : δ → Snowflake) (h : Heap α) (cache : Collection) (data : δ) :
    (∀ k, k ≠ key data →
      (CachedManager._add construct patch key h cache data).2.1.get k = cache.get k)
    ∧ h.length ≤ (CachedManager._add construct patch key h cache data).1.length := by
  cases hl : Heap.lookup h cache (key data) with
  | none =>
    rw [CachedManager._add_absent _ _ _ _ _ _ hl]
    refine ⟨fun k hne => JSMap.get_set_ne _ _ hne, ?_⟩
    simp
  | some p =>
    obtain ⟨r, x⟩ := p
    simp only [CachedManager._add, hl]
    exact ⟨fun _ _ => trivial, Heap.length_le_mutate _ _ _⟩

/-- With `cache` not false every entry of the collection the reduction builds is
an entry of the manager's cache and addresses an object of the heap. -/
theorem CachedManager.reduce_entries_cached {α δ : Type} (construct : δ → α)
    (patch : α → δ → α) (key : δ → Snowflake) {flag : Option Bool} (hflag : flag ≠ some false)
    (records : List δ) :
    ∀ (h : Heap α) (cache : Collection) (out : JSMap Snowflake Ref),
      (∀ k r, out.get k = some r → cache.get k = some r ∧ r < h.length) →
      ∀ k r,
        (records.foldl (CachedManager.reduceStep construct patch key flag)
          (h, cache, out)).2.2.get k = some r →
        (records.foldl (CachedManager.reduceStep construct patch key flag)
          (h, cache, out)).2.1.get k = some r
        ∧ r < (records.foldl (CachedManager.reduceStep construct patch key flag)
          (h, cache, out)).1.length := by
  induction records with
  | nil => intro h cache out hinv k r hk; exact hinv k r hk
  | cons x xs ih =>
    intro h cache out hinv
    rw [List.foldl_cons]
    apply ih
    intro k r hk
    simp only [CachedManager.reduceStep, CachedManager._addWith_of_cache _ _ _ _ _ _ hflag]
      at hk ⊢
    obtain ⟨hget, y, hy⟩ := CachedManager._add_get construct patch key h cache x
    obtain ⟨hframe, hlen⟩ := CachedManager._add_frame construct patch key h cache x
    by_cases hkx : k = key x
    · subst hkx
      rw [JSMap.get_set_self] at hk
      cases hk
      exact ⟨hget, Heap.lt_length_of_getElem? _ hy⟩
    · rw [JSMap.get_set_ne _ _ hkx] at hk
      obtain ⟨h1, h2⟩ := hinv k r hk
      exact ⟨(hframe k hkx).trans h1, Nat.lt_of_lt_of_le h2 hlen⟩

/-- The reduction of a fetched list: the collection it builds is obtained from
the empty collection by setting the pairs of the specification; its keys are
exactly the ids of the records; for records with distinct ids it is the list of
those pairs, in the order of the records; with `cache` not false its entries
are entries of the manager's cache that address objects; with `cache` false the
manager's cache is unchanged. -/
theorem CachedManager.reduceAdd_spec {α δ : Type} (construct : δ → α) (patch : α → δ → α)
    (key : δ → Snowflake) (flag : Option Bool) (h : Heap α) (cache : Collection)
    (records : List δ) :
    (CachedManager.reduceAdd construct patch key flag h cache records).2.2
        = (CachedManager.addedInOrder construct patch key flag h cache records).foldl
            (fun acc p => JSMap.set acc p.1 p.2) ([] : JSMap Snowflake Ref)
    ∧ (∀ k, ((CachedManager.reduceAdd construct patch key flag h cache records).2.2.get
          k).isSome = true ↔ k ∈ records.map key)
    ∧ ((records.map key).Nodup →
        (CachedManager.reduceAdd construct patch key flag h cache records).2.2
            = CachedManager.addedInOrder construct patch key flag h cache records
        ∧ (CachedManager.reduceAdd construct patch key flag h cache records).2.2.map Prod.fst
            = records.map key)
    ∧ (flag ≠ some false → ∀ k r,
        (CachedManager.reduceAdd construct patch key flag h cache records).2.2.get k = some r →
        (CachedManager.reduceAdd construct patch key flag h cache records).2.1.get k = some r
        ∧ ∃ x, (CachedManager.reduceAdd construct patch key flag h cache records).1[r]?
            = some x)
    ∧ (flag = some false →
        (CachedManager.reduceAdd construct patch key flag h cache records).2.1 = cache) := by
  have hcoll := CachedManager.reduce_collection construct patch key flag records h cache []
  have hkeys := CachedManager.addedInOrder_keys construct patch key flag records h cache
  refine ⟨hcoll, ?_, ?_, ?_, ?_⟩
  · intro k
    unfold CachedManager.reduceAdd
    rw [hcoll]
    constructor
    · intro hsome
      by_contra hk
      rw [← hkeys] at hk
      rw [JSMap.get_foldl_set_pairs_of_not_mem _ k hk] at hsome
      simp [JSMap.get] at hsome
    · intro hk
      apply JSMap.isSome_get_foldl_set_pairs
      right
      rw [hkeys]
      exact hk
  · intro hnd
    have heq : (CachedManager.reduceAdd construct patch key flag h cache records).2.2
        = CachedManager.addedInOrder construct patch key flag h cache records := by
      unfold CachedManager.reduceAdd
      rw [hcoll, JSMap.foldl_set_of_nodup _ [] (fun _ _ => rfl) (by rw [hkeys]; exact hnd)]
      simp
    exact ⟨heq, by rw [heq, hkeys]⟩
  · intro hflag k r hk
    obtain ⟨h1, h2⟩ := CachedManager.reduce_entries_cached construct patch key hflag records
      h cache [] (fun k r hk => by simp [JSMap.get] at hk) k r hk
    exact ⟨h1, _, List.getElem?_eq_getElem h2⟩
  · intro hflag
    subst hflag
    exact CachedManager.reduce_cache_of_false construct patch key records h cache []

/-- Counterexample to C18 as stated: `EntitlementManager.fetch` on the sample
client with options whose `cache` is false gets the records 10 and 11 from the
sample API; the collection it returns maps 11 to an entity, and the store has no
entry for 11 afterwards: the record was not upserted. -/
theorem fetch_list_cache_option :
    (EntitlementManager.fetch sampleConstants sampleRemote sampleClient
        (FetchArgument.options { noEntitlementOptions with cache := some false })).outcome
      = Except.ok (FetchResult.many [("10", 1), ("11", 2)])
    ∧ (EntitlementManager.fetch sampleConstants sampleRemote sampleClient
        (FetchArgument.options
          { noEntitlementOptions with cache := some false })).client.entitlements.get "11"
      = none
    ∧ (EntitlementManager.fetch sampleConstants sampleRemote sampleClient
        (FetchArgument.options
          { noEntitlementOptions with cache := some false })).client.entitlements
      = sampleClient.entitlements :=
  ⟨rfl, rfl, rfl⟩

/-- Claim C18, amended. `EntitlementManager.fetch` and `SKUManager.fetch` with an
argument that resolves to no id, and `SubscriptionManager.fetch` with options
whose `sku` resolves to a non-empty SKU id and that resolve to no id: for every
list of records the remote list call returns, one list call is issued and the
result is a collection built from an empty one by setting, record after record,
the record's id to the entity `_add` returns for it. Its keys are exactly the ids
of the records; for records with distinct ids it is the list of these pairs in
the order of the records. Unless `options.cache` is false every entry is the
entry of the manager's cache under that id, an object of the heap; with
`options.cache` false the manager's cache is left as it is. -/
theorem fetch_list (K : Constants) (R : Remote) (client : Client)
    (ae : FetchArgument FetchEntitlementsOptions) (ak : FetchArgument SKUFetchOptions)
    (os : FetchSubscriptionsOptions) (sku : Resolvable) (skuId : Snowflake) :
    ((EntitlementManager.fetchId client ae).filter (fun s => s != "") = none →
        ∀ data, R.listEntitlements (EntitlementManager.query (EntitlementManager.optionsOf client ae)) = Except.ok data →
          (EntitlementManager.fetch K R client ae).requests = [ApiRequest.listEntitlements
              (EntitlementManager.query (EntitlementManager.optionsOf client ae))]
          ∧ ∃ coll, (EntitlementManager.fetch K R client ae).outcome = Except.ok (FetchResult.many coll)
            ∧ coll = (CachedManager.addedInOrder (Entitlement.new K) (Entitlement._patch K) EntitlementData.id
                (EntitlementManager.optionsOf client ae).cache client.entitlementObjs client.entitlements data).foldl
                (fun acc p => JSMap.set acc p.1 p.2) ([] : JSMap Snowflake Ref)
            ∧ (∀ k, (coll.get k).isSome = true ↔ k ∈ data.map EntitlementData.id)
            ∧ ((data.map EntitlementData.id).Nodup →
                coll = CachedManager.addedInOrder (Entitlement.new K) (Entitlement._patch K) EntitlementData.id
                (EntitlementManager.optionsOf client ae).cache client.entitlementObjs client.entitlements data
                ∧ coll.map Prod.fst = data.map EntitlementData.id)
            ∧ ((EntitlementManager.optionsOf client ae).cache ≠ some false → ∀ k r, coll.get k = some r →
                (EntitlementManager.fetch K R client ae).client.entitlements.get k = some r
                ∧ ∃ x, (EntitlementManager.fetch K R client ae).client.entitlementObjs[r]? = some x)
            ∧ ((EntitlementManager.optionsOf client ae).cache = some false →
                (EntitlementManager.fetch K R client ae).client.entitlements = client.entitlements))
    ∧ ((SKUManager.fetchId client ak).filter (fun s => s != "") = none →
        ∀ data, R.listSKUs = Except.ok data →
          (SKUManager.fetch K R client ak).requests = [ApiRequest.listSKUs]
          ∧ ∃ coll, (SKUManager.fetch K R client ak).outcome = Except.ok (FetchResult.many coll)
            ∧ coll = (CachedManager.addedInOrder (SKU.new K) (SKU._patch K) SKUData.id
                (SKUManager.optionsOf ak).cache client.skuObjs client.skus data).foldl
                (fun acc p => JSMap.set acc p.1 p.2) ([] : JSMap Snowflake Ref)
            ∧ (∀ k, (coll.get k).isSome = true ↔ k ∈ data.map SKUData.id)
            ∧ ((data.map SKUData.id).Nodup →
                coll = CachedManager.addedInOrder (SKU.new K) (SKU._patch K) SKUData.id
                (SKUManager.optionsOf ak).cache client.skuObjs client.skus data
                ∧ coll.map Prod.fst = data.map SKUData.id)
            ∧ ((SKUManager.optionsOf ak).cache ≠ some false → ∀ k r, coll.get k = some r →
                (SKUManager.fetch K R client ak).client.skus.get k = some r
                ∧ ∃ x, (SKUManager.fetch K R client ak).client.skuObjs[r]? = some x)
            ∧ ((SKUManager.optionsOf ak).cache = some false →
                (SKUManager.fetch K R client ak).client.skus = client.skus))
    ∧ (os.sku.filter Resolvable.truthy = some sku →
        (SKUManager.resolveId client sku).filter (fun s => s != "") = some skuId →
        (os.id.bind (SubscriptionManager.resolveId client)).filter (fun s => s != "") = none →
        ∀ data, R.listSubscriptions skuId { before := os.before, after := os.after, limit := os.limit } = Except.ok data →
          (SubscriptionManager.fetch K R client (FetchArgument.options os)).requests = [ApiRequest.listSubscriptions skuId
              { before := os.before, after := os.after, limit := os.limit }]
          ∧ ∃ coll, (SubscriptionManager.fetch K R client (FetchArgument.options os)).outcome = Except.ok (FetchResult.many coll)
            ∧ coll = (CachedManager.addedInOrder (Subscription.new K) (Subscription._patch K) SubscriptionData.id
                os.cache client.subscriptionObjs client.subscriptions data).foldl
                (fun acc p => JSMap.set acc p.1 p.2) ([] : JSMap Snowflake Ref)
            ∧ (∀ k, (coll.get k).isSome = true ↔ k ∈ data.map SubscriptionData.id)
            ∧ ((data.map SubscriptionData.id).Nodup →
                coll = CachedManager.addedInOrder (Subscription.new K) (Subscription._patch K) SubscriptionData.id
                os.cache client.subscriptionObjs client.subscriptions data
                ∧ coll.map Prod.fst = data.map SubscriptionData.id)
            ∧ (os.cache ≠ some false → ∀ k r, coll.get k = some r →
                (SubscriptionManager.fetch K R client (FetchArgument.options os)).client.subscriptions.get k = some r
                ∧ ∃ x, (SubscriptionManager.fetch K R client (FetchArgument.options os)).client.subscriptionObjs[r]? = some x)
            ∧ (os.cache = some false →
                (SubscriptionManager.fetch K R client (FetchArgument.options os)).client.subscriptions = client.subscriptions)) := by
  refine ⟨?_, ?_, ?_⟩
  · intro hid data hrem
    obtain ⟨h1, h2, h3, h4, h5⟩ := CachedManager.reduceAdd_spec (Entitlement.new K) (Entitlement._patch K) EntitlementData.id
      (EntitlementManager.optionsOf client ae).cache client.entitlementObjs client.entitlements data
    refine ⟨?_, (CachedManager.reduceAdd (Entitlement.new K) (Entitlement._patch K) EntitlementData.id
      (EntitlementManager.optionsOf client ae).cache client.entitlementObjs client.entitlements data).2.2, ?_, h1, h2, h3, ?_, ?_⟩
    · simp only [EntitlementManager.fetch, hid, hrem]
    · simp only [EntitlementManager.fetch, hid, hrem]
    · intro hc k r hk
      simp only [EntitlementManager.fetch, hid, hrem]
      exact h4 hc k r hk
    · intro hc
      simp only [EntitlementManager.fetch, hid, hrem]
      exact h5 hc
  · intro hid data hrem
    obtain ⟨h1, h2, h3, h4, h5⟩ := CachedManager.reduceAdd_spec (SKU.new K) (SKU._patch K) SKUData.id
      (SKUManager.optionsOf ak).cache client.skuObjs client.skus data
    refine ⟨?_, (CachedManager.reduceAdd (SKU.new K) (SKU._patch K) SKUData.id
      (SKUManager.optionsOf ak).cache client.skuObjs client.skus data).2.2, ?_, h1, h2, h3, ?_, ?_⟩
    · simp only [SKUManager.fetch, hid, hrem]
    · simp only [SKUManager.fetch, hid, hrem]
    · intro hc k r hk
      simp only [SKUManager.fetch, hid, hrem]
      exact h4 hc k r hk
    · intro hc
      simp only [SKUManager.fetch, hid, hrem]
      exact h5 hc
  · intro hsku hskuId hid data hrem
    obtain ⟨h1, h2, h3, h4, h5⟩ := CachedManager.reduceAdd_spec (Subscription.new K) (Subscription._patch K) SubscriptionData.id
      os.cache client.subscriptionObjs client.subscriptions data
    refine ⟨?_, (CachedManager.reduceAdd (Subscription.new K) (Subscription._patch K) SubscriptionData.id
      os.cache client.subscriptionObjs client.subscriptions data).2.2, ?_, h1, h2, h3, ?_, ?_⟩
    · simp only [SubscriptionManager.fetch, hsku, hskuId, hid, hrem]
    · simp only [SubscriptionManager.fetch, hsku, hskuId, hid, hrem]
    · intro hc k r hk
      simp only [SubscriptionManager.fetch, hsku, hskuId, hid, hrem]
      exact h4 hc k r hk
    · intro hc
      simp only [SubscriptionManager.fetch, hsku, hskuId, hid, hrem]
      exact h5 hc

/-- Witness of C18 on the sample client: a fetch without argument gets the
records 10 and 11; the collection maps 10 to the cached instance 0 and 11 to the
new instance 1, both entries of the store afterwards. -/
theorem fetch_list_witness :
    (EntitlementManager.fetch sampleConstants sampleRemote sampleClient
        FetchArgument.undefined).requests
      = [ApiRequest.listEntitlements (EntitlementManager.query noEntitlementOptions)]
    ∧ ∃ coll, (EntitlementManager.fetch sampleConstants sampleRemote sampleClient
          FetchArgument.undefined).outcome = Except.ok (FetchResult.many coll)
        ∧ coll.map Prod.fst = ["10", "11"]
        ∧ ∀ k r, coll.get k = some r →
            (EntitlementManager.fetch sampleConstants sampleRemote sampleClient
              FetchArgument.undefined).client.entitlements.get k = some r :=
  have h := (fetch_list sampleConstants sampleRemote sampleClient FetchArgument.undefined
    FetchArgument.undefined noSubscriptionOptions Resolvable.other "").1 (by decide)
    [sampleEntitlementData, sampleEntitlementRecord] rfl
  ⟨h.1, h.2.elim fun coll hc =>
    ⟨coll, hc.1, (hc.2.2.2.1 (by decide)).2,
      fun k r hk => (hc.2.2.2.2.1 (by decide) k r hk).1⟩⟩

/-- Claim C19. `EntitlementManager.deleteTestEntitlement` issues exactly one
remote call, the delete of the resolved id. If the call fails, the same error is
the outcome and the client state, the entitlement cache included, is unchanged,
so no local change precedes the call. If it succeeds, the cache has no entry for
the resolved id, every other entry of the cache is unchanged and so is every
entitlement object. -/
theorem deleteTestEntitlement_remote_first (R : Remote) (client : Client)
    (entitlement : Resolvable) :
    (EntitlementManager.deleteTestEntitlement R client entitlement).requests
        = [ApiRequest.deleteEntitlement (EntitlementManager.resolveId client entitlement)]
    ∧ (∀ err, R.deleteEntitlement (EntitlementManager.resolveId client entitlement)
          = Except.error err →
        (EntitlementManager.deleteTestEntitlement R client entitlement).outcome
          = Except.error err
        ∧ (EntitlementManager.deleteTestEntitlement R client entitlement).client = client)
    ∧ (R.deleteEntitlement (EntitlementManager.resolveId client entitlement) = Except.ok () →
        (EntitlementManager.deleteTestEntitlement R client entitlement).outcome = Except.ok ()
        ∧ (∀ id, EntitlementManager.resolveId client entitlement = some id →
            (EntitlementManager.deleteTestEntitlement R client entitlement).client.entitlements.get
              id = none
            ∧ ∀ k, k ≠ id →
              (EntitlementManager.deleteTestEntitlement R client entitlement).client.entitlements.get
                k = client.entitlements.get k)
        ∧ (EntitlementManager.deleteTestEntitlement R client entitlement).client.entitlementObjs
            = client.entitlementObjs) := by
  refine ⟨?_, ?_, ?_⟩
  · cases h : R.deleteEntitlement (EntitlementManager.resolveId client entitlement) <;>
      simp only [EntitlementManager.deleteTestEntitlement, h]
  · intro err herr
    simp only [EntitlementManager.deleteTestEntitlement, herr]
    exact ⟨trivial, trivial⟩
  · intro hok
    refine ⟨?_, ?_, ?_⟩
    · simp only [EntitlementManager.deleteTestEntitlement, hok]
    · intro id hid
      have hok' := hok
      rw [hid] at hok'
      simp only [EntitlementManager.deleteTestEntitlement, hid, hok']
      exact ⟨JSMap.get_delete_self _ _, fun k hne => JSMap.get_delete_ne _ hne⟩
    · simp only [EntitlementManager.deleteTestEntitlement, hok]

/-- Witness of C19 on the sample client: deleting the cached entitlement 10 on
the sample API, which accepts the call, and on the failing API. -/
theorem deleteTestEntitlement_remote_first_witness :
    (EntitlementManager.deleteTestEntitlement sampleRemote sampleClient
        (Resolvable.id "10")).client.entitlements.get "10" = none
    ∧ (EntitlementManager.deleteTestEntitlement sampleFailingRemote sampleClient
        (Resolvable.id "10")).outcome = Except.error (JSError.apiError "503")
    ∧ (EntitlementManager.deleteTestEntitlement sampleFailingRemote sampleClient
        (Resolvable.id "10")).client = sampleClient :=
  have hok := ((deleteTestEntitlement_remote_first sampleRemote sampleClient
    (Resolvable.id "10")).2.2 rfl).2.1 "10" rfl
  have herr := (deleteTestEntitlement_remote_first sampleFailingRemote sampleClient
    (Resolvable.id "10")).2.1 (JSError.apiError "503") rfl
  ⟨hok.1, herr.1, herr.2⟩

/-- Counterexample to C20 as stated: the sample client caches the entitlement 10,
not consumed; after a successful consume the store still holds the same
instance under 10, and it is still not consumed. -/
theorem consume_leaves_cached_entitlement :
    (EntitlementManager.consume sampleRemote sampleClient (Resolvable.id "10")).outcome
      = Except.ok ()
    ∧ sampleClient.entitlements.get "10" = some 0
    ∧ (EntitlementManager.consume sampleRemote sampleClient
        (Resolvable.id "10")).client.entitlements.get "10" = some 0
    ∧ ((EntitlementManager.consume sampleRemote sampleClient
        (Resolvable.id "10")).client.entitlementObjs[0]?).map Entitlement.consumed
      = some false :=
  ⟨rfl, rfl, rfl, rfl⟩

/-- Claim C20, amended. `EntitlementManager.consume` issues exactly one remote
call, the consume of the resolved id, and makes no local change, whether the
call succeeds or fails: the client state, with the cached entitlement and its
`consumed` field, is what it was, and the outcome is that of the call. -/
theorem consume_makes_no_local_change (R : Remote) (client : Client)
    (entitlement : Resolvable) :
    (EntitlementManager.consume R client entitlement).client = client
    ∧ (EntitlementManager.consume R client entitlement).requests
        = [ApiRequest.consumeEntitlement (EntitlementManager.resolveId client entitlement)]
    ∧ (EntitlementManager.consume R client entitlement).outcome
        = R.consumeEntitlement (EntitlementManager.resolveId client entitlement) := by
  cases h : R.consumeEntitlement (EntitlementManager.resolveId client entitlement) <;>
    simp [EntitlementManager.consume, h]

/-! ## Guards of `SubscriptionManager.fetch` -/

/-- Claim C21. `SubscriptionManager.fetch` rejects with the TypeError
SUBSCRIPTION_FETCH_SKU_REQUIRED, having issued no remote call, if and only if
its argument is not an options object (a string, a subscription instance,
nothing) or is an options object without a truthy `sku`; in that case the client
state is unchanged. With a truthy `sku` that resolves to no SKU id it rejects
with the TypeError INVALID_TYPE, issues no remote call and leaves the client
state unchanged. -/
theorem subscriptionFetch_sku_guards (K : Constants) (R : Remote) (client : Client)
    (arg : FetchArgument FetchSubscriptionsOptions) :
    (((SubscriptionManager.fetch K R client arg).outcome
          = Except.error (JSError.typeError "SUBSCRIPTION_FETCH_SKU_REQUIRED")
        ∧ (SubscriptionManager.fetch K R client arg).requests = [])
      ↔ ∀ o, arg = FetchArgument.options o → o.sku.filter Resolvable.truthy = none)
    ∧ ((∀ o, arg = FetchArgument.options o → o.sku.filter Resolvable.truthy = none) →
        (SubscriptionManager.fetch K R client arg).client = client)
    ∧ (∀ o sku, arg = FetchArgument.options o → o.sku.filter Resolvable.truthy = some sku →
        (SKUManager.resolveId client sku).filter (fun s => s != "") = none →
        (SubscriptionManager.fetch K R client arg).outcome
            = Except.error (JSError.typeError "INVALID_TYPE")
        ∧ (SubscriptionManager.fetch K R client arg).requests = []
        ∧ (SubscriptionManager.fetch K R client arg).client = client) := by
  refine ⟨?_, ?_, ?_⟩
  · cases arg with
    | undefined => simp [SubscriptionManager.fetch]
    | id s => simp [SubscriptionManager.fetch]
    | «instance» r => simp [SubscriptionManager.fetch]
    | options o =>
      cases hs : o.sku.filter Resolvable.truthy with
      | none =>
        constructor
        · intro _ o2 h
          cases h
          exact hs
        · intro _
          simp only [SubscriptionManager.fetch, hs]
          exact ⟨trivial, trivial⟩
      | some sku =>
        constructor
        · rintro ⟨hout, hreq⟩
          exfalso
          simp only [SubscriptionManager.fetch, hs] at hout hreq
          cases hk : (SKUManager.resolveId client sku).filter (fun s => s != "") with
          | none =>
            simp only [hk] at hout
            injection hout with hout
            injection hout with hout
            exact absurd hout (by decide)
          | some skuId =>
            cases hi : (o.id.bind (SubscriptionManager.resolveId client)).filter
                (fun s => s != "") with
            | none =>
              cases hr : R.listSubscriptions skuId
                { before := o.before, after := o.after, limit := o.limit } with
              | ok l =>
                simp only [hk, hi, hr] at hreq
                cases hreq
              | error e =>
                simp only [hk, hi, hr] at hreq
                cases hreq
            | some id =>
              cases hc : (if o.force != some true then
                  Heap.lookup client.subscriptionObjs client.subscriptions id else none) with
              | some p =>
                obtain ⟨r, x⟩ := p
                simp only [hk, hi, hc] at hout
                cases hout
              | none =>
                cases hr : R.getSubscription skuId id with
                | ok d =>
                  simp only [hk, hi, hc, hr] at hreq
                  cases hreq
                | error e =>
                  simp only [hk, hi, hc, hr] at hreq
                  cases hreq
        · intro h
          have h2 := h o rfl
          rw [hs] at h2
          cases h2
  · intro h
    cases arg with
    | undefined => rfl
    | id s => rfl
    | «instance» r => rfl
    | options o => simp [SubscriptionManager.fetch, h o rfl]
  · intro o sku harg hs hk
    subst harg
    simp [SubscriptionManager.fetch, hs, hk]

/-- Witness of C21 on the sample client: a fetch by a bare id string, a fetch
with options that name no SKU, and a fetch whose `sku` is not a SKU. -/
theorem subscriptionFetch_sku_guards_witness :
    (SubscriptionManager.fetch sampleConstants sampleRemote sampleClient
        (FetchArgument.id "20")).outcome
      = Except.error (JSError.typeError "SUBSCRIPTION_FETCH_SKU_REQUIRED")
    ∧ (SubscriptionManager.fetch sampleConstants sampleRemote sampleClient
        (FetchArgument.options noSubscriptionOptions)).requests = []
    ∧ (SubscriptionManager.fetch sampleConstants sampleRemote sampleClient
        (FetchArgument.options { noSubscriptionOptions with sku := some Resolvable.other })).outcome
      = Except.error (JSError.typeError "INVALID_TYPE") :=
  ⟨((subscriptionFetch_sku_guards sampleConstants sampleRemote sampleClient
      (FetchArgument.id "20")).1.2 (fun _ h => by cases h)).1,
   ((subscriptionFetch_sku_guards sampleConstants sampleRemote sampleClient
      (FetchArgument.options noSubscriptionOptions)).1.2
      (fun o h => by cases h; rfl)).2,
   ((subscriptionFetch_sku_guards sampleConstants sampleRemote sampleClient
      (FetchArgument.options { noSubscriptionOptions with sku := some Resolvable.other })).2.2
      _ Resolvable.other rfl rfl rfl).1⟩

/-! ## Clone isolation and identity of the stored instance -/

/-- On a collection whose keys are distinct, a key that is present has exactly
one entry. -/
theorem JSMap.filter_key_of_nodup {κ ν : Type} [DecidableEq κ] (m : JSMap κ ν)
    (hn : (m.map Prod.fst).Nodup) {k : κ} {v : ν} (hg : m.get k = some v) :
    m.filter (fun p => p.1 = k) = [(k, v)] := by
  induction m with
  | nil => cases hg
  | cons p t ih =>
    obtain ⟨k2, v2⟩ := p
    simp only [List.map_cons, List.nodup_cons] at hn
    by_cases hk : k2 = k
    · subst hk
      simp only [JSMap.get, if_true, Option.some.injEq] at hg
      subst hg
      have ht : t.filter (fun p => p.1 = k2) = [] := by
        rw [List.filter_eq_nil_iff]
        intro q hq hq2
        have hq3 : q.1 = k2 := by simpa using hq2
        exact hn.1 (hq3 ▸ List.mem_map_of_mem Prod.fst hq)
      simp [List.filter_cons, ht]
    · simp only [JSMap.get, if_neg hk] at hg
      simp [List.filter_cons, hk, ih hn.2 hg]

/-- The update `JSMap.set` keeps the keys distinct. -/
theorem JSMap.keys_set_nodup {κ ν : Type} [DecidableEq κ] (m : JSMap κ ν) (k : κ) (v : ν)
    (hn : (m.map Prod.fst).Nodup) : ((m.set k v).map Prod.fst).Nodup := by
  have hkeys : ∀ (m : JSMap κ ν) (x : κ), x ∈ (m.set k v).map Prod.fst →
      x = k ∨ x ∈ m.map Prod.fst := by
    intro m
    induction m with
    | nil =>
      intro x hx
      simp only [JSMap.set, List.map_cons, List.map_nil, List.mem_singleton] at hx
      exact Or.inl hx
    | cons p t ih =>
      obtain ⟨k2, v2⟩ := p
      intro x hx
      by_cases hk : k2 = k
      · simp only [JSMap.set, if_pos hk, List.map_cons, List.mem_cons] at hx
        simp only [List.map_cons, List.mem_cons]
        exact Or.inr hx
      · simp only [JSMap.set, if_neg hk, List.map_cons, List.mem_cons] at hx
        simp only [List.map_cons, List.mem_cons]
        rcases hx with hx | hx
        · exact Or.inr (Or.inl hx)
        · rcases ih x hx with h | h
          · exact Or.inl h
          · exact Or.inr (Or.inr h)
  induction m with
  | nil => simp [JSMap.set]
  | cons p t ih =>
    obtain ⟨k2, v2⟩ := p
    simp only [List.map_cons, List.nodup_cons] at hn
    by_cases hk : k2 = k
    · simp only [JSMap.set, if_pos hk, List.map_cons, List.nodup_cons]
      exact hn
    · simp only [JSMap.set, if_neg hk, List.map_cons, List.nodup_cons]
      refine ⟨?_, ih hn.2⟩
      intro hmem
      rcases hkeys t k2 hmem with h | h
      · exact hk h
      · exact hn.1 h

/-- The upsert keeps the keys of the cache distinct. -/
theorem CachedManager._add_keys_nodup {α δ : Type} (construct : δ → α) (patch : α → δ → α)
    (key : δ → Snowflake) (h : Heap α) (cache : Collection) (data : δ)
    (hn : (cache.map Prod.fst).Nodup) :
    ((CachedManager._add construct patch key h cache data).2.1.map Prod.fst).Nodup := by
  cases hl : Heap.lookup h cache (key data) with
  | none =>
    rw [CachedManager._add_absent _ _ _ _ _ _ hl]
    exact JSMap.keys_set_nodup _ _ _ hn
  | some p =>
    obtain ⟨r, x⟩ := p
    simp only [CachedManager._add, hl]
    exact hn

/-- The handler `SubscriptionCreateAction.handle` on a cached id: the cached
instance is patched in place. -/
theorem subscriptionCreate_present (K : Constants) (client : Client)
    (data : SubscriptionData) {r : Ref} {o : Subscription}
    (hk : client.subscriptions.get data.id = some r)
    (hr : client.subscriptionObjs[r]? = some o) :
    SubscriptionCreateAction.handle K client data
      = (({ client with
            subscriptionObjs := Heap.mutate client.subscriptionObjs r
              (fun x => Subscription._patch K x data) } : Client).emit
          (Event.subscriptionCreate r), r) := by
  have hp := CachedManager._add_present (Subscription.new K) (Subscription._patch K)
    SubscriptionData.id client.subscriptionObjs client.subscriptions data hk hr
  unfold SubscriptionCreateAction.handle
  simp only [hp]

/-- What the handler `SubscriptionCreateAction.handle` leaves: the cache maps the
id to the instance it returns, the heap holds that instance, and distinct keys
stay distinct. -/
theorem subscriptionCreate_stored (K : Constants) (client : Client)
    (data : SubscriptionData) :
    (SubscriptionCreateAction.handle K client data).1.subscriptions.get data.id
        = some (SubscriptionCreateAction.handle K client data).2
    ∧ (∃ o, (SubscriptionCreateAction.handle K client data).1.subscriptionObjs[
          (SubscriptionCreateAction.handle K client data).2]? = some o)
    ∧ ((client.subscriptions.map Prod.fst).Nodup →
        ((SubscriptionCreateAction.handle K client data).1.subscriptions.map Prod.fst).Nodup) := by
  unfold SubscriptionCreateAction.handle
  exact ⟨(CachedManager._add_get _ _ _ _ _ _).1, (CachedManager._add_get _ _ _ _ _ _).2,
    fun hn => CachedManager._add_keys_nodup _ _ _ _ _ _ hn⟩

/-- The handler `EntitlementUpdateAction.handle` on a cached id: the snapshot is the
next free reference and the cached instance is patched in place. -/
theorem entitlementUpdate_present (K : Constants) (client : Client) (data : EntitlementData)
    {r : Ref} {o : Entitlement} (hk : client.entitlements.get data.id = some r)
    (hr : client.entitlementObjs[r]? = some o) :
    EntitlementUpdateAction.handle K client data
      = (({ client with
            entitlementObjs := Heap.mutate (client.entitlementObjs ++ [o]) r
              (fun x => Entitlement._patch K x data) } : Client).emit
          (Event.entitlementUpdate (some client.entitlementObjs.length) r),
        some client.entitlementObjs.length, r) := by
  have hl := Heap.lookup_eq_some_of_get _ _ hk hr
  have hr2 : (client.entitlementObjs ++ [o])[r]? = some o := by
    rw [List.getElem?_append_left (Heap.lt_length_of_getElem? _ hr)]; exact hr
  have hp := CachedManager._add_present (Entitlement.new K) (Entitlement._patch K) EntitlementData.id
    (client.entitlementObjs ++ [o]) client.entitlements data hk hr2
  unfold EntitlementUpdateAction.handle
  simp only [hl, Entitlement._clone, Base._clone, Heap.alloc, hp]

/-- What the handler `EntitlementUpdateAction.handle` leaves: the cache maps the id
to the instance it returns, the heap holds that instance, and distinct keys stay
distinct. -/
theorem entitlementUpdate_stored (K : Constants) (client : Client) (data : EntitlementData) :
    (EntitlementUpdateAction.handle K client data).1.entitlements.get data.id
        = some (EntitlementUpdateAction.handle K client data).2.2
    ∧ (∃ o, (EntitlementUpdateAction.handle K client data).1.entitlementObjs[
          (EntitlementUpdateAction.handle K client data).2.2]? = some o)
    ∧ ((client.entitlements.map Prod.fst).Nodup →
        ((EntitlementUpdateAction.handle K client data).1.entitlements.map Prod.fst).Nodup) := by
  unfold EntitlementUpdateAction.handle
  exact ⟨(CachedManager._add_get _ _ _ _ _ _).1, (CachedManager._add_get _ _ _ _ _ _).2,
    fun hn => CachedManager._add_keys_nodup _ _ _ _ _ _ hn⟩


/-- The handler `SubscriptionUpdateAction.handle` on a cached id: the snapshot is the
next free reference and the cached instance is patched in place. -/
theorem subscriptionUpdate_present (K : Constants) (client : Client) (data : SubscriptionData)
    {r : Ref} {o : Subscription} (hk : client.subscriptions.get data.id = some r)
    (hr : client.subscriptionObjs[r]? = some o) :
    SubscriptionUpdateAction.handle K client data
      = (({ client with
            subscriptionObjs := Heap.mutate (client.subscriptionObjs ++ [o]) r
              (fun x => Subscription._patch K x data) } : Client).emit
          (Event.subscriptionUpdate (some client.subscriptionObjs.length) r),
        some client.subscriptionObjs.length, r) := by
  have hl := Heap.lookup_eq_some_of_get _ _ hk hr
  have hr2 : (client.subscriptionObjs ++ [o])[r]? = some o := by
    rw [List.getElem?_append_left (Heap.lt_length_of_getElem? _ hr)]; exact hr
  have hp := CachedManager._add_present (Subscription.new K) (Subscription._patch K) SubscriptionData.id
    (client.subscriptionObjs ++ [o]) client.subscriptions data hk hr2
  unfold SubscriptionUpdateAction.handle
  simp only [hl, Subscription._clone, Base._clone, Heap.alloc, hp]

/-- What the handler `SubscriptionUpdateAction.handle` leaves: the cache maps the id
to the instance it returns, the heap holds that instance, and distinct keys stay
distinct. -/
theorem subscriptionUpdate_stored (K : Constants) (client : Client) (data : SubscriptionData) :
    (SubscriptionUpdateAction.handle K client data).1.subscriptions.get data.id
        = some (SubscriptionUpdateAction.handle K client data).2.2
    ∧ (∃ o, (SubscriptionUpdateAction.handle K client data).1.subscriptionObjs[
          (SubscriptionUpdateAction.handle K client data).2.2]? = some o)
    ∧ ((client.subscriptions.map Prod.fst).Nodup →
        ((SubscriptionUpdateAction.handle K client data).1.subscriptions.map Prod.fst).Nodup) := by
  unfold SubscriptionUpdateAction.handle
  exact ⟨(CachedManager._add_get _ _ _ _ _ _).1, (CachedManager._add_get _ _ _ _ _ _).2,
    fun hn => CachedManager._add_keys_nodup _ _ _ _ _ _ hn⟩

/-- Claim C24. Identity stability of the upsert through the handlers: when two
SubscriptionCreate events (or two EntitlementUpdate events, or two
SubscriptionUpdate events) with the same id are handled one after the other, the
second event yields the instance the first one yielded; after the second event
the cache maps the id to that instance and, its keys being distinct, holds
exactly one entry for the id; every field of the instance that a payload sets
has the value the second payload gives it (a date built from the payload's
string, the status and the type looked up in their tables, null or false for an
absent optional field), on the identifier the instance had (and, on a
subscription, the deletion mark it had, which a payload does not set). -/
theorem upsert_identity_stable (K : Constants) (client : Client)
    (s1 s2 : SubscriptionData) (e1 e2 : EntitlementData)
    (hs : s2.id = s1.id) (he : e2.id = e1.id) :
    ((SubscriptionCreateAction.handle K (SubscriptionCreateAction.handle K client s1).1 s2).2 = (SubscriptionCreateAction.handle K client s1).2
        ∧ (SubscriptionCreateAction.handle K (SubscriptionCreateAction.handle K client s1).1 s2).1.subscriptions.get s1.id = some (SubscriptionCreateAction.handle K client s1).2
        ∧ ((client.subscriptions.map Prod.fst).Nodup →
            (SubscriptionCreateAction.handle K (SubscriptionCreateAction.handle K client s1).1 s2).1.subscriptions.filter (fun p => p.1 = s1.id) = [(s1.id, (SubscriptionCreateAction.handle K client s1).2)])
        ∧ ∃ o1, (SubscriptionCreateAction.handle K client s1).1.subscriptionObjs[(SubscriptionCreateAction.handle K client s1).2]? = some o1
            ∧ (SubscriptionCreateAction.handle K (SubscriptionCreateAction.handle K client s1).1 s2).1.subscriptionObjs[(SubscriptionCreateAction.handle K client s1).2]?
              = some
                { id := o1.id, userId := s2.user_id, skuIds := s2.sku_ids,
                  entitlementIds := s2.entitlement_ids,
                  currentPeriodStart := ⟨s2.current_period_start⟩,
                  currentPeriodEnd := ⟨s2.current_period_end⟩,
                  status := s2.status.bind K.SubscriptionStatuses,
                  renewalSkuIds := s2.renewal_sku_ids,
                  canceledAt := if truthy s2.canceled_at then some ⟨s2.canceled_at⟩ else none,
                  country := s2.country, deleted := o1.deleted })
    ∧ ((EntitlementUpdateAction.handle K (EntitlementUpdateAction.handle K client e1).1 e2).2.2 = (EntitlementUpdateAction.handle K client e1).2.2
        ∧ (EntitlementUpdateAction.handle K (EntitlementUpdateAction.handle K client e1).1 e2).1.entitlements.get e1.id = some (EntitlementUpdateAction.handle K client e1).2.2
        ∧ ((client.entitlements.map Prod.fst).Nodup →
            (EntitlementUpdateAction.handle K (EntitlementUpdateAction.handle K client e1).1 e2).1.entitlements.filter (fun p => p.1 = e1.id) = [(e1.id, (EntitlementUpdateAction.handle K client e1).2.2)])
        ∧ ∃ o1, (EntitlementUpdateAction.handle K client e1).1.entitlementObjs[(EntitlementUpdateAction.handle K client e1).2.2]? = some o1
            ∧ (EntitlementUpdateAction.handle K (EntitlementUpdateAction.handle K client e1).1 e2).1.entitlementObjs[(EntitlementUpdateAction.handle K client e1).2.2]?
              = some
                { id := o1.id, skuId := e2.sku_id, applicationId := e2.application_id,
                  userId := e2.user_id, promotionId := e2.promotion_id,
                  type := e2.type.bind K.EntitlementTypes, deleted := e2.deleted.getD false,
                  guildId := e2.guild_id,
                  startsAt := if truthy e2.starts_at then some ⟨e2.starts_at⟩ else none,
                  endsAt := if truthy e2.ends_at then some ⟨e2.ends_at⟩ else none,
                  consumed := e2.consumed.getD false })
    ∧ ((SubscriptionUpdateAction.handle K (SubscriptionUpdateAction.handle K client s1).1 s2).2.2 = (SubscriptionUpdateAction.handle K client s1).2.2
        ∧ (SubscriptionUpdateAction.handle K (SubscriptionUpdateAction.handle K client s1).1 s2).1.subscriptions.get s1.id = some (SubscriptionUpdateAction.handle K client s1).2.2
        ∧ ((client.subscriptions.map Prod.fst).Nodup →
            (SubscriptionUpdateAction.handle K (SubscriptionUpdateAction.handle K client s1).1 s2).1.subscriptions.filter (fun p => p.1 = s1.id) = [(s1.id, (SubscriptionUpdateAction.handle K client s1).2.2)])
        ∧ ∃ o1, (SubscriptionUpdateAction.handle K client s1).1.subscriptionObjs[(SubscriptionUpdateAction.handle K client s1).2.2]? = some o1
            ∧ (SubscriptionUpdateAction.handle K (SubscriptionUpdateAction.handle K client s1).1 s2).1.subscriptionObjs[(SubscriptionUpdateAction.handle K client s1).2.2]?
              = some
                { id := o1.id, userId := s2.user_id, skuIds := s2.sku_ids,
                  entitlementIds := s2.entitlement_ids,
                  currentPeriodStart := ⟨s2.current_period_start⟩,
                  currentPeriodEnd := ⟨s2.current_period_end⟩,
                  status := s2.status.bind K.SubscriptionStatuses,
                  renewalSkuIds := s2.renewal_sku_ids,
                  canceledAt := if truthy s2.canceled_at then some ⟨s2.canceled_at⟩ else none,
                  country := s2.country, deleted := o1.deleted }) := by
  refine ⟨?_, ?_, ?_⟩
  · obtain ⟨h2, ⟨o1, h1⟩, hnd⟩ := subscriptionCreate_stored K client s1
    have h2b : (SubscriptionCreateAction.handle K client s1).1.subscriptions.get s2.id
        = some (SubscriptionCreateAction.handle K client s1).2 := by
      rw [hs]; exact h2
    rw [subscriptionCreate_present K _ s2 h2b h1]
    refine ⟨rfl, h2, fun hn => JSMap.filter_key_of_nodup _ (hnd hn) h2, o1, h1, ?_⟩
    exact Heap.getElem?_mutate_self _ _ h1
  · obtain ⟨h2, ⟨o1, h1⟩, hnd⟩ := entitlementUpdate_stored K client e1
    have hlt := Heap.lt_length_of_getElem? _ h1
    have h1b : ((EntitlementUpdateAction.handle K client e1).1.entitlementObjs ++ [o1])[
        (EntitlementUpdateAction.handle K client e1).2.2]? = some o1 := by
      rw [List.getElem?_append_left hlt]; exact h1
    have h2b : (EntitlementUpdateAction.handle K client e1).1.entitlements.get e2.id
        = some (EntitlementUpdateAction.handle K client e1).2.2 := by
      rw [he]; exact h2
    rw [entitlementUpdate_present K _ e2 h2b h1]
    refine ⟨rfl, h2, fun hn => JSMap.filter_key_of_nodup _ (hnd hn) h2, o1, h1, ?_⟩
    exact Heap.getElem?_mutate_self _ _ h1b
  · obtain ⟨h2, ⟨o1, h1⟩, hnd⟩ := subscriptionUpdate_stored K client s1
    have hlt := Heap.lt_length_of_getElem? _ h1
    have h1b : ((SubscriptionUpdateAction.handle K client s1).1.subscriptionObjs ++ [o1])[
        (SubscriptionUpdateAction.handle K client s1).2.2]? = some o1 := by
      rw [List.getElem?_append_left hlt]; exact h1
    have h2b : (SubscriptionUpdateAction.handle K client s1).1.subscriptions.get s2.id
        = some (SubscriptionUpdateAction.handle K client s1).2.2 := by
      rw [hs]; exact h2
    rw [subscriptionUpdate_present K _ s2 h2b h1]
    refine ⟨rfl, h2, fun hn => JSMap.filter_key_of_nodup _ (hnd hn) h2, o1, h1, ?_⟩
    exact Heap.getElem?_mutate_self _ _ h1b

/-- Witness of C24: the subscription payload 20 is handled twice by
SubscriptionCreate on an empty client, the second time with a country, and the
entitlement payload 10 twice by EntitlementUpdate on the sample client, the
second time consumed. -/
theorem upsert_identity_stable_witness :
    (SubscriptionCreateAction.handle sampleConstants
        (SubscriptionCreateAction.handle sampleConstants Client.empty sampleSubscriptionData).1
        { sampleSubscriptionData with country := some "FR" }).2 = 0
    ∧ (SubscriptionCreateAction.handle sampleConstants
        (SubscriptionCreateAction.handle sampleConstants Client.empty sampleSubscriptionData).1
        { sampleSubscriptionData with country := some "FR" }).1.subscriptions = [("20", 0)]
    ∧ (SubscriptionCreateAction.handle sampleConstants
        (SubscriptionCreateAction.handle sampleConstants Client.empty sampleSubscriptionData).1
        { sampleSubscriptionData with country := some "FR" }).1.subscriptionObjs
      = [{ id := "20", userId := some "5", skuIds := some ["7"], entitlementIds := some ["10"],
           currentPeriodStart := ⟨some "2024-01-01T00:00:00Z"⟩,
           currentPeriodEnd := ⟨some "2024-02-01T00:00:00Z"⟩, status := some "ACTIVE",
           renewalSkuIds := none, canceledAt := none, country := some "FR", deleted := none }]
    ∧ (EntitlementUpdateAction.handle sampleConstants
        (EntitlementUpdateAction.handle sampleConstants sampleClient sampleEntitlementData).1
        { sampleEntitlementData with consumed := some true }).2.2
      = (EntitlementUpdateAction.handle sampleConstants sampleClient sampleEntitlementData).2.2 :=
  have h := upsert_identity_stable sampleConstants Client.empty sampleSubscriptionData
    { sampleSubscriptionData with country := some "FR" } sampleEntitlementData
    { sampleEntitlementData with consumed := some true } rfl rfl
  ⟨h.1.1, by decide, by decide,
    (upsert_identity_stable sampleConstants sampleClient sampleSubscriptionData
      sampleSubscriptionData sampleEntitlementData
      { sampleEntitlementData with consumed := some true } rfl rfl).2.1.1⟩

/-! ## Derived accessors -/

/-- With a callback that does not throw, `filter` returns the entries whose
cached object the callback accepts. -/
theorem Collection.filterValues_ok {α : Type} (h : Heap α) (p : α → Bool) (m : Collection) :
    Collection.filterValues h (fun o => Except.ok (p o)) m
      = Except.ok (m.filter (fun e =>
          match h[e.2]? with
          | some o => p o
          | none => false)) := by
  induction m with
  | nil => rfl
  | cons e t ih =>
    obtain ⟨k, r⟩ := e
    cases ho : h[r]? with
    | none => simp [Collection.filterValues, ho, ih, List.filter_cons]
    | some o =>
      cases hp : p o <;> simp [Collection.filterValues, ho, hp, ih, List.filter_cons]

/-- The entries `filter` keeps for the callback `ids.includes(o.id)`: the cached
entries whose object has a listed id. -/
theorem Collection.mem_filter_cached {α : Type} (h : Heap α) (idOf : α → Snowflake)
    (ids : List Snowflake) (m : Collection) (k : Snowflake) (r : Ref) :
    (k, r) ∈ m.filter (fun e =>
        match h[e.2]? with
        | some o => ids.contains (idOf o)
        | none => false)
      ↔ ((k, r) ∈ m ∧ ∃ o, h[r]? = some o ∧ idOf o ∈ ids) := by
  rw [List.mem_filter]
  cases ho : h[r]? with
  | none => simp
  | some o => simp

/-- Claim C23. The derived accessors do not fail on a missing reference:
`Entitlement.guild`, `Entitlement.user` and `Subscription.user` are null when
the identifier is not cached (and the cached object when it is); with `skuIds`
and `entitlementIds` lists of identifiers, `Subscription.skus` and
`Subscription.entitlements` return, in cache order, exactly the cached entries
whose object has a listed id; `Subscription.renewalSkus` always returns, does
the same with a list `renewalSkuIds`, and is empty when `renewalSkuIds` is
null. -/
theorem derived_accessors_total (client : Client) (e : Entitlement) (s : Subscription) :
    ((∀ id, e.guildId = some id → client.guilds.get id = none) →
        Entitlement.guild client e = none)
    ∧ ((∀ id, e.userId = some id → client.users.get id = none) →
        Entitlement.user client e = none)
    ∧ ((∀ id, s.userId = some id → client.users.get id = none) →
        Subscription.user client s = none)
    ∧ (∀ id r, e.guildId = some id → client.guilds.get id = some r →
        Entitlement.guild client e = some r)
    ∧ (∀ id r, e.userId = some id → client.users.get id = some r →
        Entitlement.user client e = some r)
    ∧ (∀ id r, s.userId = some id → client.users.get id = some r →
        Subscription.user client s = some r)
    ∧ (∀ ids, s.skuIds = some ids →
        ∃ c, Subscription.skus client s = Except.ok c
          ∧ c.Sublist client.skus
          ∧ ∀ k r, (k, r) ∈ c ↔
              ((k, r) ∈ client.skus ∧ ∃ o, client.skuObjs[r]? = some o ∧ o.id ∈ ids))
    ∧ (∀ ids, s.entitlementIds = some ids →
        ∃ c, Subscription.entitlements client s = Except.ok c
          ∧ c.Sublist client.entitlements
          ∧ ∀ k r, (k, r) ∈ c ↔
              ((k, r) ∈ client.entitlements ∧ ∃ o, client.entitlementObjs[r]? = some o ∧ o.id ∈ ids))
    ∧ (∀ ids, s.renewalSkuIds = some ids →
        ∃ c, Subscription.renewalSkus client s = Except.ok c
          ∧ c.Sublist client.skus
          ∧ ∀ k r, (k, r) ∈ c ↔
              ((k, r) ∈ client.skus ∧ ∃ o, client.skuObjs[r]? = some o ∧ o.id ∈ ids))
    ∧ (s.renewalSkuIds = none → Subscription.renewalSkus client s = Except.ok [])
    ∧ ∃ c, Subscription.renewalSkus client s = Except.ok c := by
  refine ⟨?_, ?_, ?_, ?_, ?_, ?_, ?_, ?_, ?_, ?_, ?_⟩
  · intro h
    cases hg : e.guildId with
    | none => simp [Entitlement.guild, hg]
    | some id => simp [Entitlement.guild, hg, h id hg]
  · intro h
    cases hg : e.userId with
    | none => simp [Entitlement.user, hg]
    | some id => simp [Entitlement.user, hg, h id hg]
  · intro h
    cases hg : s.userId with
    | none => simp [Subscription.user, hg]
    | some id => simp [Subscription.user, hg, h id hg]
  · intro id r hg hc
    simp [Entitlement.guild, hg, hc]
  · intro id r hg hc
    simp [Entitlement.user, hg, hc]
  · intro id r hg hc
    simp [Subscription.user, hg, hc]
  · intro ids hids
    refine ⟨_, ?_, List.filter_sublist _, fun k r => Collection.mem_filter_cached _ _ _ _ k r⟩
    simp only [Subscription.skus, hids]
    exact Collection.filterValues_ok client.skuObjs (fun o => ids.contains o.id) client.skus
  · intro ids hids
    refine ⟨_, ?_, List.filter_sublist _, fun k r => Collection.mem_filter_cached _ _ _ _ k r⟩
    simp only [Subscription.entitlements, hids]
    exact Collection.filterValues_ok client.entitlementObjs (fun o => ids.contains o.id) client.entitlements
  · intro ids hids
    refine ⟨_, ?_, List.filter_sublist _, fun k r => Collection.mem_filter_cached _ _ _ _ k r⟩
    simp only [Subscription.renewalSkus, hids]
    exact Collection.filterValues_ok client.skuObjs (fun o => ids.contains o.id) client.skus
  · intro hnull
    simp only [Subscription.renewalSkus, hnull]
    rw [Collection.filterValues_ok client.skuObjs (fun _ => false) client.skus]
    congr 1
    rw [List.filter_eq_nil_iff]
    intro a _
    cases client.skuObjs[a.2]? <;> simp
  · cases hr : s.renewalSkuIds with
    | none =>
      simp only [Subscription.renewalSkus, hr]
      exact ⟨_, Collection.filterValues_ok client.skuObjs (fun _ => false) client.skus⟩
    | some ids =>
      simp only [Subscription.renewalSkus, hr]
      exact ⟨_, Collection.filterValues_ok client.skuObjs (fun o => ids.contains o.id)
        client.skus⟩

/-- Witness of C23 on the sample client with the SKUs 7 and 9 cached: the sample
entitlement names no guild, its user 6 is cached, the user 5 of the sample
subscription is not; the subscription lists the cached SKU 7 and, for renewal,
the SKU 8, which is not cached. -/
theorem derived_accessors_total_witness :
    Entitlement.guild sampleSkuClient sampleEntitlement = none
    ∧ Entitlement.user sampleSkuClient sampleEntitlement = some 0
    ∧ Subscription.user sampleSkuClient sampleSubscription = none
    ∧ Subscription.skus sampleSkuClient sampleSubscription = Except.ok [("7", 0)]
    ∧ Subscription.entitlements sampleSkuClient sampleSubscription = Except.ok [("10", 0)]
    ∧ Subscription.renewalSkus sampleSkuClient sampleSubscription = Except.ok []
    ∧ (∃ c, Subscription.skus sampleSkuClient sampleSubscription = Except.ok c
        ∧ c.Sublist sampleSkuClient.skus
        ∧ ∀ k r, (k, r) ∈ c ↔
            ((k, r) ∈ sampleSkuClient.skus
              ∧ ∃ o, sampleSkuClient.skuObjs[r]? = some o ∧ o.id ∈ ["7"])) :=
  ⟨(derived_accessors_total sampleSkuClient sampleEntitlement sampleSubscription).1
      (fun id h => by cases h),
    (derived_accessors_total sampleSkuClient sampleEntitlement sampleSubscription).2.2.2.2.1
      "6" 0 rfl rfl,
    (derived_accessors_total sampleSkuClient sampleEntitlement sampleSubscription).2.2.1
      (fun id h => by cases h; rfl),
    rfl, rfl, rfl,
    (derived_accessors_total sampleSkuClient sampleEntitlement sampleSubscription).2.2.2.2.2.2.1
      ["7"] rfl⟩

/-! ## Select menus -/

/-- Claim C25. The `max_values` a string select menu serializes: once `maxValues`
is set it is `maxValues`, whatever `minValues` is; with `maxValues` never set,
after `setMinValues(n)` it is the number of options when `n` is not zero, and
for `n = 0` it is `undefined`, not the number of options. -/
theorem toJSON_max_values_default (K : Constants) (m : MessageSelectMenu) :
    (∀ x, (MessageSelectMenu.toJSON K (MessageSelectMenu.setMaxValues m x)).max_values = some x)
    ∧ (∀ x n, (MessageSelectMenu.toJSON K
          (MessageSelectMenu.setMinValues (MessageSelectMenu.setMaxValues m x) n)).max_values
        = some x)
    ∧ (∀ n, (MessageSelectMenu.toJSON K
          (MessageSelectMenu.setMinValues { m with maxValues := none } (n + 1))).max_values
        = some m.options.length)
    ∧ (MessageSelectMenu.toJSON K
          (MessageSelectMenu.setMinValues { m with maxValues := none } 0)).max_values = none
    ∧ (MessageSelectMenu.toJSON K
          (MessageSelectMenu.setMinValues { m with maxValues := none } 0)).max_values
        ≠ some m.options.length
    ∧ (MessageSelectMenu.toJSON sampleConstants
          (MessageSelectMenu.setMinValues sampleSelectMenu 0)).max_values = none
    ∧ sampleSelectMenu.options.length = 3 := by
  refine ⟨fun _ => rfl, fun _ _ => rfl, fun n => ?_, rfl, ?_, rfl, rfl⟩
  · simp [MessageSelectMenu.toJSON, MessageSelectMenu.setMinValues, BaseSelectMenu.setMinValues,
      JSNumber.truthy]
  · simp [MessageSelectMenu.toJSON, MessageSelectMenu.setMinValues, BaseSelectMenu.setMinValues,
      JSNumber.truthy]

/-- Claim C26. The property `required` of the object `toJSON` returns after
`setRequired(r)`: on a user and a mentionable select menu it is `r`; on a string,
a role and a channel select menu the object has no property `required`. -/
theorem toJSON_required_after_setRequired (K : Constants) (r : Bool)
    (ms : MessageSelectMenu) (mu : UserSelectMenu) (mr : RoleSelectMenu)
    (mm : MentionableSelectMenu) (mc : ChannelSelectMenu) :
    (UserSelectMenu.toJSON K (UserSelectMenu.setRequired mu (some r))).required = some r
    ∧ (MentionableSelectMenu.toJSON K (MentionableSelectMenu.setRequired mm (some r))).required
        = some r
    ∧ (MessageSelectMenu.toJSON K (MessageSelectMenu.setRequired ms (some r))).required = none
    ∧ (RoleSelectMenu.toJSON K (RoleSelectMenu.setRequired mr (some r))).required = none
    ∧ (ChannelSelectMenu.toJSON K (ChannelSelectMenu.setRequired mc (some r))).required = none
    ∧ (RoleSelectMenu.setRequired mr (some r)).required = r
    ∧ (RoleSelectMenu.toJSON K (RoleSelectMenu.setRequired RoleSelectMenu.new (some false))).required
        ≠ some false :=
  ⟨rfl, rfl, rfl, rfl, rfl, rfl, nofun⟩

/-- Claim C27. After `setChannelTypes(t1, ..., tn)` the field `channelTypes` of a
channel select menu holds one element, the array of the given types, and
`toJSON` serializes that; it is never the flat list of the given types. -/
theorem setChannelTypes_nests_types (K : Constants) (m : ChannelSelectMenu)
    (types : List ChannelType) :
    (ChannelSelectMenu.setChannelTypes m (types.map Nested.item)).channelTypes
        = [Nested.array (types.map Nested.item)]
    ∧ (ChannelSelectMenu.toJSON K
          (ChannelSelectMenu.setChannelTypes m (types.map Nested.item))).channel_types
        = some [Nested.array (types.map Nested.item)]
    ∧ (ChannelSelectMenu.setChannelTypes m (types.map Nested.item)).channelTypes
        ≠ types.map Nested.item
    ∧ (ChannelSelectMenu.setChannelTypes ChannelSelectMenu.new
          [Nested.item "GUILD_TEXT", Nested.item "GUILD_VOICE"]).channelTypes
        = [Nested.array [Nested.item "GUILD_TEXT", Nested.item "GUILD_VOICE"]] := by
  have h : (ChannelSelectMenu.setChannelTypes m (types.map Nested.item)).channelTypes
      = [Nested.array (types.map Nested.item)] := by
    simp [ChannelSelectMenu.setChannelTypes, ChannelSelectMenu.spliceChannelTypes,
      JSArray.splice]
  refine ⟨h, ?_, ?_, rfl⟩
  · simp [ChannelSelectMenu.toJSON, h]
  · rw [h]
    cases types with
    | nil => simp
    | cons t rest => simp

/-- Claim C28. `addDefaultValues` on a user, role, mentionable and channel select
menu appends its arguments as they are: given the array of two values it appends
one element, that array, and given the two values it appends the two values, so
the two calls leave different `defaultValues`; `setDefaultValues` flattens its
arguments, and the two calls leave the same `defaultValues`. -/
theorem addDefaultValues_keeps_arrays (a b : SelectMenuDefaultValue)
    (mu : UserSelectMenu) (mr : RoleSelectMenu) (mm : MentionableSelectMenu)
    (mc : ChannelSelectMenu) :
    ((UserSelectMenu.addDefaultValues mu [Nested.array [Nested.item a, Nested.item b]]).defaultValues
          = mu.defaultValues ++ [Nested.array [Nested.item a, Nested.item b]]
        ∧ (UserSelectMenu.addDefaultValues mu [Nested.item a, Nested.item b]).defaultValues
          = mu.defaultValues ++ [Nested.item a, Nested.item b]
        ∧ (UserSelectMenu.addDefaultValues mu [Nested.array [Nested.item a, Nested.item b]]).defaultValues
          ≠ (UserSelectMenu.addDefaultValues mu [Nested.item a, Nested.item b]).defaultValues
        ∧ (UserSelectMenu.setDefaultValues mu [Nested.array [Nested.item a, Nested.item b]]).defaultValues
          = [Nested.item a, Nested.item b]
        ∧ (UserSelectMenu.setDefaultValues mu [Nested.item a, Nested.item b]).defaultValues
          = [Nested.item a, Nested.item b])
    ∧ ((RoleSelectMenu.addDefaultValues mr [Nested.array [Nested.item a, Nested.item b]]).defaultValues
          = mr.defaultValues ++ [Nested.array [Nested.item a, Nested.item b]]
        ∧ (RoleSelectMenu.addDefaultValues mr [Nested.item a, Nested.item b]).defaultValues
          = mr.defaultValues ++ [Nested.item a, Nested.item b]
        ∧ (RoleSelectMenu.addDefaultValues mr [Nested.array [Nested.item a, Nested.item b]]).defaultValues
          ≠ (RoleSelectMenu.addDefaultValues mr [Nested.item a, Nested.item b]).defaultValues
        ∧ (RoleSelectMenu.setDefaultValues mr [Nested.array [Nested.item a, Nested.item b]]).defaultValues
          = [Nested.item a, Nested.item b]
        ∧ (RoleSelectMenu.setDefaultValues mr [Nested.item a, Nested.item b]).defaultValues
          = [Nested.item a, Nested.item b])
    ∧ ((MentionableSelectMenu.addDefaultValues mm [Nested.array [Nested.item a, Nested.item b]]).defaultValues
          = mm.defaultValues ++ [Nested.array [Nested.item a, Nested.item b]]
        ∧ (MentionableSelectMenu.addDefaultValues mm [Nested.item a, Nested.item b]).defaultValues
          = mm.defaultValues ++ [Nested.item a, Nested.item b]
        ∧ (MentionableSelectMenu.addDefaultValues mm [Nested.array [Nested.item a, Nested.item b]]).defaultValues
          ≠ (MentionableSelectMenu.addDefaultValues mm [Nested.item a, Nested.item b]).defaultValues
        ∧ (MentionableSelectMenu.setDefaultValues mm [Nested.array [Nested.item a, Nested.item b]]).defaultValues
          = [Nested.item a, Nested.item b]
        ∧ (MentionableSelectMenu.setDefaultValues mm [Nested.item a, Nested.item b]).defaultValues
          = [Nested.item a, Nested.item b])
    ∧ ((ChannelSelectMenu.addDefaultValues mc [Nested.array [Nested.item a, Nested.item b]]).defaultValues
          = mc.defaultValues ++ [Nested.array [Nested.item a, Nested.item b]]
        ∧ (ChannelSelectMenu.addDefaultValues mc [Nested.item a, Nested.item b]).defaultValues
          = mc.defaultValues ++ [Nested.item a, Nested.item b]
        ∧ (ChannelSelectMenu.addDefaultValues mc [Nested.array [Nested.item a, Nested.item b]]).defaultValues
          ≠ (ChannelSelectMenu.addDefaultValues mc [Nested.item a, Nested.item b]).defaultValues
        ∧ (ChannelSelectMenu.setDefaultValues mc [Nested.array [Nested.item a, Nested.item b]]).defaultValues
          = [Nested.item a, Nested.item b]
        ∧ (ChannelSelectMenu.setDefaultValues mc [Nested.item a, Nested.item b]).defaultValues
          = [Nested.item a, Nested.item b]) := by
  refine ⟨?_, ?_, ?_, ?_⟩
  · refine ⟨rfl, rfl, ?_, ?_, ?_⟩
    · simp [UserSelectMenu.addDefaultValues]
    · simp [UserSelectMenu.setDefaultValues, UserSelectMenu.spliceDefaultValues, JSArray.splice,
        Nested.flatAll, Nested.flat]
    · simp [UserSelectMenu.setDefaultValues, UserSelectMenu.spliceDefaultValues, JSArray.splice,
        Nested.flatAll, Nested.flat]
  · refine ⟨rfl, rfl, ?_, ?_, ?_⟩
    · simp [RoleSelectMenu.addDefaultValues]
    · simp [RoleSelectMenu.setDefaultValues, RoleSelectMenu.spliceDefaultValues, JSArray.splice,
        Nested.flatAll, Nested.flat]
    · simp [RoleSelectMenu.setDefaultValues, RoleSelectMenu.spliceDefaultValues, JSArray.splice,
        Nested.flatAll, Nested.flat]
  · refine ⟨rfl, rfl, ?_, ?_, ?_⟩
    · simp [MentionableSelectMenu.addDefaultValues]
    · simp [MentionableSelectMenu.setDefaultValues, MentionableSelectMenu.spliceDefaultValues, JSArray.splice,
        Nested.flatAll, Nested.flat]
    · simp [MentionableSelectMenu.setDefaultValues, MentionableSelectMenu.spliceDefaultValues, JSArray.splice,
        Nested.flatAll, Nested.flat]
  · refine ⟨rfl, rfl, ?_, ?_, ?_⟩
    · simp [ChannelSelectMenu.addDefaultValues]
    · simp [ChannelSelectMenu.setDefaultValues, ChannelSelectMenu.spliceDefaultValues, JSArray.splice,
        Nested.flatAll, Nested.flat]
    · simp [ChannelSelectMenu.setDefaultValues, ChannelSelectMenu.spliceDefaultValues, JSArray.splice,
        Nested.flatAll, Nested.flat]

/-! ## Media galleries -/

/-- The method `create` of the component classes, called without a client on data
that has no property `type`, throws. -/
theorem BaseMessageComponent.create_absent_type {ρ : Type} (K : Constants)
    (E : ComponentClasses ρ) (fields : ComponentFields) :
    BaseMessageComponent.create K E (ComponentData.mk TypeResolvable.absent fields) false
      = ([], Except.error (JSError.typeError "INVALID_TYPE")) := by
  have h : switchCase K (resolveSwitchType K TypeResolvable.absent) = none := rfl
  rw [BaseMessageComponent.create]
  simp only [h]
  rfl

/-- Claim C29. `spliceItems` and `setItems` of a media gallery hand the given
items to `create` of the component classes, which throws the TypeError
INVALID_TYPE on the first of them, for an item has no property `type`: the call
raises and the gallery keeps its items. `addItems` resolves the same items to
gallery items, in order. With no item given, `spliceItems` removes the range and
`setItems` empties the gallery. -/
theorem spliceItems_throws_on_items {ρ : Type} (K : Constants) (E : ComponentClasses ρ)
    (g : MediaGalleryComponent ρ) (index deleteCount : Nat)
    (first : MediaGalleryItemResolvable) (rest : List (Nested MediaGalleryItemResolvable)) :
    MediaGalleryComponent.spliceItems K E g index deleteCount (Nested.item first :: rest)
        = ([], Except.error (JSError.typeError "INVALID_TYPE"))
    ∧ MediaGalleryComponent.setItems K E g (Nested.item first :: rest)
        = ([], Except.error (JSError.typeError "INVALID_TYPE"))
    ∧ MediaGalleryComponent.setItems K E g [Nested.array (Nested.item first :: rest)]
        = ([], Except.error (JSError.typeError "INVALID_TYPE"))
    ∧ (MediaGalleryComponent.addItems (MediaGalleryComponent.new : MediaGalleryComponent ρ)
          (Nested.item first :: rest)).items
        = (MediaGalleryItem.create first :: (Nested.flatAll rest).map MediaGalleryItem.create).map
            GalleryEntry.item
    ∧ (MediaGalleryComponent.spliceItems K E g index deleteCount []).2.toOption.map
          (fun x => x.items)
        = some (g.items.take index ++ g.items.drop (index + deleteCount))
    ∧ (MediaGalleryComponent.setItems K E g []).2.toOption.map (fun x => x.items) = some []
    ∧ MediaGalleryComponent.setItems sampleConstants sampleComponentClasses
          MediaGalleryComponent.new
          [Nested.item (MediaGalleryItemResolvable.options sampleItemOptions)]
        = ([], Except.error (JSError.typeError "INVALID_TYPE")) := by
  have hsplice : ∀ i d (l : List (Nested MediaGalleryItemResolvable)),
      MediaGalleryComponent.spliceItems K E g i d (Nested.item first :: l)
        = ([], Except.error (JSError.typeError "INVALID_TYPE")) := by
    intro i d l
    cases first with
    | «instance» item =>
      simp only [MediaGalleryComponent.spliceItems, Nested.flatAll, Nested.flat,
        List.singleton_append, List.map_cons, MediaGalleryItemResolvable.toComponentData,
        BaseMessageComponent.createAll, BaseMessageComponent.create_absent_type]
      rfl
    | options data =>
      simp only [MediaGalleryComponent.spliceItems, Nested.flatAll, Nested.flat,
        List.singleton_append, List.map_cons, MediaGalleryItemResolvable.toComponentData,
        BaseMessageComponent.createAll, BaseMessageComponent.create_absent_type]
      rfl
  have hflat : ∀ (l : List (Nested MediaGalleryItemResolvable)) i d,
      MediaGalleryComponent.spliceItems K E g i d [Nested.array l]
        = MediaGalleryComponent.spliceItems K E g i d l := by
    intro l i d
    simp [MediaGalleryComponent.spliceItems, Nested.flatAll, Nested.flat]
  refine ⟨hsplice _ _ _, ?_, ?_, ?_, ?_, ?_, rfl⟩
  · rw [MediaGalleryComponent.setItems, hflat]
    exact hsplice _ _ _
  · rw [MediaGalleryComponent.setItems, hflat, hflat]
    exact hsplice _ _ _
  · simp [MediaGalleryComponent.addItems, MediaGalleryComponent.new, Nested.flatAll,
      Nested.flat]
  · simp [MediaGalleryComponent.spliceItems, Nested.flatAll, BaseMessageComponent.createAll,
      Emitting.andThen, JSArray.splice, Except.toOption]
  · simp [MediaGalleryComponent.setItems, MediaGalleryComponent.spliceItems, Nested.flatAll,
      Nested.flat, BaseMessageComponent.createAll, Emitting.andThen, JSArray.splice,
      Except.toOption]

/-! ## The colour of a container -/

/-- The digits that `toString(16)` writes, whatever the fuel of the conversion:
they are put in front of the digits already written. -/
theorem JSNumber.toDigitsCore_eq (f : Nat) :
    ∀ n acc, n < f → Nat.toDigitsCore 16 f n acc = JSNumber.toString16 n ++ acc := by
  induction f using Nat.strong_induction_on with
  | _ f ih =>
    intro n acc hn
    cases f with
    | zero => exact absurd hn (Nat.not_lt_zero n)
    | succ f =>
      by_cases h0 : n / 16 = 0
      · simp [JSNumber.toString16, Nat.toDigits, Nat.toDigitsCore, h0]
      · have hdiv : n / 16 < n := Nat.div_lt_self (by omega) (by decide)
        have h1 : Nat.toDigitsCore 16 (f + 1) n acc
            = Nat.toDigitsCore 16 f (n / 16) (Nat.digitChar (n % 16) :: acc) := by
          simp [Nat.toDigitsCore, h0]
        have h2 : JSNumber.toString16 n
            = Nat.toDigitsCore 16 n (n / 16) [Nat.digitChar (n % 16)] := by
          simp [JSNumber.toString16, Nat.toDigits, Nat.toDigitsCore, h0]
        rw [h1, h2, ih f (Nat.lt_succ_self f) (n / 16) _ (by omega),
          ih n (by omega) (n / 16) _ hdiv]
        simp

/-- The digits of a number of one hexadecimal digit, and of a longer one. -/
theorem JSNumber.toString16_step (n : Nat) :
    (n < 16 → JSNumber.toString16 n = [Nat.digitChar n])
    ∧ (16 ≤ n → JSNumber.toString16 n
        = JSNumber.toString16 (n / 16) ++ [Nat.digitChar (n % 16)]) := by
  constructor
  · intro h
    have h0 : n / 16 = 0 := Nat.div_eq_of_lt h
    simp [JSNumber.toString16, Nat.toDigits, Nat.toDigitsCore, h0, Nat.mod_eq_of_lt h]
  · intro h
    have h0 : n / 16 ≠ 0 := by omega
    have hdiv : n / 16 < n := Nat.div_lt_self (by omega) (by decide)
    have h2 : JSNumber.toString16 n
        = Nat.toDigitsCore 16 n (n / 16) [Nat.digitChar (n % 16)] := by
      simp [JSNumber.toString16, Nat.toDigits, Nat.toDigitsCore, h0]
    rw [h2, JSNumber.toDigitsCore_eq n (n / 16) _ hdiv]

/-- The character of a hexadecimal digit is at its place among the digits. -/
theorem hexValue_digitChar (a d : Nat) (hd : d < 16) :
    hexValue.step (some a) (Nat.digitChar d) = some (16 * a + d) := by
  interval_cases d <;> rfl

/-- The digits `toString(16)` writes for a number write that number. -/
theorem hexValue_toString16 (n : Nat) : hexValue (JSNumber.toString16 n) = some n := by
  induction n using Nat.strong_induction_on with
  | _ n ih =>
    by_cases h : n < 16
    · rw [(JSNumber.toString16_step n).1 h]
      have := hexValue_digitChar 0 n h
      simpa [hexValue] using this
    · have h16 : 16 ≤ n := by omega
      have hdiv : n / 16 < n := Nat.div_lt_self (by omega) (by decide)
      rw [(JSNumber.toString16_step n).2 h16]
      have ihd := ih (n / 16) hdiv
      simp only [hexValue, List.foldl_append, List.foldl_cons, List.foldl_nil] at ihd ⊢
      rw [ihd, hexValue_digitChar (n / 16) (n % 16) (Nat.mod_lt n (by decide))]
      congr 1
      exact Nat.div_add_mod n 16

/-- Zeros in front do not change the number that the digits write. -/
theorem hexValue_padStart (k : Nat) (ds : List Char) :
    hexValue (List.replicate k '0' ++ ds) = hexValue ds := by
  induction k with
  | zero => rfl
  | succ k ih =>
    have h0 : hexValue.step (some 0) '0' = some 0 := rfl
    simp only [hexValue, List.replicate_succ, List.cons_append, List.foldl_cons, h0] at ih ⊢
    exact ih

/-- Claim C30. The getter `hexColor` of a container: for a colour `c` with
`0 < c` and `c` at most 0xFFFFFF it is the hash sign followed by exactly six
hexadecimal digits that write `c`; it is null without a colour, and also for the
colour 0, where the six digits 000000 are expected. -/
theorem hexColor_null_for_zero :
    ContainerComponent.hexColor (some 0) = none
    ∧ ContainerComponent.hexColor none = none
    ∧ (∀ c, 0 < c → c ≤ 0xFFFFFF →
        ∃ ds, ContainerComponent.hexColor (some c) = some (String.mk ('#' :: ds))
          ∧ ds.length = 6 ∧ hexValue ds = some c)
    ∧ (∀ c, ContainerComponent.hexColor (some c) = none ↔ c = 0) := by
  refine ⟨rfl, rfl, ?_, ?_⟩
  · intro c hpos hle
    have hne : c ≠ 0 := by omega
    refine ⟨JSString.padStart (JSNumber.toString16 c) 6 '0', ?_, ?_, ?_⟩
    · simp [ContainerComponent.hexColor, JSNumber.truthy, hne]
    · have hlen : (JSNumber.toString16 c).length ≤ 6 :=
        Nat.toDigitsCore_length 16 (by decide) (c + 1) c 6 (by omega) (by decide)
      simp only [JSString.padStart, List.length_append, List.length_replicate]
      omega
    · rw [JSString.padStart, hexValue_padStart, hexValue_toString16]
  · intro c
    by_cases hc : c = 0
    · subst hc
      exact ⟨fun _ => rfl, fun _ => rfl⟩
    · simp [ContainerComponent.hexColor, JSNumber.truthy, hc]

/-- Witness of C30 at the colours 0x0000FF and 0xFFFFFF. -/
theorem hexColor_null_for_zero_witness :
    (∃ ds, ContainerComponent.hexColor (some 255) = some (String.mk ('#' :: ds))
        ∧ ds.length = 6 ∧ hexValue ds = some 255)
    ∧ ContainerComponent.hexColor (some 255) = some "#0000ff"
    ∧ ContainerComponent.hexColor (some 16777215) = some "#ffffff"
    ∧ ContainerComponent.hexColor (some 0) = none :=
  ⟨hexColor_null_for_zero.2.2.1 255 (by decide) (by decide), by decide, by decide,
    hexColor_null_for_zero.1⟩

/-! ## Full-replace patch of an entitlement -/

/-- Claim C34. `Entitlement._patch` is full-replace and history-independent: two
entitlements patched with the same payload agree in every field the patch sets
(they differ at most in `id`, which the patch leaves); an optional field absent
from the payload becomes null (`userId`, `promotionId`, `guildId`, `startsAt`,
`endsAt`) or false (`deleted`, `consumed`); patching twice with a payload is
patching once. -/
theorem entitlement_patch_history_independent (K : Constants) (e1 e2 : Entitlement)
    (d : EntitlementData) :
    Entitlement._patch K e1 d = { Entitlement._patch K e2 d with id := e1.id }
    ∧ (Entitlement._patch K e1 d).id = e1.id
    ∧ Entitlement._patch K (Entitlement._patch K e1 d) d = Entitlement._patch K e1 d
    ∧ (d.user_id = none → (Entitlement._patch K e1 d).userId = none)
    ∧ (d.promotion_id = none → (Entitlement._patch K e1 d).promotionId = none)
    ∧ (d.guild_id = none → (Entitlement._patch K e1 d).guildId = none)
    ∧ (d.starts_at = none → (Entitlement._patch K e1 d).startsAt = none)
    ∧ (d.ends_at = none → (Entitlement._patch K e1 d).endsAt = none)
    ∧ (d.deleted = none → (Entitlement._patch K e1 d).deleted = false)
    ∧ (d.consumed = none → (Entitlement._patch K e1 d).consumed = false) := by
  refine ⟨rfl, rfl, rfl, ?_, ?_, ?_, ?_, ?_, ?_, ?_⟩
  · intro h; simp [Entitlement._patch, h]
  · intro h; simp [Entitlement._patch, h]
  · intro h; simp [Entitlement._patch, h]
  · intro h; simp [Entitlement._patch, h, truthy]
  · intro h; simp [Entitlement._patch, h, truthy]
  · intro h; simp [Entitlement._patch, h]
  · intro h; simp [Entitlement._patch, h]

/-- Witness of C34: the sample entitlement, which is owned by the user 6, and a
new entitlement are patched with a payload that names no user, no start and no
`consumed`. -/
theorem entitlement_patch_history_independent_witness :
    (Entitlement._patch sampleConstants sampleEntitlement
        { sampleEntitlementData with user_id := none, starts_at := none }).userId = none
    ∧ (Entitlement._patch sampleConstants sampleEntitlement
        { sampleEntitlementData with user_id := none, starts_at := none }).startsAt = none
    ∧ (Entitlement._patch sampleConstants sampleEntitlement
        { sampleEntitlementData with user_id := none, starts_at := none }).consumed = false
    ∧ Entitlement._patch sampleConstants sampleEntitlement
        { sampleEntitlementData with user_id := none, starts_at := none }
      = Entitlement.new sampleConstants
        { sampleEntitlementData with user_id := none, starts_at := none }
    ∧ sampleEntitlement.userId = some "6" :=
  have h := entitlement_patch_history_independent sampleConstants sampleEntitlement
    (Entitlement.new sampleConstants sampleEntitlementData)
    { sampleEntitlementData with user_id := none, starts_at := none }
  ⟨h.2.2.2.1 rfl, h.2.2.2.2.2.2.1 rfl, h.2.2.2.2.2.2.2.2.2 rfl, by decide, rfl⟩

/-! ## Guild packets that change nothing, and the member count -/

/-- Claim C37. GUILD_CREATE for a guild that is cached and either available or
announced with `unavailable` true does nothing: the client state after the
handler is the client state before it, so no guild is patched, no store changes
and no event is emitted. -/
theorem guildCreate_noop_when_cached (K : Constants) (G : ClassOps Guild GuildData)
    (client : Client) (d : GuildData) (shard : Shard) (g : Ref) (guild : Guild)
    (hk : client.guilds.get d.id = some g) (hr : client.guildObjs[g]? = some guild)
    (h : guild.available = true ∨ d.unavailable = some true) :
    GUILD_CREATE K G client d shard = client := by
  have hl := Heap.lookup_eq_some_of_get client.guildObjs client.guilds hk hr
  rcases h with h | h
  · simp [GUILD_CREATE, hl, h]
  · simp [GUILD_CREATE, hl, h]

/-- Witness of C37 on the sample guild client: the cached guild 50 is not
available and is announced as unavailable; the same guild, once available, is
announced again. -/
theorem guildCreate_noop_when_cached_witness :
    GUILD_CREATE sampleConstants sampleGuildClass sampleGuildClient
        { sampleGuildData with unavailable := some true } { id := 3, status := 0 }
      = sampleGuildClient
    ∧ GUILD_CREATE sampleConstants sampleGuildClass
        { sampleGuildClient with guildObjs := [{ sampleGuild with available := true }] }
        sampleGuildData { id := 3, status := 0 }
      = { sampleGuildClient with guildObjs := [{ sampleGuild with available := true }] } :=
  ⟨guildCreate_noop_when_cached sampleConstants sampleGuildClass sampleGuildClient
      { sampleGuildData with unavailable := some true } { id := 3, status := 0 } 0 sampleGuild
      (by decide) (by decide) (Or.inr rfl),
    guildCreate_noop_when_cached sampleConstants sampleGuildClass
      { sampleGuildClient with guildObjs := [{ sampleGuild with available := true }] }
      sampleGuildData { id := 3, status := 0 } 0 { sampleGuild with available := true }
      (by decide) (by decide) (Or.inl rfl)⟩

/-- One GUILD_MEMBER_ADD for a cached guild: its `memberCount` goes up by one,
the guild store and every other guild object are as before. -/
theorem guildMemberAdd_count_step (K : Constants) (M : ClassOps GuildMember GuildMemberData)
    (client : Client) (d : GuildMemberData) (shard : Shard) (g : Ref) (guild : Guild)
    (hk : client.guilds.get d.guild_id = some g) (hr : client.guildObjs[g]? = some guild) :
    (∃ guild2, (GUILD_MEMBER_ADD K M client d shard).guildObjs[g]? = some guild2
        ∧ guild2.memberCount = guild.memberCount + 1)
    ∧ (∀ g2, g2 ≠ g → (GUILD_MEMBER_ADD K M client d shard).guildObjs[g2]? = client.guildObjs[g2]?)
    ∧ (GUILD_MEMBER_ADD K M client d shard).guilds = client.guilds := by
  have hl := Heap.lookup_eq_some_of_get client.guildObjs client.guilds hk hr
  have hstate : ∃ del em, GUILD_MEMBER_ADD K M client d shard
      = { client with
          guildObjs := client.guildObjs.mutate g (fun o =>
            { o with memberCount := o.memberCount + 1
                     members := (CachedManager._add M.construct M._patch GuildMemberData.id
                        client.memberObjs guild.members d).2.1 })
          memberObjs := (CachedManager._add M.construct M._patch GuildMemberData.id
            client.memberObjs guild.members d).1
          deletedGuildMembers := del
          emitted := em } := by
    by_cases hd : client.deletedGuildMembers.has d.id = true
    · by_cases hs : shard.status = K.READY
      · refine ⟨client.deletedGuildMembers.delete d.id, client.emitted ++ [Event.guildMemberAdd
          (CachedManager._add M.construct M._patch GuildMemberData.id client.memberObjs
            guild.members d).2.2], ?_⟩
        simp only [GUILD_MEMBER_ADD, hd, hs, hl, Client.emit, Bool.false_eq_true, ↓reduceIte]
      · refine ⟨client.deletedGuildMembers.delete d.id, client.emitted, ?_⟩
        simp only [GUILD_MEMBER_ADD, hd, hs, hl, Client.emit, Bool.false_eq_true, ↓reduceIte]
    · by_cases hs : shard.status = K.READY
      · refine ⟨client.deletedGuildMembers, client.emitted ++ [Event.guildMemberAdd
          (CachedManager._add M.construct M._patch GuildMemberData.id client.memberObjs
            guild.members d).2.2], ?_⟩
        simp only [GUILD_MEMBER_ADD, hd, hs, hl, Client.emit, Bool.false_eq_true, ↓reduceIte]
      · refine ⟨client.deletedGuildMembers, client.emitted, ?_⟩
        simp only [GUILD_MEMBER_ADD, hd, hs, hl, Client.emit, Bool.false_eq_true, ↓reduceIte]
  obtain ⟨del, em, hst⟩ := hstate
  rw [hst]
  refine ⟨⟨_, Heap.getElem?_mutate_self _ _ hr, rfl⟩, ?_, rfl⟩
  intro g2 hne
  exact Heap.getElem?_mutate_ne _ _ (fun h => hne h.symm)

/-- Claim C38. GUILD_MEMBER_ADD for a payload whose guild is cached raises the
`memberCount` of that guild by exactly one, whatever the member store of the
guild holds, and leaves every other guild object and the guild store as they
are; handling the same payload a second time raises the count once more. -/
theorem guildMemberAdd_counts_every_event (K : Constants)
    (M : ClassOps GuildMember GuildMemberData) (client : Client) (d : GuildMemberData)
    (shard : Shard) (g : Ref) (guild : Guild)
    (hk : client.guilds.get d.guild_id = some g) (hr : client.guildObjs[g]? = some guild) :
    (∃ guild2, (GUILD_MEMBER_ADD K M client d shard).guildObjs[g]? = some guild2
        ∧ guild2.memberCount = guild.memberCount + 1)
    ∧ (∀ g2, g2 ≠ g → (GUILD_MEMBER_ADD K M client d shard).guildObjs[g2]? = client.guildObjs[g2]?)
    ∧ (GUILD_MEMBER_ADD K M client d shard).guilds = client.guilds
    ∧ (∃ guild3, (GUILD_MEMBER_ADD K M (GUILD_MEMBER_ADD K M client d shard) d shard).guildObjs[g]?
          = some guild3
        ∧ guild3.memberCount = guild.memberCount + 2)
    ∧ (∀ g2, g2 ≠ g →
        (GUILD_MEMBER_ADD K M (GUILD_MEMBER_ADD K M client d shard) d shard).guildObjs[g2]?
          = client.guildObjs[g2]?) := by
  obtain ⟨⟨guild2, h2, hc2⟩, hother, hguilds⟩ :=
    guildMemberAdd_count_step K M client d shard g guild hk hr
  have hk2 : (GUILD_MEMBER_ADD K M client d shard).guilds.get d.guild_id = some g := by
    rw [hguilds]; exact hk
  obtain ⟨⟨guild3, h3, hc3⟩, hother2, _⟩ :=
    guildMemberAdd_count_step K M (GUILD_MEMBER_ADD K M client d shard) d shard g guild2 hk2 h2
  refine ⟨⟨guild2, h2, hc2⟩, hother, hguilds, ⟨guild3, h3, ?_⟩, ?_⟩
  · rw [hc3, hc2]
  · intro g2 hne
    rw [hother2 g2 hne, hother g2 hne]

/-- Witness of C38 on the sample guild client: the member 6 is added to the guild
50 twice. -/
theorem guildMemberAdd_counts_every_event_witness :
    (∃ guild2, (GUILD_MEMBER_ADD sampleConstants sampleMemberClass sampleGuildClient
          sampleMemberData { id := 3, status := 0 }).guildObjs[0]? = some guild2
        ∧ guild2.memberCount = sampleGuild.memberCount + 1)
    ∧ (∃ guild3, (GUILD_MEMBER_ADD sampleConstants sampleMemberClass
          (GUILD_MEMBER_ADD sampleConstants sampleMemberClass sampleGuildClient
            sampleMemberData { id := 3, status := 0 })
          sampleMemberData { id := 3, status := 0 }).guildObjs[0]? = some guild3
        ∧ guild3.memberCount = sampleGuild.memberCount + 2) :=
  have h := guildMemberAdd_counts_every_event sampleConstants sampleMemberClass
    sampleGuildClient sampleMemberData { id := 3, status := 0 } 0 sampleGuild
    (by decide) (by decide)
  ⟨h.1, h.2.2.2.1⟩

/-! ## Setters of the label component -/

/-- Counterexample to C31: a label of 46 characters and a description of 101
characters are stored by the setters, which return the component and do not
raise. -/
theorem setLabel_accepts_long_label :
    (String.mk (List.replicate 46 'a')).length = 46
    ∧ LabelComponent.setLabel
        (Component.labelComponent none (some "Name") none none : Component Unit)
        (String.mk (List.replicate 46 'a'))
      = Except.ok (Component.labelComponent none (some (String.mk (List.replicate 46 'a')))
          none none)
    ∧ (String.mk (List.replicate 101 'a')).length = 101
    ∧ LabelComponent.setDescription
        (Component.labelComponent none (some "Name") none none : Component Unit)
        (String.mk (List.replicate 101 'a'))
      = Except.ok (Component.labelComponent none (some "Name")
          (some (String.mk (List.replicate 101 'a'))) none) :=
  ⟨by decide, rfl, by decide, rfl⟩

/-- Claim C31, amended. The setters of a label component do not validate: for
every string, of any length, `setLabel` stores it as the label and
`setDescription` stores it as the description; each returns the component, with
its other fields as they were, and does not raise. -/
theorem label_setters_store_any_string {ρ : Type} (id : Option Nat)
    (label description : Option String) (component : Option (Component ρ)) (s : String) :
    LabelComponent.setLabel (Component.labelComponent id label description component) s
        = Except.ok (Component.labelComponent id (some s) description component)
    ∧ LabelComponent.setDescription (Component.labelComponent id label description component) s
        = Except.ok (Component.labelComponent id label (some s) component) :=
  ⟨rfl, rfl⟩

/-! ## Activity of an entitlement -/

/-- The comparison of two integers as JavaScript numbers. -/
theorem JSNum.le_int (a b : Int) : JSNum.le (JSNum.int a) (JSNum.int b) = true ↔ a ≤ b := by
  simp [JSNum.le]

/-- Claim C32. `Entitlement.isActive` at the time `now`, for bounds that are null
or valid dates: it is true exactly when the start (0 when `startsAt` is null) is
at most `now` and `now` is at most the end (no upper bound when `endsAt` is
null), both bounds included. So an entitlement with neither bound is active at
every `now` from 0 on, and one whose start is after its end is never active. A
bound that is an invalid date makes it inactive. -/
theorem isActive_iff_within_bounds (parse : String → Option Int) (now : Int) (e : Entitlement) :
    (e.startsAt = none → e.endsAt = none →
        (Entitlement.isActive parse now e = true ↔ 0 ≤ now))
    ∧ (∀ ds s, e.startsAt = some ds → ds.getTime parse = JSNum.int s → e.endsAt = none →
        (Entitlement.isActive parse now e = true ↔ s ≤ now))
    ∧ (∀ de t, e.startsAt = none → e.endsAt = some de → de.getTime parse = JSNum.int t →
        (Entitlement.isActive parse now e = true ↔ (0 ≤ now ∧ now ≤ t)))
    ∧ (∀ ds de s t, e.startsAt = some ds → ds.getTime parse = JSNum.int s →
        e.endsAt = some de → de.getTime parse = JSNum.int t →
        (Entitlement.isActive parse now e = true ↔ (s ≤ now ∧ now ≤ t))
        ∧ (t < s → Entitlement.isActive parse now e = false))
    ∧ (∀ ds, e.startsAt = some ds → ds.getTime parse = JSNum.nan →
        Entitlement.isActive parse now e = false)
    ∧ (∀ de, e.endsAt = some de → de.getTime parse = JSNum.nan →
        Entitlement.isActive parse now e = false) := by
  refine ⟨?_, ?_, ?_, ?_, ?_, ?_⟩
  · intro hs he
    simp [Entitlement.isActive, hs, he, JSNum.le]
  · intro ds s hs hts he
    simp [Entitlement.isActive, hs, he, hts, JSNum.le]
  · intro de t hs he hte
    simp [Entitlement.isActive, hs, he, hte, JSNum.le]
  · intro ds de s t hs hts he hte
    have hiff : Entitlement.isActive parse now e = true ↔ (s ≤ now ∧ now ≤ t) := by
      simp [Entitlement.isActive, hs, he, hts, hte, JSNum.le]
    refine ⟨hiff, fun hlt => ?_⟩
    cases hact : Entitlement.isActive parse now e with
    | false => rfl
    | true =>
      have := hiff.1 hact
      omega
  · intro ds hs hts
    simp [Entitlement.isActive, hs, hts, JSNum.le]
  · intro de he hte
    cases hst : e.startsAt with
    | none => simp [Entitlement.isActive, he, hte, hst, JSNum.le]
    | some ds =>
      cases hg : ds.getTime parse <;> simp [Entitlement.isActive, he, hte, hst, hg, JSNum.le]

/-- Witness of C32: the sample entitlement has neither bound and is active at the
time 0; the timed sample entitlement is active at its first and at its last
millisecond and is not active one millisecond later. -/
theorem isActive_iff_within_bounds_witness :
    Entitlement.isActive sampleDateParse 0 sampleEntitlement = true
    ∧ Entitlement.isActive sampleDateParse 1704067200000 sampleTimedEntitlement = true
    ∧ Entitlement.isActive sampleDateParse 1706745600000 sampleTimedEntitlement = true
    ∧ Entitlement.isActive sampleDateParse 1706745600001 sampleTimedEntitlement = false
    ∧ (Entitlement.isActive sampleDateParse 1705000000000 sampleTimedEntitlement = true
        ↔ ((1704067200000 : Int) ≤ 1705000000000 ∧ (1705000000000 : Int) ≤ 1706745600000)) :=
  ⟨((isActive_iff_within_bounds sampleDateParse 0 sampleEntitlement).1 rfl rfl).2 (by decide),
    by decide, by decide, by decide,
    ((isActive_iff_within_bounds sampleDateParse 1705000000000 sampleTimedEntitlement).2.2.2.1
      ⟨some "2024-01-01T00:00:00Z"⟩ ⟨some "2024-02-01T00:00:00Z"⟩ 1704067200000 1706745600000
      rfl (by decide) rfl (by decide)).1⟩

/-! ## Option builders -/

/-- A mapping whose callback throws on an element of the array throws. -/
theorem JSArray.mapE_error_of_mem {α β : Type} (f : α → Except JSError β) (l : List α) (x : α)
    (hx : x ∈ l) (e : JSError) (hf : f x = Except.error e) :
    ∃ e2, JSArray.mapE f l = Except.error e2 := by
  induction l with
  | nil => cases hx
  | cons y t ih =>
    cases hy : f y with
    | error e2 => exact ⟨e2, by simp [JSArray.mapE, hy]⟩
    | ok b =>
      have hxt : x ∈ t := by
        rcases List.mem_cons.1 hx with h | h
        · subst h
          rw [hf] at hy
          cases hy
        · exact h
      obtain ⟨e2, he2⟩ := ih hxt
      exact ⟨e2, by simp [JSArray.mapE, hy, he2]⟩

/-- The static method `MessageSelectMenu.normalizeOption` throws when `verifyString` rejects the
label or the value of the option. -/
theorem messageSelectMenu_normalizeOption_error (U : UtilFunctions) (o : MessageSelectOptionData)
    (h : (∃ e, U.verifyString o.label "SELECT_OPTION_LABEL" none = Except.error e)
      ∨ (∃ e, U.verifyString o.value "SELECT_OPTION_VALUE" none = Except.error e)) :
    ∃ e, MessageSelectMenu.normalizeOption U o = Except.error e := by
  rcases h with ⟨e, h⟩ | ⟨e, h⟩
  · exact ⟨e, by simp [MessageSelectMenu.normalizeOption, h]⟩
  · cases hl : U.verifyString o.label "SELECT_OPTION_LABEL" none with
    | error e2 => exact ⟨e2, by simp [MessageSelectMenu.normalizeOption, hl]⟩
    | ok l => exact ⟨e, by simp [MessageSelectMenu.normalizeOption, hl, h]⟩

/-- The option builders of `MessageSelectMenu` leave the options as they were when the
normalization of an option throws, and throw when `verifyString` rejects the
label or the value of one of the given options. -/
theorem messageSelectMenu_options_atomic (U : UtilFunctions) (m : MessageSelectMenu)
    (options : List (Nested MessageSelectOptionData)) :
    (∀ bad, bad ∈ Nested.flatAll options →
        ((∃ e, U.verifyString bad.label "SELECT_OPTION_LABEL" none = Except.error e)
          ∨ (∃ e, U.verifyString bad.value "SELECT_OPTION_VALUE" none = Except.error e)) →
        (∃ e, MessageSelectMenu.addOptions U m options = (m, Except.error e))
        ∧ (∃ e, MessageSelectMenu.setOptions U m options = (m, Except.error e))
        ∧ (∀ i d, ∃ e, MessageSelectMenu.spliceOptions U m i d options = (m, Except.error e)))
    ∧ (∀ e, (MessageSelectMenu.addOptions U m options).2 = Except.error e →
        (MessageSelectMenu.addOptions U m options).1 = m)
    ∧ (∀ e, (MessageSelectMenu.setOptions U m options).2 = Except.error e →
        (MessageSelectMenu.setOptions U m options).1 = m)
    ∧ (∀ i d e, (MessageSelectMenu.spliceOptions U m i d options).2 = Except.error e →
        (MessageSelectMenu.spliceOptions U m i d options).1 = m) := by
  have hflat : MessageSelectMenu.normalizeOptions U [Nested.array options]
      = MessageSelectMenu.normalizeOptions U options := by
    simp [MessageSelectMenu.normalizeOptions, Nested.flatAll, Nested.flat]
  refine ⟨?_, ?_, ?_, ?_⟩
  · intro bad hmem hbad
    obtain ⟨e, he⟩ := messageSelectMenu_normalizeOption_error U bad hbad
    obtain ⟨e2, he2⟩ := JSArray.mapE_error_of_mem (MessageSelectMenu.normalizeOption U) _ bad hmem e he
    have hn : MessageSelectMenu.normalizeOptions U options = Except.error e2 := he2
    refine ⟨⟨e2, ?_⟩, ⟨e2, ?_⟩, fun i d => ⟨e2, ?_⟩⟩
    · simp [MessageSelectMenu.addOptions, hflat, hn]
    · simp [MessageSelectMenu.setOptions, MessageSelectMenu.spliceOptions, hflat, hn]
    · simp [MessageSelectMenu.spliceOptions, hn]
  · intro e he
    cases hn : MessageSelectMenu.normalizeOptions U options with
    | error e2 => simp [MessageSelectMenu.addOptions, hflat, hn]
    | ok l => simp [MessageSelectMenu.addOptions, hflat, hn] at he
  · intro e he
    cases hn : MessageSelectMenu.normalizeOptions U options with
    | error e2 => simp [MessageSelectMenu.setOptions, MessageSelectMenu.spliceOptions, hflat, hn]
    | ok l => simp [MessageSelectMenu.setOptions, MessageSelectMenu.spliceOptions, hflat, hn] at he
  · intro i d e he
    cases hn : MessageSelectMenu.normalizeOptions U options with
    | error e2 => simp [MessageSelectMenu.spliceOptions, hn]
    | ok l => simp [MessageSelectMenu.spliceOptions, hn] at he


/-- The static method `RadioGroupComponent.normalizeOption` throws when `verifyString` rejects the
label or the value of the option. -/
theorem radioGroup_normalizeOption_error (U : UtilFunctions) (o : RadioGroupOptionData)
    (h : (∃ e, U.verifyString o.label "RADIO_GROUP_OPTION_LABEL" none = Except.error e)
      ∨ (∃ e, U.verifyString o.value "RADIO_GROUP_OPTION_VALUE" none = Except.error e)) :
    ∃ e, RadioGroupComponent.normalizeOption U o = Except.error e := by
  rcases h with ⟨e, h⟩ | ⟨e, h⟩
  · exact ⟨e, by simp [RadioGroupComponent.normalizeOption, h]⟩
  · cases hl : U.verifyString o.label "RADIO_GROUP_OPTION_LABEL" none with
    | error e2 => exact ⟨e2, by simp [RadioGroupComponent.normalizeOption, hl]⟩
    | ok l => exact ⟨e, by simp [RadioGroupComponent.normalizeOption, hl, h]⟩

/-- The option builders of `RadioGroupComponent` leave the options as they were when the
normalization of an option throws, and throw when `verifyString` rejects the
label or the value of one of the given options. -/
theorem radioGroup_options_atomic (U : UtilFunctions) (c : RadioGroupComponent)
    (options : List (Nested RadioGroupOptionData)) :
    (∀ bad, bad ∈ Nested.flatAll options →
        ((∃ e, U.verifyString bad.label "RADIO_GROUP_OPTION_LABEL" none = Except.error e)
          ∨ (∃ e, U.verifyString bad.value "RADIO_GROUP_OPTION_VALUE" none = Except.error e)) →
        (∃ e, RadioGroupComponent.addOptions U c options = (c, Except.error e))
        ∧ (∃ e, RadioGroupComponent.setOptions U c options = (c, Except.error e))
        ∧ (∀ i d, ∃ e, RadioGroupComponent.spliceOptions U c i d options = (c, Except.error e)))
    ∧ (∀ e, (RadioGroupComponent.addOptions U c options).2 = Except.error e →
        (RadioGroupComponent.addOptions U c options).1 = c)
    ∧ (∀ e, (RadioGroupComponent.setOptions U c options).2 = Except.error e →
        (RadioGroupComponent.setOptions U c options).1 = c)
    ∧ (∀ i d e, (RadioGroupComponent.spliceOptions U c i d options).2 = Except.error e →
        (RadioGroupComponent.spliceOptions U c i d options).1 = c) := by
  have hflat : RadioGroupComponent.normalizeOptions U [Nested.array options]
      = RadioGroupComponent.normalizeOptions U options := by
    simp [RadioGroupComponent.normalizeOptions, Nested.flatAll, Nested.flat]
  refine ⟨?_, ?_, ?_, ?_⟩
  · intro bad hmem hbad
    obtain ⟨e, he⟩ := radioGroup_normalizeOption_error U bad hbad
    obtain ⟨e2, he2⟩ := JSArray.mapE_error_of_mem (RadioGroupComponent.normalizeOption U) _ bad hmem e he
    have hn : RadioGroupComponent.normalizeOptions U options = Except.error e2 := he2
    refine ⟨⟨e2, ?_⟩, ⟨e2, ?_⟩, fun i d => ⟨e2, ?_⟩⟩
    · simp [RadioGroupComponent.addOptions, hflat, hn]
    · simp [RadioGroupComponent.setOptions, RadioGroupComponent.spliceOptions, hflat, hn]
    · simp [RadioGroupComponent.spliceOptions, hn]
  · intro e he
    cases hn : RadioGroupComponent.normalizeOptions U options with
    | error e2 => simp [RadioGroupComponent.addOptions, hflat, hn]
    | ok l => simp [RadioGroupComponent.addOptions, hflat, hn] at he
  · intro e he
    cases hn : RadioGroupComponent.normalizeOptions U options with
    | error e2 => simp [RadioGroupComponent.setOptions, RadioGroupComponent.spliceOptions, hflat, hn]
    | ok l => simp [RadioGroupComponent.setOptions, RadioGroupComponent.spliceOptions, hflat, hn] at he
  · intro i d e he
    cases hn : RadioGroupComponent.normalizeOptions U options with
    | error e2 => simp [RadioGroupComponent.spliceOptions, hn]
    | ok l => simp [RadioGroupComponent.spliceOptions, hn] at he


/-- The static method `CheckboxGroupComponent.normalizeOption` throws when `verifyString` rejects the
label or the value of the option. -/
theorem checkboxGroup_normalizeOption_error (U : UtilFunctions) (o : CheckboxGroupOptionData)
    (h : (∃ e, U.verifyString o.label "CHECKBOX_GROUP_OPTION_LABEL" none = Except.error e)
      ∨ (∃ e, U.verifyString o.value "CHECKBOX_GROUP_OPTION_VALUE" none = Except.error e)) :
    ∃ e, CheckboxGroupComponent.normalizeOption U o = Except.error e := by
  rcases h with ⟨e, h⟩ | ⟨e, h⟩
  · exact ⟨e, by simp [CheckboxGroupComponent.normalizeOption, h]⟩
  · cases hl : U.verifyString o.label "CHECKBOX_GROUP_OPTION_LABEL" none with
    | error e2 => exact ⟨e2, by simp [CheckboxGroupComponent.normalizeOption, hl]⟩
    | ok l => exact ⟨e, by simp [CheckboxGroupComponent.normalizeOption, hl, h]⟩

/-- The option builders of `CheckboxGroupComponent` leave the options as they were when the
normalization of an option throws, and throw when `verifyString` rejects the
label or the value of one of the given options. -/
theorem checkboxGroup_options_atomic (U : UtilFunctions) (c : CheckboxGroupComponent)
    (options : List (Nested CheckboxGroupOptionData)) :
    (∀ bad, bad ∈ Nested.flatAll options →
        ((∃ e, U.verifyString bad.label "CHECKBOX_GROUP_OPTION_LABEL" none = Except.error e)
          ∨ (∃ e, U.verifyString bad.value "CHECKBOX_GROUP_OPTION_VALUE" none = Except.error e)) →
        (∃ e, CheckboxGroupComponent.addOptions U c options = (c, Except.error e))
        ∧ (∃ e, CheckboxGroupComponent.setOptions U c options = (c, Except.error e))
        ∧ (∀ i d, ∃ e, CheckboxGroupComponent.spliceOptions U c i d options = (c, Except.error e)))
    ∧ (∀ e, (CheckboxGroupComponent.addOptions U c options).2 = Except.error e →
        (CheckboxGroupComponent.addOptions U c options).1 = c)
    ∧ (∀ e, (CheckboxGroupComponent.setOptions U c options).2 = Except.error e →
        (CheckboxGroupComponent.setOptions U c options).1 = c)
    ∧ (∀ i d e, (CheckboxGroupComponent.spliceOptions U c i d options).2 = Except.error e →
        (CheckboxGroupComponent.spliceOptions U c i d options).1 = c) := by
  have hflat : CheckboxGroupComponent.normalizeOptions U [Nested.array options]
      = CheckboxGroupComponent.normalizeOptions U options := by
    simp [CheckboxGroupComponent.normalizeOptions, Nested.flatAll, Nested.flat]
  refine ⟨?_, ?_, ?_, ?_⟩
  · intro bad hmem hbad
    obtain ⟨e, he⟩ := checkboxGroup_normalizeOption_error U bad hbad
    obtain ⟨e2, he2⟩ := JSArray.mapE_error_of_mem (CheckboxGroupComponent.normalizeOption U) _ bad hmem e he
    have hn : CheckboxGroupComponent.normalizeOptions U options = Except.error e2 := he2
    refine ⟨⟨e2, ?_⟩, ⟨e2, ?_⟩, fun i d => ⟨e2, ?_⟩⟩
    · simp [CheckboxGroupComponent.addOptions, hflat, hn]
    · simp [CheckboxGroupComponent.setOptions, CheckboxGroupComponent.spliceOptions, hflat, hn]
    · simp [CheckboxGroupComponent.spliceOptions, hn]
  · intro e he
    cases hn : CheckboxGroupComponent.normalizeOptions U options with
    | error e2 => simp [CheckboxGroupComponent.addOptions, hflat, hn]
    | ok l => simp [CheckboxGroupComponent.addOptions, hflat, hn] at he
  · intro e he
    cases hn : CheckboxGroupComponent.normalizeOptions U options with
    | error e2 => simp [CheckboxGroupComponent.setOptions, CheckboxGroupComponent.spliceOptions, hflat, hn]
    | ok l => simp [CheckboxGroupComponent.setOptions, CheckboxGroupComponent.spliceOptions, hflat, hn] at he
  · intro i d e he
    cases hn : CheckboxGroupComponent.normalizeOptions U options with
    | error e2 => simp [CheckboxGroupComponent.spliceOptions, hn]
    | ok l => simp [CheckboxGroupComponent.spliceOptions, hn] at he

/-- Counterexample to C36 as stated. The builders hand the label and the value
to `verifyString` without its fourth argument and reject nothing themselves: with
a `verifyString` that checks only that the value is a string, an option whose
label is the empty string, which is not a non-empty string, is added by
`addOptions` of the three classes and the call returns. -/
theorem addOptions_accepts_empty_label :
    JSValue.isNonEmptyString (some (JSValue.string "")) = false
    ∧ CheckboxGroupComponent.addOptions sampleStringUtil sampleCheckboxGroup
        [Nested.item { label := some (JSValue.string ""), value := some (JSValue.string "blank"),
                       description := none, isDefault := none }]
      = ({ sampleCheckboxGroup with
            options := sampleCheckboxGroup.options
              ++ [{ label := "", value := "blank", description := none, isDefault := false }] },
          Except.ok ())
    ∧ RadioGroupComponent.addOptions sampleStringUtil
        { customId := none, id := none, options := [], required := false }
        [Nested.item { label := some (JSValue.string ""), value := some (JSValue.string "blank"),
                       description := none, isDefault := none }]
      = ({ customId := none, id := none,
            options := [{ label := "", value := "blank", description := none,
                          isDefault := false }],
            required := false }, Except.ok ())
    ∧ MessageSelectMenu.addOptions sampleStringUtil MessageSelectMenu.new
        [Nested.item { label := some (JSValue.string ""), value := some (JSValue.string "blank"),
                       description := none, emoji := none, isDefault := none }]
      = ({ MessageSelectMenu.new with
            options := [{ label := "", value := "blank", description := none, emoji := none,
                          isDefault := false }] }, Except.ok ()) :=
  ⟨rfl, rfl, rfl, rfl⟩

/-- Claim C36, amended. The option builders of `MessageSelectMenu`,
`RadioGroupComponent` and `CheckboxGroupComponent` are atomic on a validation
failure, whatever `Util.verifyString` rejects: if `verifyString`, called on the
label or on the value of one of the options given to `addOptions`, `setOptions`
or `spliceOptions`, throws, the call raises and the component is as it was
before the call, so no valid option of the same call is added and nothing is
removed; and every call that raises leaves the component as it was. -/
theorem option_builders_atomic (U : UtilFunctions)
    (m : MessageSelectMenu) (om : List (Nested MessageSelectOptionData))
    (r : RadioGroupComponent) (or : List (Nested RadioGroupOptionData))
    (c : CheckboxGroupComponent) (oc : List (Nested CheckboxGroupOptionData)) :
    ((∀ bad, bad ∈ Nested.flatAll om →
        ((∃ e, U.verifyString bad.label "SELECT_OPTION_LABEL" none = Except.error e)
          ∨ (∃ e, U.verifyString bad.value "SELECT_OPTION_VALUE" none = Except.error e)) →
        (∃ e, MessageSelectMenu.addOptions U m om = (m, Except.error e))
        ∧ (∃ e, MessageSelectMenu.setOptions U m om = (m, Except.error e))
        ∧ (∀ i d, ∃ e, MessageSelectMenu.spliceOptions U m i d om = (m, Except.error e)))
    ∧ (∀ e, (MessageSelectMenu.addOptions U m om).2 = Except.error e →
        (MessageSelectMenu.addOptions U m om).1 = m)
    ∧ (∀ e, (MessageSelectMenu.setOptions U m om).2 = Except.error e →
        (MessageSelectMenu.setOptions U m om).1 = m)
    ∧ (∀ i d e, (MessageSelectMenu.spliceOptions U m i d om).2 = Except.error e →
        (MessageSelectMenu.spliceOptions U m i d om).1 = m))
    ∧ ((∀ bad, bad ∈ Nested.flatAll or →
        ((∃ e, U.verifyString bad.label "RADIO_GROUP_OPTION_LABEL" none = Except.error e)
          ∨ (∃ e, U.verifyString bad.value "RADIO_GROUP_OPTION_VALUE" none = Except.error e)) →
        (∃ e, RadioGroupComponent.addOptions U r or = (r, Except.error e))
        ∧ (∃ e, RadioGroupComponent.setOptions U r or = (r, Except.error e))
        ∧ (∀ i d, ∃ e, RadioGroupComponent.spliceOptions U r i d or = (r, Except.error e)))
    ∧ (∀ e, (RadioGroupComponent.addOptions U r or).2 = Except.error e →
        (RadioGroupComponent.addOptions U r or).1 = r)
    ∧ (∀ e, (RadioGroupComponent.setOptions U r or).2 = Except.error e →
        (RadioGroupComponent.setOptions U r or).1 = r)
    ∧ (∀ i d e, (RadioGroupComponent.spliceOptions U r i d or).2 = Except.error e →
        (RadioGroupComponent.spliceOptions U r i d or).1 = r))
    ∧ ((∀ bad, bad ∈ Nested.flatAll oc →
        ((∃ e, U.verifyString bad.label "CHECKBOX_GROUP_OPTION_LABEL" none = Except.error e)
          ∨ (∃ e, U.verifyString bad.value "CHECKBOX_GROUP_OPTION_VALUE" none = Except.error e)) →
        (∃ e, CheckboxGroupComponent.addOptions U c oc = (c, Except.error e))
        ∧ (∃ e, CheckboxGroupComponent.setOptions U c oc = (c, Except.error e))
        ∧ (∀ i d, ∃ e, CheckboxGroupComponent.spliceOptions U c i d oc = (c, Except.error e)))
    ∧ (∀ e, (CheckboxGroupComponent.addOptions U c oc).2 = Except.error e →
        (CheckboxGroupComponent.addOptions U c oc).1 = c)
    ∧ (∀ e, (CheckboxGroupComponent.setOptions U c oc).2 = Except.error e →
        (CheckboxGroupComponent.setOptions U c oc).1 = c)
    ∧ (∀ i d e, (CheckboxGroupComponent.spliceOptions U c i d oc).2 = Except.error e →
        (CheckboxGroupComponent.spliceOptions U c i d oc).1 = c)) :=
  ⟨messageSelectMenu_options_atomic U m om, radioGroup_options_atomic U r or,
    checkboxGroup_options_atomic U c oc⟩

/-- Witness of the amended C36 with the two sample `Util`s: a valid option and an
option whose value is the number 0 are added to the sample checkbox group in one
call, which raises and leaves the one option of the group; the valid option
alone is added. -/
theorem option_builders_atomic_witness :
    (∃ e, CheckboxGroupComponent.addOptions sampleStringUtil sampleCheckboxGroup
        [Nested.item sampleGoodOption, Nested.array [Nested.item sampleBadOption]]
      = (sampleCheckboxGroup, Except.error e))
    ∧ (∃ e, CheckboxGroupComponent.setOptions sampleUtil sampleCheckboxGroup
        [Nested.item sampleGoodOption, Nested.array [Nested.item sampleBadOption]]
      = (sampleCheckboxGroup, Except.error e))
    ∧ CheckboxGroupComponent.addOptions sampleUtil sampleCheckboxGroup
        [Nested.item sampleGoodOption, Nested.array [Nested.item sampleBadOption]]
      = (sampleCheckboxGroup, Except.error (JSError.rangeError "CHECKBOX_GROUP_OPTION_VALUE"))
    ∧ (CheckboxGroupComponent.addOptions sampleUtil sampleCheckboxGroup
        [Nested.item sampleGoodOption]).1.options
      = sampleCheckboxGroup.options
        ++ [{ label := "Yes", value := "yes", description := none, isDefault := false }] :=
  ⟨((option_builders_atomic sampleStringUtil
      MessageSelectMenu.new [] { customId := none, id := none, options := [], required := false } []
      sampleCheckboxGroup
      [Nested.item sampleGoodOption, Nested.array [Nested.item sampleBadOption]]).2.2.1
      sampleBadOption (by decide) (Or.inr ⟨_, rfl⟩)).1,
    ((option_builders_atomic sampleUtil
      MessageSelectMenu.new [] { customId := none, id := none, options := [], required := false } []
      sampleCheckboxGroup
      [Nested.item sampleGoodOption, Nested.array [Nested.item sampleBadOption]]).2.2.1
      sampleBadOption (by decide) (Or.inr ⟨_, rfl⟩)).2.1,
    rfl, by decide⟩

/-! ## Bulk deletion of messages -/

/-- The remote calls of the branch of `bulkDelete` that has the ids, with the
filter on: every id sent is one of the given ids and is younger than the
maximal age, no message is fetched, and when every given id is too old nothing
is sent and an empty collection is returned. -/
theorem bulkDeleteIds_sent_are_young (K : Constants) (R : MessageRemote)
    (timestampFrom : Snowflake → Int) (now : Int) (client : Client) (channel : Channel)
    (ids : List Snowflake) :
    (∀ ch id, ApiRequest.deleteMessage ch id
        ∈ (TextBasedChannel.bulkDeleteIds K R timestampFrom now client channel ids true).requests →
        id ∈ ids ∧ now - timestampFrom id < K.MaxBulkDeletableMessageAge)
    ∧ (∀ ch l, ApiRequest.bulkDeleteMessages ch l
        ∈ (TextBasedChannel.bulkDeleteIds K R timestampFrom now client channel ids true).requests →
        ∀ id ∈ l, id ∈ ids ∧ now - timestampFrom id < K.MaxBulkDeletableMessageAge)
    ∧ (∀ ch n, ApiRequest.fetchMessages ch n
        ∉ (TextBasedChannel.bulkDeleteIds K R timestampFrom now client channel ids true).requests)
    ∧ ((∀ id ∈ ids, K.MaxBulkDeletableMessageAge ≤ now - timestampFrom id) →
        TextBasedChannel.bulkDeleteIds K R timestampFrom now client channel ids true
          = ⟨client, [], Except.ok []⟩) := by
  unfold TextBasedChannel.bulkDeleteIds
  simp only [↓reduceIte]
  generalize hl : ids.filter
    (fun id => decide (now - timestampFrom id < K.MaxBulkDeletableMessageAge)) = l
  have hmem : ∀ id ∈ l, id ∈ ids ∧ now - timestampFrom id < K.MaxBulkDeletableMessageAge := by
    intro id h
    rw [← hl] at h
    simpa [List.mem_filter] using h
  have hnil : (∀ id ∈ ids, K.MaxBulkDeletableMessageAge ≤ now - timestampFrom id) → l = [] := by
    intro hold
    rw [← hl, List.filter_eq_nil_iff]
    intro id hid
    have := hold id hid
    simp only [decide_eq_true_eq]
    omega
  rcases l with _ | ⟨a, _ | ⟨b, t⟩⟩
  · refine ⟨?_, ?_, ?_, fun _ => rfl⟩
    · intro ch id h; cases h
    · intro ch l h; cases h
    · intro ch n h; cases h
  · refine ⟨?_, ?_, ?_, fun hold => absurd (hnil hold) (by simp)⟩
    · intro ch id h
      cases hr : R.deleteMessage channel.id a <;> simp [hr] at h <;>
        exact h.2 ▸ hmem a (List.mem_singleton_self a)
    · intro ch l h
      cases hr : R.deleteMessage channel.id a <;> simp [hr] at h
    · intro ch n h
      cases hr : R.deleteMessage channel.id a <;> simp [hr] at h
  · refine ⟨?_, ?_, ?_, fun hold => absurd (hnil hold) (by simp)⟩
    · intro ch id h
      cases hr : R.bulkDelete channel.id (a :: b :: t) <;> simp [hr] at h
    · intro ch l h
      cases hr : R.bulkDelete channel.id (a :: b :: t) <;> simp [hr] at h <;>
        exact h.2 ▸ hmem
    · intro ch n h
      cases hr : R.bulkDelete channel.id (a :: b :: t) <;> simp [hr] at h

/-- Claim C33. `bulkDelete` with `filterOld` true, the fetch of the message
manager issuing fetch requests only: every message id sent to the remote
deletion of one message or to the bulk deletion has an age, `now` minus its
timestamp, strictly below `MaxBulkDeletableMessageAge`; for an array or a
collection of which no id remains, the empty collection is returned, no remote
call is issued and the client state is unchanged; an argument that is neither
an array, nor a collection, nor numeric rejects with the TypeError
MESSAGE_BULK_DELETE_TYPE without a remote call, whatever `filterOld` is. -/
theorem bulkDelete_filterOld (K : Constants) (R : MessageRemote)
    (timestampFrom : Snowflake → Int) (now : Int) (client : Client) (channel : Channel)
    (messages : BulkDeleteArgument)
    (hfetch : ∀ n, ∀ req ∈ (R.fetch client channel n).requests,
      ∃ ch l, req = ApiRequest.fetchMessages ch l) :
    (∀ ch id, ApiRequest.deleteMessage ch id ∈ (TextBasedChannel.bulkDelete K R timestampFrom now client channel messages true).requests →
        now - timestampFrom id < K.MaxBulkDeletableMessageAge)
    ∧ (∀ ch l, ApiRequest.bulkDeleteMessages ch l ∈ (TextBasedChannel.bulkDelete K R timestampFrom now client channel messages true).requests →
        ∀ id ∈ l, now - timestampFrom id < K.MaxBulkDeletableMessageAge)
    ∧ (∀ ms, messages = BulkDeleteArgument.array ms →
        (∀ m ∈ ms, K.MaxBulkDeletableMessageAge ≤ now - timestampFrom
          (match m with
            | MessageResolvable.message o => o.id
            | MessageResolvable.id x => x)) →
        TextBasedChannel.bulkDelete K R timestampFrom now client channel messages true = ⟨client, [], Except.ok []⟩)
    ∧ (∀ c, messages = BulkDeleteArgument.collection c →
        (∀ p ∈ c, K.MaxBulkDeletableMessageAge ≤ now - timestampFrom p.1) →
        TextBasedChannel.bulkDelete K R timestampFrom now client channel messages true = ⟨client, [], Except.ok []⟩)
    ∧ (∀ filterOld, TextBasedChannel.bulkDelete K R timestampFrom now client channel BulkDeleteArgument.other filterOld
        = ⟨client, [], Except.error (JSError.typeError "MESSAGE_BULK_DELETE_TYPE")⟩) := by
  refine ⟨?_, ?_, ?_, ?_, fun _ => rfl⟩
  · intro ch id h
    cases messages with
    | array ms => exact ((bulkDeleteIds_sent_are_young K R timestampFrom now client channel _).1 ch id h).2
    | collection c =>
      exact ((bulkDeleteIds_sent_are_young K R timestampFrom now client channel _).1 ch id h).2
    | numeric n =>
      simp only [TextBasedChannel.bulkDelete] at h
      cases ho : (R.fetch client channel n).outcome with
      | error e =>
        simp only [ho] at h
        obtain ⟨c2, l2, h2⟩ := hfetch n _ h
        cases h2
      | ok msgs =>
        simp only [ho] at h
        rcases List.mem_append.1 h with h1 | h1
        · obtain ⟨c2, l2, h2⟩ := hfetch n _ h1
          cases h2
        · exact ((bulkDeleteIds_sent_are_young K R timestampFrom now _ channel _).1 ch id h1).2
    | other => cases h
  · intro ch l h
    cases messages with
    | array ms =>
      exact fun id hid =>
        ((bulkDeleteIds_sent_are_young K R timestampFrom now client channel _).2.1 ch l h id hid).2
    | collection c =>
      exact fun id hid =>
        ((bulkDeleteIds_sent_are_young K R timestampFrom now client channel _).2.1 ch l h id hid).2
    | numeric n =>
      simp only [TextBasedChannel.bulkDelete] at h
      cases ho : (R.fetch client channel n).outcome with
      | error e =>
        simp only [ho] at h
        obtain ⟨c2, l2, h2⟩ := hfetch n _ h
        cases h2
      | ok msgs =>
        simp only [ho] at h
        rcases List.mem_append.1 h with h1 | h1
        · obtain ⟨c2, l2, h2⟩ := hfetch n _ h1
          cases h2
        · exact fun id hid =>
            ((bulkDeleteIds_sent_are_young K R timestampFrom now _ channel _).2.1 ch l h1 id hid).2
    | other => cases h
  · intro ms hm hold
    subst hm
    refine (bulkDeleteIds_sent_are_young K R timestampFrom now client channel _).2.2.2 ?_
    intro id hid
    obtain ⟨m, hmem, rfl⟩ := List.mem_map.1 hid
    exact hold m hmem
  · intro c hm hold
    subst hm
    refine (bulkDeleteIds_sent_are_young K R timestampFrom now client channel _).2.2.2 ?_
    intro id hid
    obtain ⟨p, hmem, rfl⟩ := List.mem_map.1 hid
    exact hold p hmem

/-- Witness of C33 on the sample text channel at the instant 2000000001000: of
the messages 40 and 41 only the young message 40 is sent, to the deletion of one
message; the old message 41 alone issues no call; five fetched messages go
through the same filter. -/
theorem bulkDelete_filterOld_witness :
    (TextBasedChannel.bulkDelete sampleConstants sampleMessageRemote sampleTimestampFrom
        2000000001000 samplePollClient sampleTextChannel
        (BulkDeleteArgument.array [MessageResolvable.id "40", MessageResolvable.id "41"])
        true).requests = [ApiRequest.deleteMessage "30" "40"]
    ∧ TextBasedChannel.bulkDelete sampleConstants sampleMessageRemote sampleTimestampFrom
        2000000001000 samplePollClient sampleTextChannel
        (BulkDeleteArgument.array [MessageResolvable.id "41"]) true
      = ⟨samplePollClient, [], Except.ok []⟩
    ∧ (TextBasedChannel.bulkDelete sampleConstants sampleMessageRemote sampleTimestampFrom
        2000000001000 samplePollClient sampleTextChannel (BulkDeleteArgument.numeric 5)
        true).requests = [ApiRequest.fetchMessages "30" 5, ApiRequest.deleteMessage "30" "40"]
    ∧ (∀ ch id, ApiRequest.deleteMessage ch id
        ∈ (TextBasedChannel.bulkDelete sampleConstants sampleMessageRemote sampleTimestampFrom
            2000000001000 samplePollClient sampleTextChannel (BulkDeleteArgument.numeric 5)
            true).requests →
        2000000001000 - sampleTimestampFrom id < sampleConstants.MaxBulkDeletableMessageAge) :=
  ⟨by decide,
    (bulkDelete_filterOld sampleConstants sampleMessageRemote sampleTimestampFrom 2000000001000
      samplePollClient sampleTextChannel (BulkDeleteArgument.array [MessageResolvable.id "41"])
      (fun n req h => ⟨"30", n, List.mem_singleton.1 h⟩)).2.2.1 _ rfl (by decide),
    by decide,
    (bulkDelete_filterOld sampleConstants sampleMessageRemote sampleTimestampFrom 2000000001000
      samplePollClient sampleTextChannel (BulkDeleteArgument.numeric 5)
      (fun n req h => ⟨"30", n, List.mem_singleton.1 h⟩)).1⟩

/-! ## Type normalisation of components -/

/-- The name of a kind resolves to the code of the kind. -/
theorem resolveSwitchType_name (K : Constants) (kind : ComponentKind) :
    resolveSwitchType K (TypeResolvable.name kind.name) = some (K.MessageComponentTypes kind) := by
  cases kind <;> rfl

/-- The code of a kind that no other kind shares selects the case of the kind. -/
theorem switchCase_code (K : Constants) (kind : ComponentKind)
    (hK : ∀ k, K.MessageComponentTypes k = K.MessageComponentTypes kind → k = kind) :
    switchCase K (some (K.MessageComponentTypes kind)) = some kind := by
  unfold switchCase
  have hgen : ∀ l : List ComponentKind, kind ∈ l →
      l.find? (fun k => some (K.MessageComponentTypes kind) == some (K.MessageComponentTypes k))
        = some kind := by
    intro l
    induction l with
    | nil => intro h; cases h
    | cons a t ih =>
      intro h
      by_cases ha : K.MessageComponentTypes a = K.MessageComponentTypes kind
      · have := hK a ha
        subst this
        simp [List.find?_cons]
      · have hne : a ≠ kind := fun e => ha (e ▸ rfl)
        have hmem : kind ∈ t := by
          rcases List.mem_cons.1 h with h1 | h1
          · exact absurd h1.symm hne
          · exact h1
        have hb : (some (K.MessageComponentTypes kind) == some (K.MessageComponentTypes a))
            = false := by
          simp only [beq_eq_false_iff_ne, ne_eq, Option.some.injEq]
          exact fun e => ha e.symm
        rw [List.find?_cons, hb]
        exact ih hmem
  exact hgen _ (ComponentKind.mem_all kind)

/-- A sequenced computation that returns has returned in both steps. -/
theorem Emitting.andThen_ok {α β : Type} (x : Emitting α) (f : α → Emitting β) (b : β)
    (h : (Emitting.andThen x f).2 = Except.ok b) :
    ∃ a, x.2 = Except.ok a ∧ (f a).2 = Except.ok b := by
  unfold Emitting.andThen at h
  cases hx : x.2 with
  | error e => simp [hx] at h
  | ok a =>
    simp only [hx] at h
    exact ⟨a, rfl, h⟩

/-- The component that `create` returns in the case of a kind has the name of the
kind as its `type`. -/
theorem create_type_of_case {ρ : Type} (K : Constants) (E : ComponentClasses ρ)
    (type : TypeResolvable) (fields : ComponentFields) (client : Bool) (kind : ComponentKind)
    (hsw : switchCase K (resolveSwitchType K type) = some kind) (c : Option (Component ρ))
    (h : (BaseMessageComponent.create K E (ComponentData.mk type fields) client).2
      = Except.ok c) :
    ∃ c2, c = some c2 ∧ c2.type = kind.name := by
  rw [BaseMessageComponent.create] at h
  simp only [hsw] at h
  obtain ⟨id, components, accessory, component, label, description, accent_color, spoiler,
    props⟩ := fields
  cases kind
  case SECTION =>
    obtain ⟨a, ha, hc⟩ := Emitting.andThen_ok _ _ _ h
    unfold SectionComponent.new at ha
    obtain ⟨cs, _, ha2⟩ := Emitting.andThen_ok _ _ _ ha
    obtain ⟨acc, _, ha3⟩ := Emitting.andThen_ok _ _ _ ha2
    cases ha3
    cases hc
    exact ⟨_, rfl, rfl⟩
  case CONTAINER =>
    obtain ⟨a, ha, hc⟩ := Emitting.andThen_ok _ _ _ h
    unfold ContainerComponent.new at ha
    obtain ⟨cs, _, ha2⟩ := Emitting.andThen_ok _ _ _ ha
    cases hc
    cases accent_color with
    | none =>
      cases ha2
      exact ⟨_, rfl, rfl⟩
    | some col =>
      simp only at ha2
      cases hcol : E.resolveColor col with
      | error e => simp [hcol] at ha2
      | ok n =>
        simp only [hcol] at ha2
        cases ha2
        exact ⟨_, rfl, rfl⟩
  case LABEL =>
    obtain ⟨a, ha, hc⟩ := Emitting.andThen_ok _ _ _ h
    unfold LabelComponent.new at ha
    obtain ⟨inner, _, ha2⟩ := Emitting.andThen_ok _ _ _ ha
    cases ha2
    cases hc
    exact ⟨_, rfl, rfl⟩
  all_goals
    obtain ⟨a, _, hc⟩ := Emitting.andThen_ok _ _ _ h
    cases hc
    exact ⟨_, rfl, rfl⟩

/-- Claim C35. Type normalisation of the V2 component kinds (section, text
display, thumbnail, media gallery, file, separator, container, label), the code
of the kind being the code of no other kind: `create` on data whose type is the
string name of the kind and on the same data whose type is the numeric code of
the kind has the same outcome, event for event and field for field; a component
it returns is built, has the string name as its `type`, and serializes the
numeric code of the kind as the `type` of `toJSON`. -/
theorem create_normalises_type {ρ : Type} (K : Constants) (L : ComponentClasses ρ)
    (kind : ComponentKind) (hkind : kind ∈ ComponentKind.v2)
    (hK : ∀ k, K.MessageComponentTypes k = K.MessageComponentTypes kind → k = kind)
    (fields : ComponentFields) (client : Bool) :
    BaseMessageComponent.create K (ComponentClasses.ofSources K L)
        (ComponentData.mk (TypeResolvable.name kind.name) fields) client
      = BaseMessageComponent.create K (ComponentClasses.ofSources K L)
        (ComponentData.mk (TypeResolvable.code (K.MessageComponentTypes kind)) fields) client
    ∧ (∀ c, (BaseMessageComponent.create K (ComponentClasses.ofSources K L)
          (ComponentData.mk (TypeResolvable.name kind.name) fields) client).2 = Except.ok c →
        ∃ c2, c = some c2 ∧ c2.type = kind.name
          ∧ c2.toJSONType K = some (K.MessageComponentTypes kind)) := by
  have h1 : switchCase K (resolveSwitchType K (TypeResolvable.name kind.name)) = some kind := by
    rw [resolveSwitchType_name]
    exact switchCase_code K kind hK
  have h2 : switchCase K (resolveSwitchType K
      (TypeResolvable.code (K.MessageComponentTypes kind))) = some kind :=
    switchCase_code K kind hK
  constructor
  · rw [BaseMessageComponent.create, BaseMessageComponent.create]
    simp only [h1, h2]
    simp only [ComponentKind.v2, List.mem_cons, List.mem_singleton, List.not_mem_nil,
      or_false] at hkind
    rcases hkind with h | h | h | h | h | h | h | h <;> subst h <;> rfl
  · intro c hc
    obtain ⟨c2, hc2, ht⟩ := create_type_of_case K _ _ fields client kind h1 c hc
    refine ⟨c2, hc2, ht, ?_⟩
    rw [Component.toJSONType, ht, resolveSwitchType_name]

/-- Witness of C35 with the sample table, in which the text display kind has the
code 10: the data of a text display is given once with the type name and once
with the code. -/
theorem create_normalises_type_witness :
    BaseMessageComponent.create sampleConstants
        (ComponentClasses.ofSources sampleConstants sampleComponentClasses)
        (ComponentData.mk (TypeResolvable.name "TEXT_DISPLAY") sampleTextFields) false
      = BaseMessageComponent.create sampleConstants
        (ComponentClasses.ofSources sampleConstants sampleComponentClasses)
        (ComponentData.mk (TypeResolvable.code 10) sampleTextFields) false
    ∧ BaseMessageComponent.create sampleConstants
        (ComponentClasses.ofSources sampleConstants sampleComponentClasses)
        (ComponentData.mk (TypeResolvable.code 10) sampleTextFields) false
      = ([], Except.ok (some (Component.other ComponentKind.TEXT_DISPLAY
          (ComponentObject.textDisplay
            { id := some 3, content := some (JSValue.string "Hello") }))))
    ∧ (Component.other ComponentKind.TEXT_DISPLAY
          (ComponentObject.textDisplay
            { id := some 3, content := some (JSValue.string "Hello") })
        : Component (ComponentObject ComponentData)).type = "TEXT_DISPLAY"
    ∧ (Component.other ComponentKind.TEXT_DISPLAY
          (ComponentObject.textDisplay
            { id := some 3, content := some (JSValue.string "Hello") })
        : Component (ComponentObject ComponentData)).toJSONType sampleConstants = some 10 :=
  ⟨(create_normalises_type sampleConstants sampleComponentClasses ComponentKind.TEXT_DISPLAY
      (by decide) (by intro k; cases k <;> decide) sampleTextFields false).1,
    rfl, rfl, rfl⟩

/-! ## Clone isolation in the object store -/

/-- A date that a valid reference reaches is the same date after more dates are
allocated. -/
theorem ObjectStore.date_of_extended (store : ObjectStore) (more : List JSDate)
    (arrays : Heap (List Snowflake)) (r : Option Ref)
    (hr : ∀ x, r = some x → x < store.dates.length) :
    ObjectStore.date { arrays := arrays, dates := store.dates ++ more } r = store.date r := by
  cases r with
  | none => rfl
  | some x =>
    simp only [ObjectStore.date, Option.bind]
    exact List.getElem?_append_left (hr x rfl)

/-- The dates that `Subscription._patch` leaves in the store: the dates that were
there, then the new ones; the arrays are as they were. -/
theorem subscription_patchObject_store (K : Constants) (store : ObjectStore)
    (s : SubscriptionObject) (data : SubscriptionPayload) :
    ∃ more, (Subscription._patchObject K store s data).1
      = { arrays := store.arrays, dates := store.dates ++ more } := by
  by_cases hc : truthy data.canceled_at = true
  · exact ⟨[⟨data.current_period_start⟩, ⟨data.current_period_end⟩, ⟨data.canceled_at⟩],
      by simp [Subscription._patchObject, Heap.alloc, hc]⟩
  · exact ⟨[⟨data.current_period_start⟩, ⟨data.current_period_end⟩],
      by simp [Subscription._patchObject, Heap.alloc, hc]⟩

/-- The dates that `Entitlement._patch` leaves in the store: the dates that were
there, then the new ones; the arrays are as they were. -/
theorem entitlement_patchObject_store (K : Constants) (store : ObjectStore)
    (e : EntitlementObject) (data : EntitlementData) :
    ∃ more, (Entitlement._patchObject K store e data).1
      = { arrays := store.arrays, dates := store.dates ++ more } := by
  by_cases hs : truthy data.starts_at = true <;> by_cases he : truthy data.ends_at = true
  · exact ⟨[⟨data.starts_at⟩, ⟨data.ends_at⟩],
      by simp [Entitlement._patchObject, Heap.alloc, hs, he]⟩
  · exact ⟨[⟨data.starts_at⟩], by simp [Entitlement._patchObject, Heap.alloc, hs, he]⟩
  · exact ⟨[⟨data.ends_at⟩], by simp [Entitlement._patchObject, Heap.alloc, hs, he]⟩
  · exact ⟨[], by simp [Entitlement._patchObject, Heap.alloc, hs, he]⟩

/-- The method `Subscription._patch` on the object store does what it does on the
values: the values of the object it leaves are the patch of the values of the
object by the values of the payload. -/
theorem subscription_patchObject_read (K : Constants) (store : ObjectStore)
    (s : SubscriptionObject) (data : SubscriptionPayload) :
    SubscriptionObject.read (Subscription._patchObject K store s data).1
        (Subscription._patchObject K store s data).2
      = Subscription._patch K (SubscriptionObject.read store s) (data.read store) := by
  by_cases hc : truthy data.canceled_at = true
  · simp [Subscription._patchObject, Subscription._patch, SubscriptionObject.read,
      SubscriptionPayload.read, ObjectStore.array, ObjectStore.date, Heap.alloc, hc,
      List.getElem_append_right]
  · simp [Subscription._patchObject, Subscription._patch, SubscriptionObject.read,
      SubscriptionPayload.read, ObjectStore.array, ObjectStore.date, Heap.alloc, hc,
      List.getElem_append_right]

/-- The method `Entitlement._patch` on the object store does what it does on the
values. -/
theorem entitlement_patchObject_read (K : Constants) (store : ObjectStore)
    (e : EntitlementObject) (data : EntitlementData) :
    EntitlementObject.read (Entitlement._patchObject K store e data).1
        (Entitlement._patchObject K store e data).2
      = Entitlement._patch K (EntitlementObject.read store e) data := by
  by_cases hs : truthy data.starts_at = true <;> by_cases he : truthy data.ends_at = true <;>
    simp [Entitlement._patchObject, Entitlement._patch, EntitlementObject.read,
      ObjectStore.date, Heap.alloc, hs, he, List.getElem_append_right]

/-- Claim C22. Clone isolation for `Subscription` and `Entitlement`, with the
arrays and the dates of an entity as objects that a clone shares with the
original: when a clone is taken and the original is then patched with any
payload, the clone is a different object whose fields still hold what they held,
and every array and every date that the clone refers to has exactly the value
it had when the clone was taken, for `_patch` stores new references in the
original and writes into no array and no date; the original carries the patch. -/
theorem clone_isolated_from_patch (K : Constants) (store : ObjectStore)
    (hs : Heap SubscriptionObject) (rs : Ref) (s : SubscriptionObject) (ds : SubscriptionPayload)
    (he : Heap EntitlementObject) (re : Ref) (e : EntitlementObject) (de : EntitlementData) :
    (hs[rs]? = some s → s.valid store = true →
        (Base._clone hs s).2 ≠ rs
        ∧ ((Base._clone hs s).1.mutate rs
            (fun o => (Subscription._patchObject K store o ds).2))[(Base._clone hs s).2]? = some s
        ∧ SubscriptionObject.read (Subscription._patchObject K store s ds).1 s
            = SubscriptionObject.read store s
        ∧ ((Base._clone hs s).1.mutate rs
            (fun o => (Subscription._patchObject K store o ds).2))[rs]?
            = some (Subscription._patchObject K store s ds).2
        ∧ SubscriptionObject.read (Subscription._patchObject K store s ds).1
              (Subscription._patchObject K store s ds).2
            = Subscription._patch K (SubscriptionObject.read store s) (ds.read store))
    ∧ (he[re]? = some e → e.valid store = true →
        (Base._clone he e).2 ≠ re
        ∧ ((Base._clone he e).1.mutate re
            (fun o => (Entitlement._patchObject K store o de).2))[(Base._clone he e).2]? = some e
        ∧ EntitlementObject.read (Entitlement._patchObject K store e de).1 e
            = EntitlementObject.read store e
        ∧ ((Base._clone he e).1.mutate re
            (fun o => (Entitlement._patchObject K store o de).2))[re]?
            = some (Entitlement._patchObject K store e de).2
        ∧ EntitlementObject.read (Entitlement._patchObject K store e de).1
              (Entitlement._patchObject K store e de).2
            = Entitlement._patch K (EntitlementObject.read store e) de) := by
  constructor
  · intro hr hv
    have hlt := Heap.lt_length_of_getElem? _ hr
    have hr2 : (hs ++ [s])[rs]? = some s := by
      rw [List.getElem?_append_left hlt]; exact hr
    simp only [SubscriptionObject.valid, List.all_cons, List.all_nil, Bool.and_true,
      Bool.and_eq_true] at hv
    obtain ⟨more, hstore⟩ := subscription_patchObject_store K store s ds
    refine ⟨?_, ?_, ?_, ?_, subscription_patchObject_read K store s ds⟩
    · simp only [Base._clone, Heap.alloc]
      exact fun h => Nat.lt_irrefl rs (h ▸ hlt)
    · simp only [Base._clone, Heap.alloc]
      rw [Heap.getElem?_mutate_ne _ _ (Nat.ne_of_lt hlt)]
      simp
    · rw [hstore]
      have h1 := ObjectStore.date_of_extended store more store.arrays s.currentPeriodStart
        (fun x hx => by simpa [hx] using hv.1)
      have h2 := ObjectStore.date_of_extended store more store.arrays s.currentPeriodEnd
        (fun x hx => by simpa [hx] using hv.2.1)
      have h3 := ObjectStore.date_of_extended store more store.arrays s.canceledAt
        (fun x hx => by simpa [hx] using hv.2.2)
      simp only [SubscriptionObject.read, h1, h2, h3]
      rfl
    · simp only [Base._clone, Heap.alloc]
      exact Heap.getElem?_mutate_self _ _ hr2
  · intro hr hv
    have hlt := Heap.lt_length_of_getElem? _ hr
    have hr2 : (he ++ [e])[re]? = some e := by
      rw [List.getElem?_append_left hlt]; exact hr
    simp only [EntitlementObject.valid, List.all_cons, List.all_nil, Bool.and_true,
      Bool.and_eq_true] at hv
    obtain ⟨more, hstore⟩ := entitlement_patchObject_store K store e de
    refine ⟨?_, ?_, ?_, ?_, entitlement_patchObject_read K store e de⟩
    · simp only [Base._clone, Heap.alloc]
      exact fun h => Nat.lt_irrefl re (h ▸ hlt)
    · simp only [Base._clone, Heap.alloc]
      rw [Heap.getElem?_mutate_ne _ _ (Nat.ne_of_lt hlt)]
      simp
    · rw [hstore]
      have h1 := ObjectStore.date_of_extended store more store.arrays e.startsAt
        (fun x hx => by simpa [hx] using hv.1)
      have h2 := ObjectStore.date_of_extended store more store.arrays e.endsAt
        (fun x hx => by simpa [hx] using hv.2)
      simp only [EntitlementObject.read, h1, h2]
    · simp only [Base._clone, Heap.alloc]
      exact Heap.getElem?_mutate_self _ _ hr2

/-- Witness of C22 in the sample store: the sample subscription object, with its
arrays and its three dates, is cloned and then patched with the sample payload;
the clone reads as the sample subscription before and after, the original reads
with the SKUs 7 and 9 and without a cancellation time. -/
theorem clone_isolated_from_patch_witness :
    SubscriptionObject.read sampleStore sampleSubscriptionObject = sampleSubscription
    ∧ SubscriptionObject.read
        (Subscription._patchObject sampleConstants sampleStore sampleSubscriptionObject
          sampleSubscriptionPayload).1 sampleSubscriptionObject = sampleSubscription
    ∧ (SubscriptionObject.read
        (Subscription._patchObject sampleConstants sampleStore sampleSubscriptionObject
          sampleSubscriptionPayload).1
        (Subscription._patchObject sampleConstants sampleStore sampleSubscriptionObject
          sampleSubscriptionPayload).2).skuIds = some ["7", "9"]
    ∧ (SubscriptionObject.read
        (Subscription._patchObject sampleConstants sampleStore sampleSubscriptionObject
          sampleSubscriptionPayload).1
        (Subscription._patchObject sampleConstants sampleStore sampleSubscriptionObject
          sampleSubscriptionPayload).2).canceledAt = none
    ∧ EntitlementObject.read
        (Entitlement._patchObject sampleConstants sampleStore sampleEntitlementObject
          sampleEntitlementData).1 sampleEntitlementObject
      = EntitlementObject.read sampleStore sampleEntitlementObject :=
  have h := clone_isolated_from_patch sampleConstants sampleStore
    [sampleSubscriptionObject] 0 sampleSubscriptionObject sampleSubscriptionPayload
    [sampleEntitlementObject] 0 sampleEntitlementObject sampleEntitlementData
  ⟨by decide, (h.1 rfl rfl).2.2.1.trans (by decide), by decide, by decide,
    (h.2 rfl rfl).2.2.1⟩

end DiscordJS
